import Mathlib

/-!
# LED / pattern firmware: shallow embedding

The firmware modules `led_controller.c`, `timer_handler.c`, `pattern_controller.c`,
`uart_handler.c` and `command_parser.c` keep their state in file-level `static` variables.
Here the union of those variables is one record, `State`, and every C function becomes a
function on `State` (returning the C return value next to the new state when it has one).

Conventions
* a byte (`char`, `uint8_t`) is a `Nat`; casts to `uint8_t` are written `% 256`;
* a `char*` is the list of bytes found at the pointer; the C string it denotes is `cstr`
  of that list (the bytes before the first NUL);
* every call of `UART_SendString` appends the transmitted bytes as one entry to `State.tx`.
-/

namespace Firmware

/-! ## C library helpers -/

/-- Bytes of a string literal. -/
def str (lit : String) : List Nat := lit.toList.map Char.toNat

/-- The C string stored at a pointer: the bytes before the first NUL. -/
def cstr (m : List Nat) : List Nat := m.takeWhile (fun c => c != 0)

/-- Model of `strlen(m)`. -/
def strlen (m : List Nat) : Nat := (cstr m).length

/-- Model of `strcmp(a, b) == 0`. -/
def strcmp_eq (a b : List Nat) : Bool := cstr a == cstr b

/-- Model of `strncmp(a, b, n) == 0`. -/
def strncmp_eq (a b : List Nat) (n : Nat) : Bool := (cstr a).take n == (cstr b).take n

/-- Model of `m[i]`; only used at indices `i <= strlen m`, where reading past the end of the
list stands for reading the terminating NUL. -/
def charAt (m : List Nat) (i : Nat) : Nat := m.getD i 0

/-- Model of `toupper` in the C locale. -/
def toupper (c : Nat) : Nat := if 97 ≤ c ∧ c ≤ 122 then c - 32 else c

/-- Model of `isprint` in the C locale. -/
def isprint (c : Nat) : Bool := decide (32 ≤ c ∧ c ≤ 126)

/-- Model of `isdigit`. -/
def isdigit (c : Nat) : Bool := decide (48 ≤ c ∧ c ≤ 57)

/-- Model of `snprintf(buf, size, ...)`: at most `size - 1` bytes of the formatted text are kept. -/
def snprintf (size : Nat) (text : List Nat) : List Nat := text.take (size - 1)

/-- Output of the `%d` conversion for a non-negative value. -/
def fmt_d (n : Nat) : List Nat := (Nat.toDigits 10 n).map Char.toNat

/-! ## Constants -/

def LED_COUNT : Nat := 3
def LED_OFF : Nat := 0
def LED_ON : Nat := 1
def LED_ERROR : Nat := 2

def PATTERN_COUNT : Nat := 3
def PATTERN_NONE : Nat := 0
def PATTERN_1 : Nat := 1
def PATTERN_2 : Nat := 2
def PATTERN_3 : Nat := 3

def PATTERN_FREQ_500MS : Nat := 0
def PATTERN_FREQ_1S : Nat := 1
def PATTERN_FREQ_3S : Nat := 2

def TIMER_COUNT : Nat := 3
def COMMAND_BUFFER_SIZE : Nat := 64
def UART_BUFFER_SIZE : Nat := 64

def GPIO_PIN_0 : Nat := 0x0001
def GPIO_PIN_7 : Nat := 0x0080
def GPIO_PIN_14 : Nat := 0x4000

def LED1_PIN : Nat := GPIO_PIN_0
def LED2_PIN : Nat := GPIO_PIN_7
def LED3_PIN : Nat := GPIO_PIN_14

def CMD_LED : List Nat := str "LED"
def CMD_CHENILLARD : List Nat := str "CHENILLARD"
def CMD_ON : List Nat := str "ON"
def CMD_OFF : List Nat := str "OFF"
def CMD_FREQ_PREFIX : List Nat := str "FREQUENCE"
def CMD_STATUS : List Nat := str "STATUS"
def CMD_PAT : List Nat := str "PAT"
def CMD_FREQ : List Nat := str "FREQ"
def CMD_STOP : List Nat := str "STOP"

/-! ## State -/

/-- All module-level variables of the firmware, the levels of the three LED pins of port
GPIOB, and the log of transmitted strings. -/
structure State where
  /-- level of PB0 (LED1) -/
  pb0 : Bool
  /-- level of PB7 (LED2) -/
  pb7 : Bool
  /-- level of PB14 (LED3) -/
  pb14 : Bool
  /-- pattern_controller.c -/
  activePattern : Nat
  currentFrequency : Nat
  patternStep : Nat
  patternNeedsUpdate : Bool
  /-- timer_handler.c -/
  timerActive : List Bool
  /-- command_parser.c -/
  commandBuffer : List Nat
  bufferIndex : Nat
  commandComplete : Bool
  /-- uart_handler.c -/
  rxBuffer : List Nat
  rxIndex : Nat
  rxOverflow : Bool
  /-- strings handed to `UART_SendString`, oldest first -/
  tx : List (List Nat)
deriving DecidableEq, Repr

/-- Outcomes of the vendor timer driver calls, per timer index (0 = TIM2, 1 = TIM3, 2 = TIM4):
whether `HAL_TIM_Base_Start_IT` and `HAL_TIM_Base_Stop_IT` return `HAL_OK`. -/
structure HAL where
  tim_start_ok : Nat → Bool
  tim_stop_ok : Nat → Bool

/-! ## Pin driver -/

/-- Modelled from the spec: the pin driver capability "set output N high/low". The vendor
driver `HAL_GPIO_WritePin` is not part of the sources; it drives every pin of the mask to the
given level. -/
def HAL_GPIO_WritePin (pin : Nat) (level : Bool) (s : State) : State :=
  { s with
    pb0 := if pin.testBit 0 then level else s.pb0
    pb7 := if pin.testBit 7 then level else s.pb7
    pb14 := if pin.testBit 14 then level else s.pb14 }

/-- Modelled from the spec: the pin driver capability "read output N" (`HAL_GPIO_ReadPin`):
true when a pin of the mask is high. -/
def HAL_GPIO_ReadPin (pin : Nat) (s : State) : Bool :=
  (pin.testBit 0 && s.pb0) || (pin.testBit 7 && s.pb7) || (pin.testBit 14 && s.pb14)

/-- Modelled from the spec: the pin driver inverting every pin of the mask
(`HAL_GPIO_TogglePin`). -/
def HAL_GPIO_TogglePin (pin : Nat) (s : State) : State :=
  { s with
    pb0 := if pin.testBit 0 then !s.pb0 else s.pb0
    pb7 := if pin.testBit 7 then !s.pb7 else s.pb7
    pb14 := if pin.testBit 14 then !s.pb14 else s.pb14 }

/-! ## uart_handler.c -/

def UART_SendString (text : List Nat) (s : State) : State :=
  { s with tx := s.tx ++ [cstr text] }

def UART_HasOverflow (s : State) : Bool × State :=
  (s.rxOverflow, { s with rxOverflow := false })

/-! ## timer_handler.c -/

def Timer_Start (hal : HAL) (timerType : Nat) (s : State) : Bool × State :=
  if timerType = PATTERN_FREQ_500MS ∨ timerType = PATTERN_FREQ_1S ∨ timerType = PATTERN_FREQ_3S then
    if hal.tim_start_ok timerType then
      (true, { s with timerActive := s.timerActive.set timerType true })
    else (false, s)
  else (false, s)

def Timer_Stop (hal : HAL) (timerType : Nat) (s : State) : Bool × State :=
  if timerType = PATTERN_FREQ_500MS ∨ timerType = PATTERN_FREQ_1S ∨ timerType = PATTERN_FREQ_3S then
    if hal.tim_stop_ok timerType then
      (true, { s with timerActive := s.timerActive.set timerType false })
    else (false, s)
  else (false, s)

/-! ## led_controller.c -/

def Pattern_IsActive (s : State) : Bool := s.activePattern != PATTERN_NONE

def LED_IsValidNumber (ledNumber : Nat) : Bool :=
  decide (ledNumber ≥ 1 ∧ ledNumber ≤ LED_COUNT)

def LED_NumberToPin (ledNumber : Nat) : Nat :=
  match ledNumber with
  | 1 => LED1_PIN
  | 2 => LED2_PIN
  | 3 => LED3_PIN
  | _ => 0

def LED_ForceState (ledNumber : Nat) (state : Nat) (s : State) : State :=
  if !LED_IsValidNumber ledNumber then s
  else
    let pin := LED_NumberToPin ledNumber
    if pin = 0 then s
    else HAL_GPIO_WritePin pin (state == LED_ON) s

def LED_SetState (ledNumber : Nat) (state : Nat) (s : State) : Bool × State :=
  if !LED_IsValidNumber ledNumber then (false, s)
  else if Pattern_IsActive s then (false, s)
  else
    let pin := LED_NumberToPin ledNumber
    if pin = 0 then (false, s)
    else (true, HAL_GPIO_WritePin pin (state == LED_ON) s)

def LED_GetState (ledNumber : Nat) (s : State) : Nat :=
  if !LED_IsValidNumber ledNumber then LED_ERROR
  else
    let pin := LED_NumberToPin ledNumber
    if pin = 0 then LED_ERROR
    else if HAL_GPIO_ReadPin pin s then LED_ON else LED_OFF

def LED_Toggle (ledNumber : Nat) (s : State) : Bool × State :=
  if !LED_IsValidNumber ledNumber then (false, s)
  else (true, HAL_GPIO_TogglePin (LED_NumberToPin ledNumber) s)

/-- The function `LED_Controller_Init`: after the port configuration (clock enable and
`HAL_GPIO_Init`, vendor calls that write no pin level) it calls `LED_SetState(i, LED_OFF)` for
i = 1, 2, 3 and ignores the return values. -/
def LED_Controller_Init (s : State) : State :=
  let s1 := (LED_SetState 1 LED_OFF s).2
  let s2 := (LED_SetState 2 LED_OFF s1).2
  (LED_SetState 3 LED_OFF s2).2

/-- The loop `for (i = 1; i <= LED_COUNT; i++) LED_ForceState(i, LED_OFF);`. -/
def LED_AllOff (s : State) : State :=
  (List.range' 1 LED_COUNT).foldl (fun st i => LED_ForceState i LED_OFF st) s

/-! ## pattern_controller.c -/

def Pattern_Controller_Init (s : State) : State :=
  { s with
    activePattern := PATTERN_NONE
    currentFrequency := PATTERN_FREQ_1S
    patternStep := 0
    patternNeedsUpdate := false }

def Pattern_Stop (hal : HAL) (s : State) : Bool × State :=
  if s.activePattern = PATTERN_NONE then (false, s)
  else
    let s1 := (Timer_Stop hal (s.currentFrequency % 256) s).2
    let s2 := { s1 with activePattern := PATTERN_NONE }
    (true, LED_AllOff s2)

def Pattern_Start (hal : HAL) (pattern : Nat) (s : State) : Bool × State :=
  if pattern ≤ PATTERN_NONE ∨ pattern > PATTERN_COUNT then (false, s)
  else
    let s1 := if s.activePattern ≠ PATTERN_NONE then (Pattern_Stop hal s).2 else s
    let s2 := { s1 with activePattern := pattern, patternStep := 0 }
    let s3 := (Timer_Start hal (s2.currentFrequency % 256) s2).2
    (true, { s3 with patternNeedsUpdate := true })

def Pattern_SetFrequency (hal : HAL) (freq : Nat) (s : State) : Bool × State :=
  if freq < PATTERN_FREQ_500MS ∨ freq > PATTERN_FREQ_3S then (false, s)
  else if s.activePattern ≠ PATTERN_NONE then
    let s1 := (Timer_Stop hal (s.currentFrequency % 256) s).2
    let s2 := { s1 with currentFrequency := freq }
    (true, (Timer_Start hal (s2.currentFrequency % 256) s2).2)
  else (true, { s with currentFrequency := freq })

def Pattern_GetActive (s : State) : Nat := s.activePattern

def Pattern_GetFrequency (s : State) : Nat := s.currentFrequency

def Pattern1_Update (s : State) : State :=
  let s1 := LED_AllOff s
  let s2 := LED_ForceState ((s1.patternStep + 1) % 256) LED_ON s1
  { s2 with patternStep := (s2.patternStep + 1) % LED_COUNT }

def Pattern2_Update (s : State) : State :=
  let s1 :=
    if s.patternStep = 0 then
      LED_ForceState 3 LED_ON (LED_ForceState 2 LED_OFF (LED_ForceState 1 LED_ON s))
    else
      LED_ForceState 3 LED_OFF (LED_ForceState 2 LED_ON (LED_ForceState 1 LED_OFF s))
  { s1 with patternStep := (s1.patternStep + 1) % 2 }

def Pattern3_Update (s : State) : State :=
  let s1 := LED_AllOff s
  let s2 :=
    match s1.patternStep with
    | 0 => LED_ForceState 1 LED_ON s1
    | 1 => LED_ForceState 2 LED_ON (LED_ForceState 1 LED_ON s1)
    | 2 => LED_ForceState 3 LED_ON (LED_ForceState 2 LED_ON (LED_ForceState 1 LED_ON s1))
    | 3 => LED_ForceState 3 LED_ON (LED_ForceState 2 LED_ON s1)
    | 4 => LED_ForceState 3 LED_ON s1
    | _ => s1
  { s2 with patternStep := (s2.patternStep + 1) % 6 }

def Pattern_Controller_Update (s : State) : State :=
  if !s.patternNeedsUpdate || s.activePattern = PATTERN_NONE then s
  else
    let s1 :=
      match s.activePattern with
      | 1 => Pattern1_Update s
      | 2 => Pattern2_Update s
      | 3 => Pattern3_Update s
      | _ => s
    { s1 with patternNeedsUpdate := false }

def Pattern_TimerCallback (timerType : Nat) (s : State) : State :=
  if s.activePattern ≠ PATTERN_NONE ∧ timerType = s.currentFrequency then
    { s with patternNeedsUpdate := true }
  else s

/-! ## command_parser.c -/

def Command_Parser_Init (s : State) : State :=
  { s with
    commandBuffer := List.replicate COMMAND_BUFFER_SIZE 0
    bufferIndex := 0
    commandComplete := false }

def Command_Parser_ProcessChar (c : Nat) (s : State) : State :=
  let s0 :=
    if s.commandComplete then
      { s with
        commandBuffer := List.replicate COMMAND_BUFFER_SIZE 0
        bufferIndex := 0
        commandComplete := false }
    else s
  let upperC := toupper (c % 256)
  if upperC = 10 then s0
  else if upperC = 13 then
    { s0 with
      commandBuffer := s0.commandBuffer.set s0.bufferIndex 0
      commandComplete := true }
  else if upperC = 8 ∨ upperC = 127 then
    if s0.bufferIndex > 0 then
      { s0 with
        bufferIndex := s0.bufferIndex - 1
        commandBuffer := s0.commandBuffer.set (s0.bufferIndex - 1) 0 }
    else s0
  else if s0.bufferIndex < COMMAND_BUFFER_SIZE - 1 ∧ isprint upperC then
    { s0 with
      commandBuffer := s0.commandBuffer.set s0.bufferIndex upperC
      bufferIndex := s0.bufferIndex + 1 }
  else s0

def Send_Success_Message (message : List Nat) (s : State) : State :=
  let msgLen := strlen message
  if msgLen > 2 ∧ charAt message (msgLen - 2) = 13 ∧ charAt message (msgLen - 1) = 10 then
    UART_SendString (snprintf 100 (str "[OK] " ++ cstr message)) s
  else
    UART_SendString (snprintf 100 (str "[OK] " ++ cstr message ++ str "\r\n")) s

def Send_Error_Message (message : List Nat) (s : State) : State :=
  UART_SendString (snprintf 100 (str "[ERR] " ++ cstr message ++ str "\r\n")) s

def Execute_STOP_Command (hal : HAL) (s : State) : Bool × State :=
  let r := Pattern_Stop hal s
  if r.1 then (true, Send_Success_Message (str "Chenillard arrete\r\n") r.2)
  else (true, Send_Error_Message (str "Aucun chenillard actif a arreter") r.2)

def Execute_STATUS_Command (s : State) : Bool × State :=
  let s1 := UART_SendString (str "--- Statut ---\r\n") s
  let s2 := (List.range' 1 LED_COUNT).foldl
    (fun st i =>
      UART_SendString
        (snprintf 80 (str "LED " ++ fmt_d i ++ str ": " ++
          (if LED_GetState i st = LED_ON then CMD_ON else CMD_OFF) ++ str "\r\n")) st) s1
  let activePat := Pattern_GetActive s2
  let currentFreq := Pattern_GetFrequency s2
  let freqStr :=
    if currentFreq = PATTERN_FREQ_500MS then str "500MS"
    else if currentFreq = PATTERN_FREQ_1S then str "1S" else str "3S"
  let line :=
    if activePat = PATTERN_NONE then
      snprintf 80 (str "Chenillard: INACTIF (Freq select: " ++ freqStr ++ str ")\r\n")
    else
      snprintf 80 (str "Chenillard: ACTIF (Pattern: " ++ fmt_d activePat ++ str ", Freq: " ++
        freqStr ++ str ")\r\n")
  let s3 := UART_SendString line s2
  let ov := UART_HasOverflow s3
  if ov.1 then (true, UART_SendString (str "Attention: Debordement buffer UART detecte!\r\n") ov.2)
  else (true, ov.2)

def Parse_LED_Command (command : List Nat) (s : State) : Bool × State :=
  let pfxLen := strlen CMD_LED
  if strlen command < pfxLen + 4 then
    (false, Send_Error_Message (str "Format LED invalide (trop court)") s)
  else
    let ledNumChar := charAt command pfxLen
    if ledNumChar < 49 ∨ ledNumChar > 48 + LED_COUNT then
      (false, Send_Error_Message (str "Numero LED invalide (1-3)") s)
    else
      let ledNumber := (ledNumChar - 48) % 256
      if charAt command (pfxLen + 1) ≠ 32 then
        (false, Send_Error_Message (str "Format LED invalide (espace manquant)") s)
      else
        let stateStr := command.drop (pfxLen + 2)
        if strcmp_eq stateStr CMD_ON ∨ strcmp_eq stateStr CMD_OFF then
          let ledState := if strcmp_eq stateStr CMD_ON then LED_ON else LED_OFF
          let r := LED_SetState ledNumber ledState s
          if !r.1 then
            (false, Send_Error_Message (str "Impossible de changer LED (pattern actif?)") r.2)
          else
            let successMsg :=
              snprintf 30 (str "LED " ++ fmt_d ledNumber ++ str " mise a " ++ cstr stateStr ++ str "\r\n")
            (true, Send_Success_Message successMsg r.2)
        else
          (false, Send_Error_Message (str "Etat LED invalide (ON/OFF attendu)") s)

def Parse_Chenillard_ON_Command (hal : HAL) (command : List Nat) (s : State) : Bool × State :=
  let pfxLen := strlen CMD_CHENILLARD
  let patternNumChar := charAt command pfxLen
  if patternNumChar < 49 ∨ patternNumChar > 48 + PATTERN_COUNT then
    (false, Send_Error_Message (str "Numero chenillard invalide (1-3)") s)
  else
    let patternNumber := (patternNumChar - 48) % 256
    if !strcmp_eq (command.drop (pfxLen + 1)) (str " " ++ CMD_ON) then
      (false, Send_Error_Message (str "Format chenillard ON invalide") s)
    else
      let r := Pattern_Start hal patternNumber s
      if r.1 then
        (true, Send_Success_Message
          (snprintf 40 (str "Chenillard " ++ fmt_d patternNumber ++ str " active\r\n")) r.2)
      else
        (false, Send_Error_Message (str "Impossible de demarrer chenillard") r.2)

/-- The `switch (freqNumChar)` shared by the two frequency commands: tier and label. -/
def freqOfChar (freqNumChar : Nat) : Option (Nat × List Nat) :=
  match freqNumChar with
  | 49 => some (PATTERN_FREQ_500MS, str "500MS")
  | 50 => some (PATTERN_FREQ_1S, str "1S")
  | 51 => some (PATTERN_FREQ_3S, str "3S")
  | _ => none

def Parse_Chenillard_Frequency_Command (hal : HAL) (command : List Nat) (s : State) : Bool × State :=
  let pfx := CMD_CHENILLARD ++ str " " ++ CMD_FREQ_PREFIX
  let pfxLen := strlen pfx
  if strlen command ≠ pfxLen + 1 ∨ !strncmp_eq command pfx pfxLen then
    (false, Send_Error_Message (str "Format Frequence invalide") s)
  else
    match freqOfChar (charAt command pfxLen) with
    | none => (false, Send_Error_Message (str "Numero Frequence invalide (1-3)") s)
    | some (patternFreq, freqStr) =>
      let r := Pattern_SetFrequency hal patternFreq s
      if r.1 then
        (true, Send_Success_Message
          (snprintf 40 (str "Frequence reglee a " ++ freqStr ++ str "\r\n")) r.2)
      else
        (false, Send_Error_Message (str "Impossible de regler frequence") r.2)

def Parse_Shortcut_Command (hal : HAL) (command : List Nat) (s : State) : Bool × State :=
  if strcmp_eq command CMD_STOP then Execute_STOP_Command hal s
  else if strncmp_eq command CMD_PAT (strlen CMD_PAT) ∧ strlen command = strlen CMD_PAT + 1 then
    let patternNumChar := charAt command (strlen CMD_PAT)
    if patternNumChar ≥ 49 ∧ patternNumChar ≤ 48 + PATTERN_COUNT then
      let patternNumber := (patternNumChar - 48) % 256
      let r := Pattern_Start hal patternNumber s
      if r.1 then
        (true, Send_Success_Message
          (snprintf 40 (str "Chenillard " ++ fmt_d patternNumber ++ str " active\r\n")) r.2)
      else
        (false, Send_Error_Message (str "Impossible de demarrer chenillard") r.2)
    else
      (false, Send_Error_Message (str "Numero PAT invalide (1-3)") s)
  else if strncmp_eq command CMD_FREQ (strlen CMD_FREQ) ∧ strlen command = strlen CMD_FREQ + 1 then
    match freqOfChar (charAt command (strlen CMD_FREQ)) with
    | none => (false, Send_Error_Message (str "Numero FREQ invalide (1-3)") s)
    | some (patternFreq, freqStr) =>
      let r := Pattern_SetFrequency hal patternFreq s
      if r.1 then
        (true, Send_Success_Message
          (snprintf 40 (str "Frequence reglee a " ++ freqStr ++ str "\r\n")) r.2)
      else
        (false, Send_Error_Message (str "Impossible de regler frequence") r.2)
  else
    (false, Send_Error_Message (str "Raccourci invalide") s)

/-- The command selection of `Command_Parser_ProcessCommands` for a non-empty line: the
`if / else if` chain that sets `commandProcessed`. -/
def Command_Parser_Select (hal : HAL) (s : State) : Bool × State :=
  if strcmp_eq s.commandBuffer CMD_STATUS then Execute_STATUS_Command s
  else if strcmp_eq s.commandBuffer CMD_STOP then Execute_STOP_Command hal s
  else if strncmp_eq s.commandBuffer CMD_LED (strlen CMD_LED) then
    Parse_LED_Command s.commandBuffer s
  else if strncmp_eq s.commandBuffer CMD_CHENILLARD (strlen CMD_CHENILLARD) then
    let argPart := s.commandBuffer.drop (strlen CMD_CHENILLARD)
    if strlen argPart ≥ 4 ∧ isdigit (charAt argPart 0) ∧
        strcmp_eq (argPart.drop 1) (str " " ++ CMD_ON) then
      Parse_Chenillard_ON_Command hal s.commandBuffer s
    else if strncmp_eq argPart (str " " ++ CMD_FREQ_PREFIX) (strlen (str " " ++ CMD_FREQ_PREFIX)) then
      Parse_Chenillard_Frequency_Command hal s.commandBuffer s
    else (false, s)
  else if strncmp_eq s.commandBuffer CMD_PAT (strlen CMD_PAT) ∨
      strncmp_eq s.commandBuffer CMD_FREQ (strlen CMD_FREQ) then
    Parse_Shortcut_Command hal s.commandBuffer s
  else (false, s)

def Command_Parser_ProcessCommands (hal : HAL) (s : State) : State :=
  if !s.commandComplete then s
  else
    let isEmptyCommand : Bool := strlen s.commandBuffer == 0
    let s1 :=
      if !isEmptyCommand then
        let r := Command_Parser_Select hal s
        if !r.1 then Send_Error_Message (str "Commande inconnue ou format invalide") r.2
        else r.2
      else s
    let s2 :=
      { s1 with
        commandBuffer := List.replicate COMMAND_BUFFER_SIZE 0
        bufferIndex := 0
        commandComplete := false }
    if !isEmptyCommand then UART_SendString (str "STM32> ") s2 else s2

/-- Feeding a sequence of received characters to the line assembler, oldest first. -/
def feed (cs : List Nat) (s : State) : State :=
  cs.foldl (fun st c => Command_Parser_ProcessChar c st) s

/-- A buffer holding `line` followed by NUL bytes up to the buffer capacity. -/
def padded (line : List Nat) : List Nat :=
  line ++ List.replicate (COMMAND_BUFFER_SIZE - line.length) 0

/-- A state used to evaluate the functions on concrete inputs: everything off and empty. -/
def State.zero : State :=
  { pb0 := false, pb7 := false, pb14 := false
    activePattern := 0, currentFrequency := 1, patternStep := 0, patternNeedsUpdate := false
    timerActive := [false, false, false]
    commandBuffer := List.replicate 64 0, bufferIndex := 0, commandComplete := false
    rxBuffer := List.replicate 64 0, rxIndex := 0, rxOverflow := false
    tx := [] }

/-- A timer driver whose calls always succeed. -/
def HAL.ok : HAL := { tim_start_ok := fun _ => true, tim_stop_ok := fun _ => true }

/-- State with a complete command line in the command buffer. -/
def State.withLine (s : State) (line : List Nat) : State :=
  { s with commandBuffer := padded line, bufferIndex := line.length, commandComplete := true }

/-- State of the line assembler while it accumulates `line` (no complete command yet). -/
def State.accumulating (s : State) (line : List Nat) : State :=
  { s with commandBuffer := padded line, bufferIndex := line.length, commandComplete := false }

/-- A state used to evaluate the functions on concrete inputs: pattern `p` selected, output 1
on, the 1 s timer running. -/
def State.running (p : Nat) : State :=
  { State.zero with activePattern := p, pb0 := true, timerActive := [false, true, false] }

/-- The text of the LED sub-check that fails first on the line `L`, the sub-checks taken in
the order: length below 7, character after LED outside 1..3, missing space, bad state. -/
def LED_FirstError (L : List Nat) : List Nat :=
  if L.length < 7 then str "Format LED invalide (trop court)"
  else if L.getD 3 0 < 49 ∨ L.getD 3 0 > 51 then str "Numero LED invalide (1-3)"
  else if L.getD 4 0 ≠ 32 then str "Format LED invalide (espace manquant)"
  else str "Etat LED invalide (ON/OFF attendu)"

/-- Sequence length of pattern `p` (spec table): 3, 2 and 6 steps for patterns 1, 2 and 3. -/
def sequenceLength (p : Nat) : Nat :=
  match p with
  | 1 => 3
  | 2 => 2
  | 3 => 6
  | _ => 0

/-- Outputs that are on at step `k` of pattern `p` (spec table). -/
def patternMask (p k : Nat) : List Nat :=
  match p, k with
  | 1, k => [k + 1]
  | 2, 0 => [1, 3]
  | 2, 1 => [2]
  | 3, 0 => [1]
  | 3, 1 => [1, 2]
  | 3, 2 => [1, 2, 3]
  | 3, 3 => [2, 3]
  | 3, 4 => [3]
  | _, _ => []

/-- Label of frequency command digit `f` (1, 2, 3): 500MS, 1S, 3S. -/
def freqLabel (f : Nat) : List Nat :=
  match f with
  | 1 => str "500MS"
  | 2 => str "1S"
  | _ => str "3S"

/-- A success response line: begins with `[OK] ` and ends with CR LF. -/
def isOkLine (r : List Nat) : Bool :=
  (r.take 5 == str "[OK] ") && (r.drop (r.length - 2) == str "\r\n")

/-- An error response line: begins with `[ERR] ` and ends with CR LF. -/
def isErrLine (r : List Nat) : Bool :=
  (r.take 6 == str "[ERR] ") && (r.drop (r.length - 2) == str "\r\n")

/-- The state `s'` is `s` after exactly one response line was transmitted, and possibly other
changes that do not touch the transmit log; an `[OK]` line only goes with the return value
true. -/
def Responds (b : Bool) (s s' : State) : Prop :=
  ∃ r : List Nat, s'.tx = s.tx ++ [r] ∧ ((isOkLine r = true ∧ b = true) ∨ isErrLine r = true)

/-- The transmit log of `s'` extends that of `s` by entries none of which is the prompt. -/
def SendsNoPrompt (s s' : State) : Prop :=
  ∃ resp : List (List Nat), s'.tx = s.tx ++ resp ∧ str "STM32> " ∉ resp

/-- The line assembler of `s` holds the partial or complete line `l`: the buffer is `l` followed
by NUL bytes, the cursor is the length of `l` (at most 63), and every byte of `l` is printable
and not a lower-case letter. -/
def AsmLine (s : State) (l : List Nat) : Prop :=
  s.commandBuffer = padded l ∧ s.bufferIndex = l.length ∧ l.length ≤ 63 ∧
    ∀ c ∈ l, isprint c = true ∧ ¬ (97 ≤ c ∧ c ≤ 122)

/-- Well-formedness of the line assembler state. -/
def AsmOK (s : State) : Prop := ∃ l : List Nat, AsmLine s l

/-- One step of the command path: a received character handed to the line assembler, or one
call of the dispatcher from the main loop. -/
inductive AsmEvent where
  | char (c : Nat)
  | poll

/-- Effect of one event. -/
def AsmEvent.apply (hal : HAL) (e : AsmEvent) (s : State) : State :=
  match e with
  | .char c => Command_Parser_ProcessChar c s
  | .poll => Command_Parser_ProcessCommands hal s

/-- Effect of a sequence of events, oldest first. -/
def runEvents (hal : HAL) (es : List AsmEvent) (s : State) : State :=
  es.foldl (fun st e => e.apply hal st) s

/-- One round of the animation: a timer tick at the current frequency followed by one poll. -/
def patternRound (s : State) : State :=
  Pattern_Controller_Update (Pattern_TimerCallback s.currentFrequency s)

/-- Specification side: label of a frequency tier in the status report (500MS, 1S, 3S). -/
def tierLabel (f : Nat) : List Nat :=
  if f = PATTERN_FREQ_500MS then str "500MS"
  else if f = PATTERN_FREQ_1S then str "1S" else str "3S"

/-- Specification side: line of the status report for output `n`, lit or not. -/
def statusLedLine (n : Nat) (lit : Bool) : List Nat :=
  str "LED " ++ [48 + n] ++ str ": " ++ (if lit then str "ON" else str "OFF") ++ str "\r\n"

/-- Specification side: line of the status report for the pattern engine with selection `p`
and frequency tier `f`. -/
def statusPatternLine (p f : Nat) : List Nat :=
  if p = PATTERN_NONE then
    str "Chenillard: INACTIF (Freq select: " ++ tierLabel f ++ str ")\r\n"
  else
    str "Chenillard: ACTIF (Pattern: " ++ [48 + p] ++ str ", Freq: " ++ tierLabel f ++ str ")\r\n"

/-- A property of states kept by every primitive the dispatcher is built from: transmitting a
string, reading the overflow flag, the four engine and output operations called by the command
parsers, and clearing the line assembler. -/
structure CommandInvariant (hal : HAL) (P : State → Prop) : Prop where
  send : ∀ m s, P s → P (UART_SendString m s)
  overflow : ∀ s, P s → P (UART_HasOverflow s).2
  led : ∀ n v s, P s → P (LED_SetState n v s).2
  start : ∀ n s, P s → P (Pattern_Start hal n s).2
  stop : ∀ s, P s → P (Pattern_Stop hal s).2
  freq : ∀ f s, P s → P (Pattern_SetFrequency hal f s).2
  init : ∀ s, P s → P (Command_Parser_Init s)

/-- The function `UART_Reset`. Re-arming the reception (`HAL_UART_Receive_IT`) is a vendor call
that writes no module variable. -/
def UART_Reset (s : State) : State :=
  { s with rxBuffer := List.replicate UART_BUFFER_SIZE 0, rxIndex := 0, rxOverflow := false }

/-- The receive callback `HAL_UART_RxCpltCallback(huart)`; `isUSART3` is the outcome of the test
`huart->Instance == USART3`. The index is a `uint8_t`, hence the `% 256` on the increment. -/
def HAL_UART_RxCpltCallback (isUSART3 : Bool) (s : State) : State :=
  if !isUSART3 then s
  else
    let receivedChar := charAt s.rxBuffer s.rxIndex
    let s1 :=
      if s.rxIndex ≥ UART_BUFFER_SIZE - 1 then { s with rxOverflow := true, rxIndex := 0 }
      else { s with rxIndex := (s.rxIndex + 1) % 256 }
    Command_Parser_ProcessChar receivedChar s1

/-- Modelled from the spec: reception of the byte `b` on USART3. The vendor driver, armed by
`HAL_UART_Receive_IT(&huart3, &rxBuffer[rxIndex], 1)`, stores the byte at `rxBuffer[rxIndex]`
and then calls the receive callback. -/
def UART_Receive (b : Nat) (s : State) : State :=
  HAL_UART_RxCpltCallback true { s with rxBuffer := s.rxBuffer.set s.rxIndex (b % 256) }

/-- One step of the receive path: a byte received on USART3, or one call of the dispatcher from
the main loop. -/
inductive RxEvent where
  | byte (b : Nat)
  | poll

/-- Effect of one receive-path event. -/
def RxEvent.apply (hal : HAL) (e : RxEvent) (s : State) : State :=
  match e with
  | .byte b => UART_Receive b s
  | .poll => Command_Parser_ProcessCommands hal s

/-- Effect of a sequence of receive-path events, oldest first. -/
def runRx (hal : HAL) (es : List RxEvent) (s : State) : State :=
  es.foldl (fun st e => e.apply hal st) s

/-- Number of bytes received in a sequence of receive-path events. -/
def rxCount (es : List RxEvent) : Nat :=
  match es with
  | [] => 0
  | .byte _ :: es => rxCount es + 1
  | .poll :: es => rxCount es

/-- One call of the pattern engine interface: start, stop, frequency change (each with the
outcomes of the timer driver calls it makes), timer tick, or poll. -/
inductive PatternEvent where
  | start (hal : HAL) (pattern : Nat)
  | stop (hal : HAL)
  | setFrequency (hal : HAL) (freq : Nat)
  | tick (timerType : Nat)
  | poll

/-- Effect of one call of the pattern engine interface. -/
def PatternEvent.apply (e : PatternEvent) (s : State) : State :=
  match e with
  | .start hal pattern => (Pattern_Start hal pattern s).2
  | .stop hal => (Pattern_Stop hal s).2
  | .setFrequency hal freq => (Pattern_SetFrequency hal freq s).2
  | .tick timerType => Pattern_TimerCallback timerType s
  | .poll => Pattern_Controller_Update s

/-- Effect of a sequence of calls of the pattern engine interface, oldest first. -/
def runPattern (es : List PatternEvent) (s : State) : State :=
  es.foldl (fun st e => e.apply st) s

/-- The selection is one of the enumeration values and, when a pattern is active, the step
counter is below its sequence length. -/
def StepOK (s : State) : Prop :=
  s.activePattern ≤ 3 ∧
    (s.activePattern ≠ PATTERN_NONE → s.patternStep < sequenceLength s.activePattern)

/-- One step of the running system: a complete command line handed to the dispatcher (with the
outcomes of the timer driver calls it makes), a timer tick, or a poll of the pattern engine. -/
inductive SystemEvent where
  | command (hal : HAL) (line : List Nat)
  | tick (timerType : Nat)
  | poll

/-- Effect of one step of the running system. -/
def SystemEvent.apply (e : SystemEvent) (s : State) : State :=
  match e with
  | .command hal line => Command_Parser_ProcessCommands hal (s.withLine line)
  | .tick timerType => Pattern_TimerCallback timerType s
  | .poll => Pattern_Controller_Update s

/-- Effect of a sequence of steps of the running system, oldest first. -/
def runSystem (es : List SystemEvent) (s : State) : State :=
  es.foldl (fun st e => e.apply st) s

/-- Step of the active pattern that was applied last: (step - 1) mod L. -/
def lastStep (s : State) : Nat :=
  (s.patternStep + sequenceLength s.activePattern - 1) % sequenceLength s.activePattern

/-- When a pattern is active and no update is pending, the three pins show the table mask of
the step applied last. -/
def ShowsLastStep (s : State) : Prop :=
  s.activePattern ≠ PATTERN_NONE → s.patternNeedsUpdate = false →
    s.pb0 = decide (1 ∈ patternMask s.activePattern (lastStep s)) ∧
    s.pb7 = decide (2 ∈ patternMask s.activePattern (lastStep s)) ∧
    s.pb14 = decide (3 ∈ patternMask s.activePattern (lastStep s))

/-- Invariant of the pattern engine together with the outputs. -/
def EngineOK (s : State) : Prop := StepOK s ∧ ShowsLastStep s

/-- The loop of `Command_Validate` (linux_app/command_validator.c) that copies at most 127
characters of the command into `upperCommand`, each through `toupper((unsigned char)c)`. -/
def Command_upperCopy (command : List Nat) : List Nat :=
  ((cstr command).take 127).map (fun c => toupper (c % 256))

/-- The format checks of `Command_Validate` on the upper-cased copy, in source order; each
`return true` of the source is one `then true` here. -/
def Command_Validate_formats (upperCommand : List Nat) : Bool :=
  let len := upperCommand.length
  if strcmp_eq upperCommand (str "HELP") then true
  else if strcmp_eq upperCommand (str "STATUS") then true
  else if strcmp_eq upperCommand (str "STOP") then true
  else if strcmp_eq upperCommand (str "CLEAR") then true
  else if strcmp_eq upperCommand (str "QUIT") then true
  else if strncmp_eq upperCommand (str "LED") 3 ∧ len ≥ 6 ∧
      isdigit (charAt upperCommand 3) ∧ charAt upperCommand 4 = 32 ∧
      (strcmp_eq (upperCommand.drop 5) (str "ON") ∨
        strcmp_eq (upperCommand.drop 5) (str "OFF")) then true
  else if strncmp_eq upperCommand (str "CHENILLARD") 10 ∧
      strlen (upperCommand.drop 10) ≥ 4 ∧ isdigit (charAt (upperCommand.drop 10) 0) ∧
      strcmp_eq ((upperCommand.drop 10).drop 1) (str " ON") then true
  else if strncmp_eq upperCommand (str "CHENILLARD") 10 ∧
      strncmp_eq (upperCommand.drop 10) (str " FREQUENCE") 10 ∧
      strlen (upperCommand.drop 10) = 11 ∧ isdigit (charAt (upperCommand.drop 10) 10) then true
  else if strncmp_eq upperCommand (str "PAT") 3 ∧ len = 4 ∧
      isdigit (charAt upperCommand 3) then true
  else if strncmp_eq upperCommand (str "FREQ") 4 ∧ len = 5 ∧
      isdigit (charAt upperCommand 4) then true
  else false

/-- The host-side function `Command_Validate(command)` of linux_app/command_validator.c; `none`
stands for the NULL pointer. -/
def Command_Validate (command : Option (List Nat)) : Bool :=
  match command with
  | none => false
  | some command =>
    if strlen command = 0 then false
    else Command_Validate_formats (Command_upperCopy command)

/-- Specification side: the lines that the firmware can answer with an `[OK]` response or with
the status report: STATUS, STOP, `LED<n> ON|OFF`, `CHENILLARD<n> ON`, `CHENILLARD FREQUENCE<f>`,
`PAT<n>`, `FREQ<f>` with n, f in 1..3. -/
def executableLines : List (List Nat) :=
  [str "STATUS", str "STOP",
    str "LED1 ON", str "LED1 OFF", str "LED2 ON", str "LED2 OFF", str "LED3 ON", str "LED3 OFF",
    str "CHENILLARD1 ON", str "CHENILLARD2 ON", str "CHENILLARD3 ON",
    str "CHENILLARD FREQUENCE1", str "CHENILLARD FREQUENCE2", str "CHENILLARD FREQUENCE3",
    str "PAT1", str "PAT2", str "PAT3", str "FREQ1", str "FREQ2", str "FREQ3"]

/-- The dispatcher answers the ready line `L` in state `s` with an `[OK]` response or with the
status report: one of the strings it transmits is an `[OK]` line or the status header. -/
def Executes (hal : HAL) (s : State) (L : List Nat) : Prop :=
  ∃ r ∈ (Command_Parser_ProcessCommands hal (s.withLine L)).tx.drop s.tx.length,
    isOkLine r = true ∨ r = str "--- Statut ---\r\n"

/-! # Properties -/

/-! ## Output bank and pattern engine -/

theorem LED_AllOff_eq (s : State) :
    LED_AllOff s = { s with pb0 := false, pb7 := false, pb14 := false } := by
  rfl

theorem LED_GetState_one (s : State) : LED_GetState 1 s = if s.pb0 then LED_ON else LED_OFF := by
  show (if ((true && s.pb0) || (false && s.pb7) || (false && s.pb14)) = true then LED_ON
    else LED_OFF) = _
  simp
theorem LED_GetState_two (s : State) : LED_GetState 2 s = if s.pb7 then LED_ON else LED_OFF := by
  show (if ((false && s.pb0) || (true && s.pb7) || (false && s.pb14)) = true then LED_ON
    else LED_OFF) = _
  simp
theorem LED_GetState_three (s : State) : LED_GetState 3 s = if s.pb14 then LED_ON else LED_OFF := by
  rfl

theorem LED_ForceState_one (v : Nat) (s : State) :
    LED_ForceState 1 v s = { s with pb0 := (v == LED_ON) } := by
  rfl
theorem LED_ForceState_two (v : Nat) (s : State) :
    LED_ForceState 2 v s = { s with pb7 := (v == LED_ON) } := by
  rfl
theorem LED_ForceState_three (v : Nat) (s : State) :
    LED_ForceState 3 v s = { s with pb14 := (v == LED_ON) } := by
  rfl

/-- C1: for every output id in 1..3 and every state ON or OFF, when no pattern is active,
`LED_SetState` returns true and a following `LED_GetState` of the same id returns the state
that was set. -/
theorem C1_set_then_get (id st : Nat) (s : State)
    (hid : 1 ≤ id ∧ id ≤ 3) (hst : st = LED_ON ∨ st = LED_OFF)
    (hpat : Pattern_IsActive s = false) :
    (LED_SetState id st s).1 = true ∧ LED_GetState id (LED_SetState id st s).2 = st := by
  obtain ⟨h1, h3⟩ := hid
  have hset : ∀ i, LED_SetState i st s =
      if !LED_IsValidNumber i then (false, s)
      else if LED_NumberToPin i = 0 then (false, s)
      else (true, HAL_GPIO_WritePin (LED_NumberToPin i) (st == LED_ON) s) := by
    intro i
    simp [LED_SetState, hpat]
  rw [hset]
  interval_cases id <;> rcases hst with rfl | rfl <;> exact ⟨rfl, rfl⟩

/-- C1 at output 2, state ON, from the all-off state. -/
theorem C1_set_then_get_witness :
    (LED_SetState 2 LED_ON State.zero).1 = true ∧
    LED_GetState 2 (LED_SetState 2 LED_ON State.zero).2 = LED_ON :=
  C1_set_then_get 2 LED_ON State.zero (by decide) (by decide) (by decide)

/-- C2: while a pattern is active, `LED_SetState` returns false and leaves the whole state
(hence every output) unchanged, for every id, requested state and prior state. -/
theorem C2_set_blocked_while_pattern_active (id st : Nat) (s : State)
    (hpat : Pattern_IsActive s = true) :
    LED_SetState id st s = (false, s) := by
  unfold LED_SetState
  simp [hpat]


/-- C2 at output 1, state ON, while pattern 2 runs. -/
theorem C2_set_blocked_while_pattern_active_witness :
    LED_SetState 1 LED_ON (State.running 2) = (false, State.running 2) :=
  C2_set_blocked_while_pattern_active 1 LED_ON (State.running 2) (by decide)

theorem LED_GetState_off_iff (i : Nat) (s : State) (hi : 1 ≤ i ∧ i ≤ 3) :
    LED_GetState i s = LED_OFF ↔
      (if i = 1 then s.pb0 else if i = 2 then s.pb7 else s.pb14) = false := by
  obtain ⟨h1, h3⟩ := hi
  interval_cases i
  · rw [LED_GetState_one]; cases s.pb0 <;> simp [LED_ON, LED_OFF]
  · rw [LED_GetState_two]; cases s.pb7 <;> simp [LED_ON, LED_OFF]
  · rw [LED_GetState_three]; cases s.pb14 <;> simp [LED_ON, LED_OFF]

theorem Timer_Stop_frame (hal : HAL) (t : Nat) (s : State) :
    (Timer_Stop hal t s).2 = { s with timerActive := (Timer_Stop hal t s).2.timerActive } := by
  unfold Timer_Stop
  split_ifs <;> rfl

theorem Timer_Start_frame (hal : HAL) (t : Nat) (s : State) :
    (Timer_Start hal t s).2 = { s with timerActive := (Timer_Start hal t s).2.timerActive } := by
  unfold Timer_Start
  split_ifs <;> rfl

/-- C10: `Pattern_Stop` returns false and changes nothing when no pattern is active; when a
pattern is active it returns true, the selection becomes `PATTERN_NONE`, every output 1..3
reads off afterwards and the frequency tier is unchanged. -/
theorem C10_stop (hal : HAL) (s : State) :
    (s.activePattern = PATTERN_NONE → Pattern_Stop hal s = (false, s)) ∧
    (s.activePattern ≠ PATTERN_NONE →
      (Pattern_Stop hal s).1 = true ∧
      (Pattern_Stop hal s).2.activePattern = PATTERN_NONE ∧
      (∀ i, 1 ≤ i ∧ i ≤ 3 → LED_GetState i (Pattern_Stop hal s).2 = LED_OFF) ∧
      (Pattern_Stop hal s).2.currentFrequency = s.currentFrequency) := by
  constructor
  · intro h
    simp [Pattern_Stop, h]
  · intro h
    simp only [Pattern_Stop, if_neg h, LED_AllOff_eq]
    refine ⟨trivial, trivial, ?_, ?_⟩
    · intro i hi
      rw [LED_GetState_off_iff i _ hi]
      split_ifs <;> rfl
    · rw [Timer_Stop_frame]


/-- C10 at the idle state and at a state where pattern 2 runs with output 1 on. -/
theorem C10_stop_witness :
    Pattern_Stop HAL.ok State.zero = (false, State.zero) ∧
    (Pattern_Stop HAL.ok (State.running 2)).1 = true ∧
    LED_GetState 1 (Pattern_Stop HAL.ok (State.running 2)).2 = LED_OFF :=
  ⟨(C10_stop HAL.ok State.zero).1 (by decide),
   ((C10_stop HAL.ok (State.running 2)).2 (by decide)).1,
   ((C10_stop HAL.ok (State.running 2)).2 (by decide)).2.2.1 1 (by decide)⟩

theorem Pattern_Stop_of_active (hal : HAL) (s : State) (h : s.activePattern ≠ PATTERN_NONE) :
    Pattern_Stop hal s =
      (true, { s with
        timerActive := (Timer_Stop hal (s.currentFrequency % 256) s).2.timerActive
        activePattern := PATTERN_NONE
        pb0 := false, pb7 := false, pb14 := false }) := by
  simp only [Pattern_Stop, if_neg h, LED_AllOff_eq]
  rw [Timer_Stop_frame]

theorem Pattern_Start_of_valid (hal : HAL) (p : Nat) (s : State) (hp : 1 ≤ p ∧ p ≤ 3) :
    Pattern_Start hal p s =
      (true, { (if s.activePattern ≠ PATTERN_NONE then (Pattern_Stop hal s).2 else s) with
        activePattern := p
        patternStep := 0
        patternNeedsUpdate := true
        timerActive := (Timer_Start hal (s.currentFrequency % 256)
          { (if s.activePattern ≠ PATTERN_NONE then (Pattern_Stop hal s).2 else s) with
            activePattern := p, patternStep := 0 }).2.timerActive }) := by
  have hv : ¬ (p ≤ PATTERN_NONE ∨ p > PATTERN_COUNT) := by
    simp only [PATTERN_NONE, PATTERN_COUNT]; omega
  simp only [Pattern_Start, if_neg hv]
  rw [Timer_Start_frame]
  by_cases h : s.activePattern ≠ PATTERN_NONE
  · simp only [if_pos h, Pattern_Stop_of_active hal s h]
  · simp only [if_neg h]

/-- C8: when some pattern is active, `Pattern_Start P` for a valid `P` yields exactly the
result (return value and whole state, timer flags included) of `Pattern_Stop` followed by
`Pattern_Start P`; the step counter is 0 and every output 1..3 is off in that state, that is,
before the first step of the new pattern is applied. -/
theorem C8_start_while_active (hal : HAL) (P : Nat) (s : State)
    (hQ : s.activePattern ≠ PATTERN_NONE) (hP : 1 ≤ P ∧ P ≤ 3) :
    Pattern_Start hal P s = Pattern_Start hal P (Pattern_Stop hal s).2 ∧
    (Pattern_Start hal P s).2.patternStep = 0 ∧
    (∀ i, 1 ≤ i ∧ i ≤ 3 → LED_GetState i (Pattern_Start hal P s).2 = LED_OFF) := by
  have hstop : (Pattern_Stop hal s).2.activePattern = PATTERN_NONE := by
    rw [Pattern_Stop_of_active hal s hQ]
  refine ⟨?_, ?_, ?_⟩
  · rw [Pattern_Start_of_valid hal P s hP, Pattern_Start_of_valid hal P _ hP]
    have hn : ¬ (Pattern_Stop hal s).2.activePattern ≠ PATTERN_NONE := by
      rw [hstop]; simp
    simp only [if_pos hQ, if_neg hn]
    rw [Pattern_Stop_of_active hal s hQ]
  · rw [Pattern_Start_of_valid hal P s hP]
  · intro i hi
    rw [LED_GetState_off_iff i _ hi, Pattern_Start_of_valid hal P s hP]
    simp only [if_pos hQ, Pattern_Stop_of_active hal s hQ]
    split_ifs <;> rfl

/-- C8 at P = 1 while pattern 2 runs. -/
theorem C8_start_while_active_witness :
    Pattern_Start HAL.ok 1 (State.running 2) =
      Pattern_Start HAL.ok 1 (Pattern_Stop HAL.ok (State.running 2)).2 ∧
    (Pattern_Start HAL.ok 1 (State.running 2)).2.patternStep = 0 :=
  ⟨(C8_start_while_active HAL.ok 1 (State.running 2) (by decide) (by decide)).1,
   (C8_start_while_active HAL.ok 1 (State.running 2) (by decide) (by decide)).2.1⟩

theorem poll_step_zero (s : State) (p : Nat) (hp : 1 ≤ p ∧ p ≤ 3)
    (ha : s.activePattern = p) (hs : s.patternStep = 0) (hn : s.patternNeedsUpdate = true) :
    LED_GetState 1 (Pattern_Controller_Update s) = LED_ON ∧
    LED_GetState 2 (Pattern_Controller_Update s) = LED_OFF ∧
    LED_GetState 3 (Pattern_Controller_Update s) = (if p = 2 then LED_ON else LED_OFF) ∧
    (Pattern_Controller_Update s).patternStep = 1 ∧
    (Pattern_Controller_Update s).patternNeedsUpdate = false ∧
    (Pattern_Controller_Update s).activePattern = p ∧
    (Pattern_Controller_Update s).currentFrequency = s.currentFrequency := by
  obtain ⟨h1, h3⟩ := hp
  interval_cases p <;>
    simp [Pattern_Controller_Update, ha, hs, hn, PATTERN_NONE, Pattern1_Update, Pattern2_Update,
      Pattern3_Update, LED_AllOff_eq, LED_ForceState_one, LED_ForceState_two,
      LED_ForceState_three, LED_GetState_one, LED_GetState_two, LED_GetState_three, LED_ON,
      LED_OFF, LED_COUNT]

/-- C9: `Pattern_Start p` returns false and changes nothing when `p` is not in 1..3; for a
valid `p` and any prior state it returns true with selection `p`, step counter 0, the
pending-update flag raised and the frequency unchanged, and the next poll
(`Pattern_Controller_Update`) applies step 0 at once: output 1 on, output 2 off, output 3 on
exactly for pattern 2, step counter advanced to 1 and the flag consumed. -/
theorem C9_start (hal : HAL) (p : Nat) (s : State) :
    ((p = 0 ∨ p > 3) → Pattern_Start hal p s = (false, s)) ∧
    ((1 ≤ p ∧ p ≤ 3) →
      (Pattern_Start hal p s).1 = true ∧
      (Pattern_Start hal p s).2.activePattern = p ∧
      (Pattern_Start hal p s).2.patternStep = 0 ∧
      (Pattern_Start hal p s).2.patternNeedsUpdate = true ∧
      (Pattern_Start hal p s).2.currentFrequency = s.currentFrequency ∧
      LED_GetState 1 (Pattern_Controller_Update (Pattern_Start hal p s).2) = LED_ON ∧
      LED_GetState 2 (Pattern_Controller_Update (Pattern_Start hal p s).2) = LED_OFF ∧
      LED_GetState 3 (Pattern_Controller_Update (Pattern_Start hal p s).2) =
        (if p = 2 then LED_ON else LED_OFF) ∧
      (Pattern_Controller_Update (Pattern_Start hal p s).2).patternStep = 1 ∧
      (Pattern_Controller_Update (Pattern_Start hal p s).2).patternNeedsUpdate = false) := by
  constructor
  · intro h
    have hv : p ≤ PATTERN_NONE ∨ p > PATTERN_COUNT := by
      simp only [PATTERN_NONE, PATTERN_COUNT]; omega
    simp only [Pattern_Start, if_pos hv]
  · intro hp
    have e := Pattern_Start_of_valid hal p s hp
    have hf : (Pattern_Start hal p s).2.currentFrequency = s.currentFrequency := by
      rw [e]
      by_cases h : s.activePattern ≠ PATTERN_NONE
      · simp only [if_pos h, Pattern_Stop_of_active hal s h]
      · simp only [if_neg h]
    have ha : (Pattern_Start hal p s).2.activePattern = p := by rw [e]
    have hs : (Pattern_Start hal p s).2.patternStep = 0 := by rw [e]
    have hn : (Pattern_Start hal p s).2.patternNeedsUpdate = true := by rw [e]
    obtain ⟨q1, q2, q3, q4, q5, -, -⟩ := poll_step_zero _ p hp ha hs hn
    exact ⟨by rw [e], ha, hs, hn, hf, q1, q2, q3, q4, q5⟩

/-- C9 at the invalid id 4 and at the valid id 2, from the idle state. -/
theorem C9_start_witness :
    Pattern_Start HAL.ok 4 State.zero = (false, State.zero) ∧
    (Pattern_Start HAL.ok 2 State.zero).2.activePattern = 2 ∧
    (Pattern_Start HAL.ok 2 State.zero).2.patternNeedsUpdate = true :=
  ⟨(C9_start HAL.ok 4 State.zero).1 (by decide),
   ((C9_start HAL.ok 2 State.zero).2 (by decide)).2.1,
   ((C9_start HAL.ok 2 State.zero).2 (by decide)).2.2.2.1⟩

/-! ## Line assembler -/

theorem cstr_append_nul (l r : List Nat) (h : ∀ c ∈ l, c ≠ 0) : cstr (l ++ 0 :: r) = l := by
  induction l with
  | nil => simp [cstr]
  | cons a l ih =>
    have ha : a ≠ 0 := h a (by simp)
    have := ih (fun c hc => h c (by simp [hc]))
    simp only [cstr] at this ⊢
    simp [List.takeWhile_cons, ha, this]

theorem padded_eq (l : List Nat) (h : l.length ≤ 63) :
    padded l = l ++ 0 :: List.replicate (63 - l.length) 0 := by
  have : COMMAND_BUFFER_SIZE - l.length = (63 - l.length) + 1 := by
    simp only [COMMAND_BUFFER_SIZE]; omega
  rw [padded, this, List.replicate_succ]

theorem cstr_padded (l : List Nat) (h : l.length ≤ 63) (hz : ∀ c ∈ l, c ≠ 0) :
    cstr (padded l) = l := by
  rw [padded_eq l h, cstr_append_nul l _ hz]

theorem padded_set_nul (l : List Nat) (h : l.length ≤ 63) :
    (padded l).set l.length 0 = padded l := by
  rw [padded_eq l h]
  simp

theorem padded_set_char (l : List Nat) (c : Nat) (h : l.length < 63) :
    (padded l).set l.length c = padded (l ++ [c]) := by
  rw [padded_eq l (by omega), padded_eq (l ++ [c]) (by simp; omega)]
  have : 63 - l.length = (63 - (l ++ [c]).length) + 1 := by simp; omega
  rw [this, List.replicate_succ]
  simp

theorem toupper_of_isprint (c : Nat) (h : isprint c = true) :
    c % 256 = c ∧ 32 ≤ toupper c ∧ toupper c ≤ 126 ∧ isprint (toupper c) = true := by
  simp only [isprint, decide_eq_true_eq] at h
  unfold toupper isprint
  simp only [decide_eq_true_eq]
  split_ifs <;> omega

theorem ProcessChar_printable (s0 : State) (pre : List Nat) (c : Nat)
    (hlen : pre.length ≤ 63) (hc : isprint c = true) :
    Command_Parser_ProcessChar c (s0.accumulating pre) =
      s0.accumulating ((pre ++ [toupper c]).take 63) := by
  obtain ⟨hm, h1, h2, h3⟩ := toupper_of_isprint c hc
  unfold Command_Parser_ProcessChar
  simp only [hm, State.accumulating]
  have e1 : ¬ toupper c = 10 := by omega
  have e2 : ¬ toupper c = 13 := by omega
  have e3 : ¬ (toupper c = 8 ∨ toupper c = 127) := by omega
  simp only [Bool.false_eq_true, if_false, e1, e2, e3, h3, and_true, COMMAND_BUFFER_SIZE]
  by_cases hl : pre.length < 63
  · have ht : (pre ++ [toupper c]).take 63 = pre ++ [toupper c] := by
      apply List.take_of_length_le
      simp; omega
    simp only [show pre.length < 64 - 1 by omega, if_true, ht, padded_set_char pre _ hl]
    simp
  · have hl63 : pre.length = 63 := by omega
    have ht : (pre ++ [toupper c]).take 63 = pre := by
      rw [← hl63]; simp
    simp only [show ¬ pre.length < 64 - 1 by omega, if_false, ht]

theorem feed_printable (s0 : State) (cs : List Nat) :
    ∀ pre : List Nat, pre.length ≤ 63 → (∀ c ∈ cs, isprint c = true) →
      feed cs (s0.accumulating pre) = s0.accumulating ((pre ++ cs.map toupper).take 63) := by
  induction cs with
  | nil =>
    intro pre hlen _
    simp [feed, List.take_of_length_le hlen]
  | cons c cs ih =>
    intro pre hlen h
    have hc : isprint c = true := h c (by simp)
    have step := ProcessChar_printable s0 pre c hlen hc
    have hfeed : feed (c :: cs) (s0.accumulating pre) =
        feed cs (Command_Parser_ProcessChar c (s0.accumulating pre)) := by
      simp [feed]
    rw [hfeed, step, ih _ (by simp) (fun d hd => h d (by simp [hd]))]
    have key : ((pre ++ [toupper c]).take 63 ++ cs.map toupper).take 63 =
        (pre ++ (c :: cs).map toupper).take 63 := by
      by_cases hl : pre.length < 63
      · rw [List.take_of_length_le (show (pre ++ [toupper c]).length ≤ 63 by simp; omega)]
        simp
      · have hl63 : pre.length = 63 := by omega
        have e2 : ∀ r : List Nat, (pre ++ r).take 63 = pre := by
          intro r; rw [← hl63]; simp
        rw [e2, e2, e2]
    rw [key]

theorem ProcessChar_CR (s0 : State) (l : List Nat) (hlen : l.length ≤ 63) :
    Command_Parser_ProcessChar 13 (s0.accumulating l) = s0.withLine l := by
  unfold Command_Parser_ProcessChar
  simp [State.accumulating, State.withLine, toupper, padded_set_nul l hlen]

theorem feed_append (a b : List Nat) (s : State) : feed (a ++ b) s = feed b (feed a s) := by
  simp [feed]

theorem cleared_eq_accumulating (s0 : State)
    (hclear : s0.commandBuffer = List.replicate COMMAND_BUFFER_SIZE 0 ∧ s0.bufferIndex = 0 ∧
      s0.commandComplete = false) : s0 = s0.accumulating [] := by
  obtain ⟨h1, h2, h3⟩ := hclear
  cases s0
  simp_all [State.accumulating, padded]

theorem feed_line (s0 : State) (cs : List Nat)
    (hclear : s0.commandBuffer = List.replicate COMMAND_BUFFER_SIZE 0 ∧ s0.bufferIndex = 0 ∧
      s0.commandComplete = false)
    (hprint : ∀ c ∈ cs, isprint c = true) :
    feed (cs ++ [13]) s0 = s0.withLine ((cs.take 63).map toupper) := by
  have h0 := cleared_eq_accumulating s0 hclear
  rw [feed_append]
  conv_lhs => rw [h0]
  rw [feed_printable s0 cs [] (by simp) hprint]
  have : feed [13] (s0.accumulating (([] ++ cs.map toupper).take 63)) =
      Command_Parser_ProcessChar 13 (s0.accumulating (([] ++ cs.map toupper).take 63)) := by
    simp [feed]
  rw [this, ProcessChar_CR _ _ (by simp)]
  simp [List.map_take]

/-- C4: from a cleared line assembler, feeding printable characters `cs` and then one CR
yields a ready line equal to the upper-cased first 63 characters of `cs`, of length
`min |cs| 63`. -/
theorem C4_line_assembly (s0 : State) (cs : List Nat)
    (hclear : s0.commandBuffer = List.replicate COMMAND_BUFFER_SIZE 0 ∧ s0.bufferIndex = 0 ∧
      s0.commandComplete = false)
    (hprint : ∀ c ∈ cs, isprint c = true) :
    (feed (cs ++ [13]) s0).commandComplete = true ∧
    cstr (feed (cs ++ [13]) s0).commandBuffer = (cs.take 63).map toupper ∧
    strlen (feed (cs ++ [13]) s0).commandBuffer = min cs.length 63 := by
  rw [feed_line s0 cs hclear hprint]
  have hz : ∀ c ∈ (cs.take 63).map toupper, c ≠ 0 := by
    intro c hc
    simp only [List.mem_map] at hc
    obtain ⟨d, hd, rfl⟩ := hc
    have := toupper_of_isprint d (hprint d (List.mem_of_mem_take hd))
    omega
  have hc : cstr (s0.withLine ((cs.take 63).map toupper)).commandBuffer =
      (cs.take 63).map toupper := by
    show cstr (padded _) = _
    exact cstr_padded _ (by simp) hz
  refine ⟨rfl, hc, ?_⟩
  rw [strlen, hc]
  simp [Nat.min_comm]

/-- C4 at the input `LED1 ON` followed by CR: the ready line is exactly `LED1 ON`. -/
theorem C4_line_assembly_witness :
    (feed (str "LED1 ON" ++ [13]) State.zero).commandComplete = true ∧
    cstr (feed (str "LED1 ON" ++ [13]) State.zero).commandBuffer = str "LED1 ON" ∧
    strlen (feed (str "LED1 ON" ++ [13]) State.zero).commandBuffer = 7 :=
  C4_line_assembly State.zero (str "LED1 ON") (by decide) (by decide)

/-! ## Command dispatcher -/

theorem strlen_padded (l : List Nat) (h : l.length ≤ 63) (hz : ∀ c ∈ l, c ≠ 0) :
    strlen (padded l) = l.length := by
  rw [strlen, cstr_padded l h hz]

theorem charAt_padded (l : List Nat) (i : Nat) : charAt (padded l) i = l.getD i 0 := by
  unfold charAt padded
  by_cases h : i < l.length
  · simp [List.getD_eq_getElem?_getD, List.getElem?_append_left h]
  · have h2 : l.length ≤ i := by omega
    rw [List.getD_eq_getElem?_getD, List.getD_eq_getElem?_getD, List.getElem?_append_right h2,
      List.getElem?_eq_none h2]
    by_cases h3 : i - l.length < COMMAND_BUFFER_SIZE - l.length
    · simp [List.getElem?_replicate, h3]
    · simp [List.getElem?_replicate, h3]

theorem cstr_replicate_zero (k : Nat) : cstr (List.replicate k 0) = [] := by
  cases k with
  | zero => rfl
  | succ k => simp [cstr, List.replicate_succ]

theorem cstr_drop_padded (l : List Nat) (i : Nat) (h : l.length ≤ 63) (hz : ∀ c ∈ l, c ≠ 0) :
    cstr ((padded l).drop i) = l.drop i := by
  by_cases hi : i ≤ l.length
  · rw [padded_eq l h, List.drop_append_of_le_length hi]
    exact cstr_append_nul _ _ (fun c hc => hz c (List.mem_of_mem_drop hc))
  · have h2 : l.length ≤ i := by omega
    rw [List.drop_eq_nil_of_le h2]
    unfold padded
    rw [List.drop_append_eq_append_drop, List.drop_eq_nil_of_le h2, List.nil_append,
      List.drop_replicate]
    exact cstr_replicate_zero _


theorem withLine_commandBuffer (s : State) (L : List Nat) :
    (s.withLine L).commandBuffer = padded L := rfl

theorem withLine_commandComplete (s : State) (L : List Nat) :
    (s.withLine L).commandComplete = true := rfl

theorem ProcessCommands_withLine (hal : HAL) (s : State) (L : List Nat)
    (h63 : L.length ≤ 63) (hz : ∀ c ∈ L, c ≠ 0) (hne : L ≠ []) :
    Command_Parser_ProcessCommands hal (s.withLine L) =
      UART_SendString (str "STM32> ") (Command_Parser_Init
        (if (Command_Parser_Select hal (s.withLine L)).1 = true then
          (Command_Parser_Select hal (s.withLine L)).2
        else Send_Error_Message (str "Commande inconnue ou format invalide")
          (Command_Parser_Select hal (s.withLine L)).2)) := by
  have hlen : (L.length == 0) = false := by
    cases L with
    | nil => exact absurd rfl hne
    | cons a l => rfl
  unfold Command_Parser_ProcessCommands
  simp only [withLine_commandComplete, withLine_commandBuffer, strlen_padded L h63 hz, hlen,
    Bool.not_true, Bool.false_eq_true, if_false, Bool.not_false, if_true]
  cases (Command_Parser_Select hal (s.withLine L)).1 <;> rfl

theorem cstr_LED : cstr CMD_LED = [76, 69, 68] := by decide
theorem cstr_STATUS : cstr CMD_STATUS = [83, 84, 65, 84, 85, 83] := by decide
theorem cstr_STOP : cstr CMD_STOP = [83, 84, 79, 80] := by decide
theorem strlen_LED : strlen CMD_LED = 3 := by decide

theorem Select_LED (hal : HAL) (s : State) (L : List Nat)
    (h63 : L.length ≤ 63) (hz : ∀ c ∈ L, c ≠ 0) (hled : L.take 3 = [76, 69, 68]) :
    Command_Parser_Select hal (s.withLine L) = Parse_LED_Command (padded L) (s.withLine L) := by
  have h1 : ¬ L = [83, 84, 65, 84, 85, 83] := by
    intro h; rw [h] at hled; simp at hled
  have h2 : ¬ L = [83, 84, 79, 80] := by
    intro h; rw [h] at hled; simp at hled
  unfold Command_Parser_Select
  simp only [withLine_commandBuffer, strcmp_eq, strncmp_eq, cstr_padded L h63 hz, cstr_LED,
    cstr_STATUS, cstr_STOP, strlen_LED, beq_iff_eq, h1, h2, hled, if_false, if_true,
    List.take_succ_cons, List.take_zero]


theorem cstr_ON : cstr CMD_ON = [79, 78] := by decide
theorem cstr_OFF : cstr CMD_OFF = [79, 70, 70] := by decide

theorem Parse_LED_Command_padded (L : List Nat) (s : State)
    (h63 : L.length ≤ 63) (hz : ∀ c ∈ L, c ≠ 0) :
    Parse_LED_Command (padded L) s =
      if L.length < 7 then
        (false, Send_Error_Message (str "Format LED invalide (trop court)") s)
      else if L.getD 3 0 < 49 ∨ L.getD 3 0 > 51 then
        (false, Send_Error_Message (str "Numero LED invalide (1-3)") s)
      else if L.getD 4 0 ≠ 32 then
        (false, Send_Error_Message (str "Format LED invalide (espace manquant)") s)
      else if L.drop 5 = [79, 78] ∨ L.drop 5 = [79, 70, 70] then
        if (LED_SetState ((L.getD 3 0 - 48) % 256)
            (if L.drop 5 = [79, 78] then LED_ON else LED_OFF) s).1 = true then
          (true, Send_Success_Message
            (snprintf 30 (str "LED " ++ fmt_d ((L.getD 3 0 - 48) % 256) ++ str " mise a " ++
              L.drop 5 ++ str "\r\n"))
            (LED_SetState ((L.getD 3 0 - 48) % 256)
              (if L.drop 5 = [79, 78] then LED_ON else LED_OFF) s).2)
        else
          (false, Send_Error_Message (str "Impossible de changer LED (pattern actif?)")
            (LED_SetState ((L.getD 3 0 - 48) % 256)
              (if L.drop 5 = [79, 78] then LED_ON else LED_OFF) s).2)
      else
        (false, Send_Error_Message (str "Etat LED invalide (ON/OFF attendu)") s) := by
  unfold Parse_LED_Command
  simp only [strlen_padded L h63 hz, strlen_LED, charAt_padded, strcmp_eq,
    cstr_drop_padded L _ h63 hz, cstr_ON, cstr_OFF, beq_iff_eq, LED_COUNT]
  by_cases h1 : L.length < 7
  · simp only [show L.length < 3 + 4 from h1, h1, if_true]
  · simp only [show ¬ L.length < 3 + 4 from h1, h1, if_false]
    by_cases h2 : L.getD 3 0 < 49 ∨ L.getD 3 0 > 48 + 3
    · simp only [h2, if_true]
    · simp only [h2, if_false]
      by_cases h3 : L.getD (3 + 1) 0 ≠ 32
      · simp only [h3, if_true, ne_eq, not_false_eq_true]
      · simp only [h3, if_false]
        by_cases h4 : L.drop (3 + 2) = [79, 78] ∨ L.drop (3 + 2) = [79, 70, 70]
        · simp only [h4, if_true]
          cases hr : (LED_SetState ((L.getD 3 0 - 48) % 256)
            (if L.drop (3 + 2) = [79, 78] then LED_ON else LED_OFF) s).1 <;> simp
        · simp only [h4, if_false]

theorem Send_Error_Message_tx (m out : List Nat) (s : State)
    (h : cstr (snprintf 100 (str "[ERR] " ++ cstr m ++ str "\r\n")) = out) :
    Send_Error_Message m s = { s with tx := s.tx ++ [out] } := by
  unfold Send_Error_Message UART_SendString
  rw [h]



theorem send3_withLine (s : State) (L a b c : List Nat) :
    UART_SendString c (Command_Parser_Init (UART_SendString b (UART_SendString a (s.withLine L)))) =
      { s with
        commandBuffer := List.replicate 64 0, bufferIndex := 0, commandComplete := false
        tx := s.tx ++ [cstr a, cstr b, cstr c] } := by
  simp [UART_SendString, Command_Parser_Init, State.withLine, COMMAND_BUFFER_SIZE]

theorem send2_withLine (s : State) (L a b : List Nat) :
    UART_SendString b (Command_Parser_Init (UART_SendString a (s.withLine L))) =
      { s with
        commandBuffer := List.replicate 64 0, bufferIndex := 0, commandComplete := false
        tx := s.tx ++ [cstr a, cstr b] } := by
  simp [UART_SendString, Command_Parser_Init, State.withLine, COMMAND_BUFFER_SIZE]

theorem LED_line_shape (L : List Nat) (hled : L.take 3 = [76, 69, 68]) (h7 : 7 ≤ L.length)
    (h4 : L.getD 4 0 = 32) (t : List Nat) (ht : L.drop 5 = t) :
    L = [76, 69, 68] ++ [L.getD 3 0] ++ [32] ++ t := by
  match L, hled, h7, h4, ht with
  | a :: b :: c :: d :: e :: r, hled, _, h4, ht =>
    simp only [List.take_succ_cons, List.take_zero, List.cons.injEq, and_true] at hled
    obtain ⟨rfl, rfl, rfl⟩ := hled
    simp only [List.getD_cons_succ, List.getD_cons_zero] at h4
    simp only [List.drop_succ_cons, List.drop_zero] at ht
    subst h4 ht
    rfl

/-- C6: for every ready line that starts with LED but is not `LED<d> ON` or `LED<d> OFF` with
d in 1..3, dispatching changes nothing but the transmit log and the (cleared) line assembler,
and the first response emitted is the `[ERR]` message of the first failing sub-check
(`LED_FirstError`); it is followed by the generic error line and the prompt. -/
theorem C6_malformed_LED_line (hal : HAL) (s : State) (L : List Nat)
    (h63 : L.length ≤ 63) (hz : ∀ c ∈ L, c ≠ 0) (hled : L.take 3 = str "LED")
    (hbad : ∀ d, 49 ≤ d → d ≤ 51 →
      L ≠ str "LED" ++ [d] ++ str " ON" ∧ L ≠ str "LED" ++ [d] ++ str " OFF") :
    Command_Parser_ProcessCommands hal (s.withLine L) =
      { s with
        commandBuffer := List.replicate 64 0, bufferIndex := 0, commandComplete := false
        tx := s.tx ++ [str "[ERR] " ++ LED_FirstError L ++ str "\r\n",
          str "[ERR] Commande inconnue ou format invalide\r\n", str "STM32> "] } := by
  have hled2 : L.take 3 = [76, 69, 68] := by rw [hled]; decide
  have hne : L ≠ [] := by
    intro h; rw [h] at hled2; simp at hled2
  have e1 : cstr (snprintf 100 (str "[ERR] " ++ cstr (str "Format LED invalide (trop court)") ++
      str "\r\n")) = str "[ERR] " ++ str "Format LED invalide (trop court)" ++ str "\r\n" := by
    decide
  have e2 : cstr (snprintf 100 (str "[ERR] " ++ cstr (str "Numero LED invalide (1-3)") ++
      str "\r\n")) = str "[ERR] " ++ str "Numero LED invalide (1-3)" ++ str "\r\n" := by
    decide
  have e3 : cstr (snprintf 100 (str "[ERR] " ++ cstr (str "Format LED invalide (espace manquant)") ++
      str "\r\n")) = str "[ERR] " ++ str "Format LED invalide (espace manquant)" ++ str "\r\n" := by
    decide
  have e4 : cstr (snprintf 100 (str "[ERR] " ++ cstr (str "Etat LED invalide (ON/OFF attendu)") ++
      str "\r\n")) = str "[ERR] " ++ str "Etat LED invalide (ON/OFF attendu)" ++ str "\r\n" := by
    decide
  have e5 : cstr (snprintf 100 (str "[ERR] " ++ cstr (str "Commande inconnue ou format invalide") ++
      str "\r\n")) = str "[ERR] Commande inconnue ou format invalide\r\n" := by
    decide
  have e6 : cstr (str "STM32> ") = str "STM32> " := by decide
  rw [ProcessCommands_withLine hal s L h63 hz hne, Select_LED hal s L h63 hz hled2,
    Parse_LED_Command_padded L _ h63 hz]
  unfold LED_FirstError
  by_cases h1 : L.length < 7
  · simp only [h1, if_true, Bool.false_eq_true, if_false, Send_Error_Message, send3_withLine,
      e1, e5, e6]
  · by_cases h2 : L.getD 3 0 < 49 ∨ L.getD 3 0 > 51
    · simp only [h1, h2, if_true, Bool.false_eq_true, if_false, Send_Error_Message,
        send3_withLine, e2, e5, e6]
    · by_cases h3 : L.getD 4 0 ≠ 32
      · simp only [h1, h2, h3, ne_eq, not_false_eq_true, if_true, Bool.false_eq_true, if_false,
          Send_Error_Message, send3_withLine, e3, e5, e6]
      · have hs : L.getD 4 0 = 32 := by
          by_contra hc; exact h3 hc
        have h4 : ¬ (L.drop 5 = [79, 78] ∨ L.drop 5 = [79, 70, 70]) := by
          intro h
          have hd1 : 49 ≤ L.getD 3 0 := by omega
          have hd2 : L.getD 3 0 ≤ 51 := by omega
          obtain ⟨b1, b2⟩ := hbad (L.getD 3 0) hd1 hd2
          rcases h with h | h
          · exact b1 (LED_line_shape L hled2 (by omega) hs _ h)
          · exact b2 (LED_line_shape L hled2 (by omega) hs _ h)
        simp only [h1, h2, hs, h4, ne_eq, not_true_eq_false, if_true, Bool.false_eq_true,
          if_false, Send_Error_Message, send3_withLine, e4, e5, e6]


/-- C6 at the line `LED4 ON`: the first response is the invalid-number error. -/
theorem C6_malformed_LED_line_witness :
    (Command_Parser_ProcessCommands HAL.ok (State.zero.withLine (str "LED4 ON"))).tx =
      [str "[ERR] Numero LED invalide (1-3)\r\n",
        str "[ERR] Commande inconnue ou format invalide\r\n", str "STM32> "] :=
  (congrArg State.tx
    (C6_malformed_LED_line HAL.ok State.zero (str "LED4 ON") (by decide) (by decide) (by decide)
      (fun d h1 h2 => by interval_cases d <;> decide))).trans (by decide)

theorem Parse_LED_Command_wellformed (s : State) (n : Nat) (t : List Nat)
    (hn : 1 ≤ n ∧ n ≤ 3) (ht : t = [79, 78] ∨ t = [79, 70, 70]) :
    Parse_LED_Command (padded ([76, 69, 68, 48 + n, 32] ++ t)) s =
      if (LED_SetState n (if t = [79, 78] then LED_ON else LED_OFF) s).1 = true then
        (true, Send_Success_Message
          (snprintf 30 (str "LED " ++ fmt_d n ++ str " mise a " ++ t ++ str "\r\n"))
          (LED_SetState n (if t = [79, 78] then LED_ON else LED_OFF) s).2)
      else
        (false, Send_Error_Message (str "Impossible de changer LED (pattern actif?)")
          (LED_SetState n (if t = [79, 78] then LED_ON else LED_OFF) s).2) := by
  obtain ⟨h1, h3⟩ := hn
  have hlen : ([76, 69, 68, 48 + n, 32] ++ t).length ≤ 63 := by
    rcases ht with rfl | rfl <;> simp
  have hz : ∀ c ∈ [76, 69, 68, 48 + n, 32] ++ t, c ≠ 0 := by
    intro c hc
    rcases ht with rfl | rfl <;> simp at hc <;> omega
  have h7 : ¬ ([76, 69, 68, 48 + n, 32] ++ t).length < 7 := by
    rcases ht with rfl | rfl <;> simp
  have hd : ¬ (([76, 69, 68, 48 + n, 32] ++ t).getD 3 0 < 49 ∨
      ([76, 69, 68, 48 + n, 32] ++ t).getD 3 0 > 51) := by
    simp; omega
  have hnum : (([76, 69, 68, 48 + n, 32] ++ t).getD 3 0 - 48) % 256 = n := by
    simp; omega
  have hsp : ([76, 69, 68, 48 + n, 32] ++ t).getD 4 0 = 32 := by simp
  have hdrop : ([76, 69, 68, 48 + n, 32] ++ t).drop 5 = t := by simp
  rw [Parse_LED_Command_padded _ s hlen hz]
  simp only [h7, hd, hnum, hsp, hdrop, ht, if_false, if_true, ne_eq, not_true_eq_false]

theorem LED_SetState_blocked (id st : Nat) (s : State) (hpat : Pattern_IsActive s = true) :
    LED_SetState id st s = (false, s) := by
  unfold LED_SetState
  simp [hpat]

theorem LED_line_eq (n : Nat) (t : List Nat) :
    str "LED" ++ [48 + n] ++ str " " ++ t = [76, 69, 68, 48 + n, 32] ++ t := by
  have h1 : str "LED" = [76, 69, 68] := by decide
  have h2 : str " " = [32] := by decide
  rw [h1, h2]; rfl

theorem LED_line_facts (n : Nat) (t : List Nat) (hn : 1 ≤ n ∧ n ≤ 3)
    (ht : t = [79, 78] ∨ t = [79, 70, 70]) :
    ([76, 69, 68, 48 + n, 32] ++ t).length ≤ 63 ∧
    (∀ c ∈ [76, 69, 68, 48 + n, 32] ++ t, c ≠ 0) ∧
    [76, 69, 68, 48 + n, 32] ++ t ≠ [] ∧
    ([76, 69, 68, 48 + n, 32] ++ t).take 3 = [76, 69, 68] := by
  refine ⟨?_, ?_, by simp, by simp⟩
  · rcases ht with rfl | rfl <;> simp
  · intro c hc
    rcases ht with rfl | rfl <;> simp at hc <;> omega

theorem interlock_ne_format_error (L : List Nat) :
    str "[ERR] Impossible de changer LED (pattern actif?)\r\n" ≠
      str "[ERR] " ++ LED_FirstError L ++ str "\r\n" := by
  unfold LED_FirstError
  split_ifs <;> decide

/-- C3: for n in 1..3 and t in ON, OFF, dispatching `LED<n> <t>` while a pattern is active
changes no output and no engine state (only the transmit log grows and the line assembler is
cleared), and the first response is the interlock error
`[ERR] Impossible de changer LED (pattern actif?)`, which differs from each of the four
malformed-LED messages and from the generic unknown-command message. -/
theorem C3_interlock_error (hal : HAL) (s : State) (n : Nat) (t : List Nat)
    (hn : 1 ≤ n ∧ n ≤ 3) (ht : t = str "ON" ∨ t = str "OFF")
    (hpat : Pattern_IsActive s = true) :
    Command_Parser_ProcessCommands hal (s.withLine (str "LED" ++ [48 + n] ++ str " " ++ t)) =
      { s with
        commandBuffer := List.replicate 64 0, bufferIndex := 0, commandComplete := false
        tx := s.tx ++ [str "[ERR] Impossible de changer LED (pattern actif?)\r\n",
          str "[ERR] Commande inconnue ou format invalide\r\n", str "STM32> "] } ∧
    (∀ L : List Nat, str "[ERR] Impossible de changer LED (pattern actif?)\r\n" ≠
      str "[ERR] " ++ LED_FirstError L ++ str "\r\n") ∧
    str "[ERR] Impossible de changer LED (pattern actif?)\r\n" ≠
      str "[ERR] Commande inconnue ou format invalide\r\n" := by
  refine ⟨?_, interlock_ne_format_error, by decide⟩
  have ht2 : t = [79, 78] ∨ t = [79, 70, 70] := ht
  obtain ⟨f1, f2, f3, f4⟩ := LED_line_facts n t hn ht2
  have hp : Pattern_IsActive (s.withLine ([76, 69, 68, 48 + n, 32] ++ t)) = true := hpat
  have e1 : cstr (snprintf 100 (str "[ERR] " ++
      cstr (str "Impossible de changer LED (pattern actif?)") ++ str "\r\n")) =
      str "[ERR] Impossible de changer LED (pattern actif?)\r\n" := by
    decide
  have e5 : cstr (snprintf 100 (str "[ERR] " ++ cstr (str "Commande inconnue ou format invalide") ++
      str "\r\n")) = str "[ERR] Commande inconnue ou format invalide\r\n" := by
    decide
  have e6 : cstr (str "STM32> ") = str "STM32> " := by decide
  rw [LED_line_eq, ProcessCommands_withLine hal s _ f1 f2 f3, Select_LED hal s _ f1 f2 f4,
    Parse_LED_Command_wellformed _ n t hn ht2, LED_SetState_blocked _ _ _ hp]
  simp only [Bool.false_eq_true, if_false, Send_Error_Message, send3_withLine, e1, e5, e6]


/-- C3 at the line `LED1 ON` while pattern 2 runs. -/
theorem C3_interlock_error_witness :
    (Command_Parser_ProcessCommands HAL.ok
        ((State.running 2).withLine (str "LED" ++ [48 + 1] ++ str " " ++ str "ON"))).tx =
      [str "[ERR] Impossible de changer LED (pattern actif?)\r\n",
        str "[ERR] Commande inconnue ou format invalide\r\n", str "STM32> "] :=
  (congrArg State.tx
    (C3_interlock_error HAL.ok (State.running 2) 1 (str "ON") (by decide) (Or.inl rfl)
      (by decide)).1).trans (by decide)

theorem LED_SetState_free (n v : Nat) (s : State) (hn : 1 ≤ n ∧ n ≤ 3)
    (hpat : Pattern_IsActive s = false) :
    LED_SetState n v s = (true, LED_ForceState n v s) := by
  obtain ⟨h1, h3⟩ := hn
  unfold LED_SetState LED_ForceState
  interval_cases n <;> simp [hpat, LED_IsValidNumber, LED_COUNT, LED_NumberToPin, LED1_PIN,
    LED2_PIN, LED3_PIN, GPIO_PIN_0, GPIO_PIN_7, GPIO_PIN_14]

theorem LED_ForceState_frame (n v : Nat) (s : State) :
    LED_ForceState n v s =
      { s with
        pb0 := (LED_ForceState n v s).pb0
        pb7 := (LED_ForceState n v s).pb7
        pb14 := (LED_ForceState n v s).pb14 } := by
  simp only [LED_ForceState, HAL_GPIO_WritePin]
  split_ifs <;> rfl

theorem LED_ForceState_withLine (n v : Nat) (s : State) (L : List Nat) :
    LED_ForceState n v (s.withLine L) = (LED_ForceState n v s).withLine L := by
  simp only [LED_ForceState, HAL_GPIO_WritePin]
  split_ifs <;> rfl

theorem LED_ok_line (n : Nat) (t : List Nat) (hn : 1 ≤ n ∧ n ≤ 3)
    (ht : t = [79, 78] ∨ t = [79, 70, 70]) (s : State) :
    Send_Success_Message
        (snprintf 30 (str "LED " ++ fmt_d n ++ str " mise a " ++ t ++ str "\r\n")) s =
      UART_SendString (str "[OK] LED " ++ [48 + n] ++ str " mise a " ++ t ++ str "\r\n") s := by
  obtain ⟨h1, h3⟩ := hn
  unfold Send_Success_Message
  interval_cases n <;> rcases ht with rfl | rfl
  · rw [if_pos (by decide)]; congr 1
  · rw [if_pos (by decide)]; congr 1
  · rw [if_pos (by decide)]; congr 1
  · rw [if_pos (by decide)]; congr 1
  · rw [if_pos (by decide)]; congr 1
  · rw [if_pos (by decide)]; congr 1

theorem LED_command_result (hal : HAL) (s : State) (n : Nat) (t : List Nat)
    (hn : 1 ≤ n ∧ n ≤ 3) (ht : t = str "ON" ∨ t = str "OFF")
    (hpat : Pattern_IsActive s = false) :
    Command_Parser_ProcessCommands hal (s.withLine (str "LED" ++ [48 + n] ++ str " " ++ t)) =
      { LED_ForceState n (if t = str "ON" then LED_ON else LED_OFF) s with
        commandBuffer := List.replicate 64 0, bufferIndex := 0, commandComplete := false
        tx := s.tx ++ [str "[OK] LED " ++ [48 + n] ++ str " mise a " ++ t ++ str "\r\n",
          str "STM32> "] } := by
  have ht2 : t = [79, 78] ∨ t = [79, 70, 70] := ht
  obtain ⟨f1, f2, f3, f4⟩ := LED_line_facts n t hn ht2
  have hp : Pattern_IsActive (s.withLine ([76, 69, 68, 48 + n, 32] ++ t)) = false := hpat
  have hon : str "ON" = [79, 78] := by decide
  have e6 : cstr (str "STM32> ") = str "STM32> " := by decide
  have e7 : cstr (str "[OK] LED " ++ [48 + n] ++ str " mise a " ++ t ++ str "\r\n") =
      str "[OK] LED " ++ [48 + n] ++ str " mise a " ++ t ++ str "\r\n" := by
    obtain ⟨h1, h3⟩ := hn
    interval_cases n <;> rcases ht2 with rfl | rfl <;> decide
  rw [LED_line_eq, ProcessCommands_withLine hal s _ f1 f2 f3, Select_LED hal s _ f1 f2 f4,
    Parse_LED_Command_wellformed _ n t hn ht2, LED_SetState_free _ _ _ hn hp]
  simp only [if_true, LED_ok_line n t hn ht2, LED_ForceState_withLine, send2_withLine, e6, e7,
    hon]
  rw [LED_ForceState_frame]

/-- C5: for n in 1..3 and t in ON, OFF, dispatching the ready line `LED<n> <t>` when no
pattern is active sets output n to t, leaves the other outputs and the pattern engine (and
timer flags) unchanged, and transmits `[OK] LED <n> mise a <t>` (with CR LF) followed by the
prompt `STM32> `. -/
theorem C5_led_command (hal : HAL) (s s' : State) (n : Nat) (t : List Nat)
    (hn : 1 ≤ n ∧ n ≤ 3) (ht : t = str "ON" ∨ t = str "OFF")
    (hpat : Pattern_IsActive s = false)
    (hs' : s' =
      Command_Parser_ProcessCommands hal (s.withLine (str "LED" ++ [48 + n] ++ str " " ++ t))) :
    LED_GetState n s' = (if t = str "ON" then LED_ON else LED_OFF) ∧
    (∀ m, 1 ≤ m ∧ m ≤ 3 → m ≠ n → LED_GetState m s' = LED_GetState m s) ∧
    s'.activePattern = s.activePattern ∧ s'.currentFrequency = s.currentFrequency ∧
    s'.patternStep = s.patternStep ∧ s'.patternNeedsUpdate = s.patternNeedsUpdate ∧
    s'.timerActive = s.timerActive ∧
    s'.tx = s.tx ++ [str "[OK] LED " ++ [48 + n] ++ str " mise a " ++ t ++ str "\r\n",
      str "STM32> "] := by
  rw [hs', LED_command_result hal s n t hn ht hpat]
  obtain ⟨h1, h3⟩ := hn
  have hon : str "ON" = [79, 78] := by decide
  have hoff : str "OFF" = [79, 70, 70] := by decide
  rw [hon, hoff] at ht
  rw [hon]
  refine ⟨?_, ?_, ?_, ?_, ?_, ?_, ?_, rfl⟩
  · interval_cases n <;> rcases ht with rfl | rfl <;>
      simp [LED_GetState_one, LED_GetState_two, LED_GetState_three, LED_ForceState_one,
        LED_ForceState_two, LED_ForceState_three, LED_ON, LED_OFF]
  · intro m ⟨hm1, hm3⟩ hmn
    interval_cases n <;> interval_cases m <;>
      simp_all [LED_GetState_one, LED_GetState_two, LED_GetState_three, LED_ForceState_one,
        LED_ForceState_two, LED_ForceState_three]
  all_goals
    rw [LED_ForceState_frame]

/-- C5 at the line `LED1 ON` from the all-off idle state. -/
theorem C5_led_command_witness :
    LED_GetState 1 (Command_Parser_ProcessCommands HAL.ok
        (State.zero.withLine (str "LED" ++ [48 + 1] ++ str " " ++ str "ON"))) = LED_ON ∧
    (Command_Parser_ProcessCommands HAL.ok
        (State.zero.withLine (str "LED" ++ [48 + 1] ++ str " " ++ str "ON"))).tx =
      [str "[OK] LED 1 mise a ON\r\n", str "STM32> "] :=
  ⟨(C5_led_command HAL.ok State.zero _ 1 (str "ON") (by decide) (Or.inl rfl) (by decide) rfl).1,
   (C5_led_command HAL.ok State.zero _ 1 (str "ON") (by decide) (Or.inl rfl) (by decide)
      rfl).2.2.2.2.2.2.2.trans (by decide)⟩

theorem Timer_Stop_withLine (hal : HAL) (k : Nat) (s : State) (L : List Nat) :
    Timer_Stop hal k (s.withLine L) = ((Timer_Stop hal k s).1, (Timer_Stop hal k s).2.withLine L) := by
  unfold Timer_Stop
  split_ifs <;> rfl

theorem Timer_Start_withLine (hal : HAL) (k : Nat) (s : State) (L : List Nat) :
    Timer_Start hal k (s.withLine L) =
      ((Timer_Start hal k s).1, (Timer_Start hal k s).2.withLine L) := by
  unfold Timer_Start
  split_ifs <;> rfl

theorem Pattern_Stop_withLine (hal : HAL) (s : State) (L : List Nat) :
    Pattern_Stop hal (s.withLine L) =
      ((Pattern_Stop hal s).1, (Pattern_Stop hal s).2.withLine L) := by
  by_cases h : s.activePattern = PATTERN_NONE
  · have h2 : (s.withLine L).activePattern = PATTERN_NONE := h
    simp only [Pattern_Stop, if_pos h, if_pos h2]
  · have h2 : ¬ (s.withLine L).activePattern = PATTERN_NONE := h
    simp only [Pattern_Stop, if_neg h, if_neg h2, Timer_Stop_withLine, LED_AllOff_eq]
    rfl

theorem Pattern_Start_withLine (hal : HAL) (p : Nat) (s : State) (L : List Nat) :
    Pattern_Start hal p (s.withLine L) =
      ((Pattern_Start hal p s).1, (Pattern_Start hal p s).2.withLine L) := by
  by_cases hv : p ≤ PATTERN_NONE ∨ p > PATTERN_COUNT
  · simp only [Pattern_Start, if_pos hv]
  · by_cases h : s.activePattern ≠ PATTERN_NONE
    · have h2 : (s.withLine L).activePattern ≠ PATTERN_NONE := h
      simp only [Pattern_Start, if_neg hv, if_pos h, if_pos h2, Pattern_Stop_withLine]
      have := Timer_Start_withLine hal ((Pattern_Stop hal s).2.currentFrequency % 256)
        { (Pattern_Stop hal s).2 with activePattern := p, patternStep := 0 } L
      simp only [State.withLine] at this ⊢
      rw [this]
    · have h2 : ¬ (s.withLine L).activePattern ≠ PATTERN_NONE := h
      simp only [Pattern_Start, if_neg hv, if_neg h, if_neg h2]
      have := Timer_Start_withLine hal (s.currentFrequency % 256)
        { s with activePattern := p, patternStep := 0 } L
      simp only [State.withLine] at this ⊢
      rw [this]


theorem cstr_CHENILLARD : cstr CMD_CHENILLARD = [67, 72, 69, 78, 73, 76, 76, 65, 82, 68] := by
  decide
theorem cstr_PAT : cstr CMD_PAT = [80, 65, 84] := by decide
theorem cstr_FREQ : cstr CMD_FREQ = [70, 82, 69, 81] := by decide
theorem strlen_CHENILLARD : strlen CMD_CHENILLARD = 10 := by decide
theorem strlen_PAT : strlen CMD_PAT = 3 := by decide
theorem strlen_FREQ : strlen CMD_FREQ = 4 := by decide
theorem cstr_sp_ON : cstr (str " " ++ CMD_ON) = [32, 79, 78] := by decide

theorem charAt_drop (m : List Nat) (i j : Nat) : charAt (m.drop i) j = charAt m (i + j) := by
  simp [charAt, List.getD_eq_getElem?_getD, List.getElem?_drop]

theorem Pattern_Start_fst (hal : HAL) (p : Nat) (s : State) (hp : 1 ≤ p ∧ p ≤ 3) :
    (Pattern_Start hal p s).1 = true := by
  rw [Pattern_Start_of_valid hal p s hp]

theorem fmt_d_digit (n : Nat) (hn : 1 ≤ n ∧ n ≤ 3) : fmt_d n = [48 + n] := by
  obtain ⟨h1, h3⟩ := hn
  interval_cases n <;> decide

theorem Chenillard_ok_line (n : Nat) (hn : 1 ≤ n ∧ n ≤ 3) (s : State) :
    Send_Success_Message (snprintf 40 (str "Chenillard " ++ fmt_d n ++ str " active\r\n")) s =
      UART_SendString (str "[OK] Chenillard " ++ [48 + n] ++ str " active\r\n") s := by
  obtain ⟨h1, h3⟩ := hn
  unfold Send_Success_Message
  interval_cases n
  · rw [if_pos (by decide)]; congr 1
  · rw [if_pos (by decide)]; congr 1
  · rw [if_pos (by decide)]; congr 1

theorem Select_PAT (hal : HAL) (s : State) (n : Nat) (hn : 1 ≤ n ∧ n ≤ 3) :
    Command_Parser_Select hal (s.withLine [80, 65, 84, 48 + n]) =
      (true, UART_SendString (str "[OK] Chenillard " ++ [48 + n] ++ str " active\r\n")
        ((Pattern_Start hal n s).2.withLine [80, 65, 84, 48 + n])) := by
  have h63 : ([80, 65, 84, 48 + n] : List Nat).length ≤ 63 := by simp
  have hz : ∀ c ∈ ([80, 65, 84, 48 + n] : List Nat), c ≠ 0 := by
    intro c hc; simp at hc; omega
  have hnum : (48 + n - 48) % 256 = n := by omega
  have hrange : 48 + n ≥ 49 ∧ 48 + n ≤ 48 + 3 := by omega
  unfold Command_Parser_Select
  simp only [withLine_commandBuffer, strcmp_eq, strncmp_eq, cstr_padded _ h63 hz, cstr_LED,
    cstr_STATUS, cstr_STOP, strlen_LED, cstr_CHENILLARD, strlen_CHENILLARD, cstr_PAT, strlen_PAT]
  simp only [beq_iff_eq, List.take_succ_cons, List.take_zero, List.take_nil, List.cons.injEq,
    Nat.reduceEqDiff, false_and, and_false, if_false, and_self, true_or, if_true]
  unfold Parse_Shortcut_Command
  simp only [strcmp_eq, strncmp_eq, cstr_padded _ h63 hz, cstr_STOP, cstr_PAT, strlen_PAT,
    strlen_padded _ h63 hz, charAt_padded, PATTERN_COUNT]
  simp only [beq_iff_eq, List.take_succ_cons, List.take_zero, List.take_nil, List.cons.injEq,
    Nat.reduceEqDiff, false_and, and_false, if_false, and_self, if_true, List.length_cons,
    List.length_nil, List.getD_cons_succ, List.getD_cons_zero, hnum, hrange,
    Pattern_Start_withLine, Pattern_Start_fst hal n s hn, Chenillard_ok_line n hn]


theorem Select_CHENILLARD_ON (hal : HAL) (s : State) (n : Nat) (hn : 1 ≤ n ∧ n ≤ 3) :
    Command_Parser_Select hal
        (s.withLine [67, 72, 69, 78, 73, 76, 76, 65, 82, 68, 48 + n, 32, 79, 78]) =
      (true, UART_SendString (str "[OK] Chenillard " ++ [48 + n] ++ str " active\r\n")
        ((Pattern_Start hal n s).2.withLine
          [67, 72, 69, 78, 73, 76, 76, 65, 82, 68, 48 + n, 32, 79, 78])) := by
  have h63 : ([67, 72, 69, 78, 73, 76, 76, 65, 82, 68, 48 + n, 32, 79, 78] : List Nat).length
      ≤ 63 := by simp
  have hz : ∀ c ∈ ([67, 72, 69, 78, 73, 76, 76, 65, 82, 68, 48 + n, 32, 79, 78] : List Nat),
      c ≠ 0 := by
    intro c hc; simp at hc; omega
  have hnum : (48 + n - 48) % 256 = n := by omega
  have hrange : ¬ (48 + n < 49 ∨ 48 + n > 48 + 3) := by omega
  have hdig : isdigit (48 + n) = true := by
    simp only [isdigit, decide_eq_true_eq]; omega
  unfold Command_Parser_Select
  simp only [withLine_commandBuffer, strcmp_eq, strncmp_eq, cstr_padded _ h63 hz, cstr_LED,
    cstr_STATUS, cstr_STOP, strlen_LED, cstr_CHENILLARD, strlen_CHENILLARD, cstr_PAT, strlen_PAT,
    strlen, cstr_drop_padded _ _ h63 hz, List.drop_drop, charAt_drop, charAt_padded, cstr_sp_ON]
  simp only [beq_iff_eq, List.take_succ_cons, List.take_zero, List.take_nil, List.cons.injEq,
    Nat.reduceEqDiff, false_and, and_false, if_false, and_self, true_or, if_true,
    List.drop_succ_cons, List.drop_zero, List.length_cons, List.length_nil,
    List.getD_cons_succ, List.getD_cons_zero, Nat.reduceAdd, hdig, ge_iff_le, Nat.reduceLeDiff,
    Nat.le_refl, true_and]
  unfold Parse_Chenillard_ON_Command
  simp only [strcmp_eq, cstr_drop_padded _ _ h63 hz, cstr_sp_ON, strlen_CHENILLARD,
    charAt_padded, PATTERN_COUNT]
  simp only [beq_iff_eq, List.drop_succ_cons, List.drop_zero, Nat.reduceAdd,
    List.getD_cons_succ, List.getD_cons_zero, hnum, hrange, if_false, Bool.not_true,
    Bool.false_eq_true, Pattern_Start_withLine, Pattern_Start_fst hal n s hn, if_true,
    Chenillard_ok_line n hn, beq_self_eq_true]


theorem Pattern_Start_tx (hal : HAL) (p : Nat) (s : State) : (Pattern_Start hal p s).2.tx = s.tx := by
  by_cases hv : p ≤ PATTERN_NONE ∨ p > PATTERN_COUNT
  · simp only [Pattern_Start, if_pos hv]
  · have hp : 1 ≤ p ∧ p ≤ 3 := by
      simp only [PATTERN_NONE, PATTERN_COUNT] at hv; omega
    rw [Pattern_Start_of_valid hal p s hp]
    by_cases h : s.activePattern ≠ PATTERN_NONE
    · simp only [if_pos h, Pattern_Stop_of_active hal s h]
    · simp only [if_neg h]

/-- C7: for n in 1..3 and any prior state, dispatching `PAT<n>` and dispatching
`CHENILLARD<n> ON` give the same final state and the same output: the state is that of
`Pattern_Start n` (pattern n selected, step 0, pending-update raised, frequency unchanged) with
the line assembler cleared, and the transmitted text is `[OK] Chenillard <n> active` (with
CR LF) followed by the prompt `STM32> `. -/
theorem C7_shortcut_equals_long_form (hal : HAL) (s : State) (n : Nat) (hn : 1 ≤ n ∧ n ≤ 3) :
    Command_Parser_ProcessCommands hal (s.withLine (str "PAT" ++ [48 + n])) =
      Command_Parser_ProcessCommands hal
        (s.withLine (str "CHENILLARD" ++ [48 + n] ++ str " ON")) ∧
    Command_Parser_ProcessCommands hal (s.withLine (str "PAT" ++ [48 + n])) =
      { (Pattern_Start hal n s).2 with
        commandBuffer := List.replicate 64 0, bufferIndex := 0, commandComplete := false
        tx := s.tx ++ [str "[OK] Chenillard " ++ [48 + n] ++ str " active\r\n", str "STM32> "] } ∧
    (Pattern_Start hal n s).2.activePattern = n ∧
    (Pattern_Start hal n s).2.patternStep = 0 ∧
    (Pattern_Start hal n s).2.patternNeedsUpdate = true ∧
    (Pattern_Start hal n s).2.currentFrequency = s.currentFrequency := by
  have hL1 : str "PAT" ++ [48 + n] = [80, 65, 84, 48 + n] := by
    have : str "PAT" = [80, 65, 84] := by decide
    rw [this]; rfl
  have hL2 : str "CHENILLARD" ++ [48 + n] ++ str " ON" =
      [67, 72, 69, 78, 73, 76, 76, 65, 82, 68, 48 + n, 32, 79, 78] := by
    have h1 : str "CHENILLARD" = [67, 72, 69, 78, 73, 76, 76, 65, 82, 68] := by decide
    have h2 : str " ON" = [32, 79, 78] := by decide
    rw [h1, h2]; rfl
  have hz1 : ∀ c ∈ ([80, 65, 84, 48 + n] : List Nat), c ≠ 0 := by
    intro c hc; simp at hc; omega
  have hz2 : ∀ c ∈ ([67, 72, 69, 78, 73, 76, 76, 65, 82, 68, 48 + n, 32, 79, 78] : List Nat),
      c ≠ 0 := by
    intro c hc; simp at hc; omega
  have e6 : cstr (str "STM32> ") = str "STM32> " := by decide
  have e7 : cstr (str "[OK] Chenillard " ++ [48 + n] ++ str " active\r\n") =
      str "[OK] Chenillard " ++ [48 + n] ++ str " active\r\n" := by
    obtain ⟨h1, h3⟩ := hn
    interval_cases n <;> decide
  have r1 : Command_Parser_ProcessCommands hal (s.withLine [80, 65, 84, 48 + n]) =
      { (Pattern_Start hal n s).2 with
        commandBuffer := List.replicate 64 0, bufferIndex := 0, commandComplete := false
        tx := s.tx ++ [str "[OK] Chenillard " ++ [48 + n] ++ str " active\r\n", str "STM32> "] } := by
    rw [ProcessCommands_withLine hal s _ (by simp) hz1 (by simp), Select_PAT hal s n hn]
    simp only [if_true, send2_withLine, e6, e7, Pattern_Start_tx]
  have r2 : Command_Parser_ProcessCommands hal
      (s.withLine [67, 72, 69, 78, 73, 76, 76, 65, 82, 68, 48 + n, 32, 79, 78]) =
      { (Pattern_Start hal n s).2 with
        commandBuffer := List.replicate 64 0, bufferIndex := 0, commandComplete := false
        tx := s.tx ++ [str "[OK] Chenillard " ++ [48 + n] ++ str " active\r\n", str "STM32> "] } := by
    rw [ProcessCommands_withLine hal s _ (by simp) hz2 (by simp), Select_CHENILLARD_ON hal s n hn]
    simp only [if_true, send2_withLine, e6, e7, Pattern_Start_tx]
  rw [hL1, hL2]
  refine ⟨by rw [r1, r2], r1, ?_, ?_, ?_, ?_⟩
  · rw [Pattern_Start_of_valid hal n s hn]
  · rw [Pattern_Start_of_valid hal n s hn]
  · rw [Pattern_Start_of_valid hal n s hn]
  · rw [Pattern_Start_of_valid hal n s hn]
    by_cases h : s.activePattern ≠ PATTERN_NONE
    · simp only [if_pos h, Pattern_Stop_of_active hal s h]
    · simp only [if_neg h]

/-- C7 at n = 2 from the idle state. -/
theorem C7_shortcut_equals_long_form_witness :
    Command_Parser_ProcessCommands HAL.ok (State.zero.withLine (str "PAT" ++ [48 + 2])) =
      Command_Parser_ProcessCommands HAL.ok
        (State.zero.withLine (str "CHENILLARD" ++ [48 + 2] ++ str " ON")) ∧
    (Pattern_Start HAL.ok 2 State.zero).2.activePattern = 2 :=
  ⟨(C7_shortcut_equals_long_form HAL.ok State.zero 2 (by decide)).1,
   (C7_shortcut_equals_long_form HAL.ok State.zero 2 (by decide)).2.2.1⟩

/-! ## Pattern engine: frequency, poll and tick -/

theorem Pattern_SetFrequency_of_valid (hal : HAL) (f : Nat) (s : State) (hf : f ≤ 2) :
    Pattern_SetFrequency hal f s =
      (true, { s with
        currentFrequency := f
        timerActive := (Pattern_SetFrequency hal f s).2.timerActive }) := by
  have hv : ¬ (f < PATTERN_FREQ_500MS ∨ f > PATTERN_FREQ_3S) := by
    simp only [PATTERN_FREQ_500MS, PATTERN_FREQ_3S]; omega
  by_cases h : s.activePattern ≠ PATTERN_NONE
  · simp only [Pattern_SetFrequency, if_neg hv, if_pos h]
    rw [Timer_Start_frame, Timer_Stop_frame]
  · simp only [Pattern_SetFrequency, if_neg hv, if_neg h]

/-- C11: `Pattern_SetFrequency` returns false and changes nothing for a tier outside 0..2
(the three valid tiers); for a valid tier it returns true, sets the current frequency to it and
leaves the pattern selection, the step counter, the pending-update flag and every output
unchanged, whether a pattern is running or not. -/
theorem C11_set_frequency (hal : HAL) (f : Nat) (s : State) :
    (f > 2 → Pattern_SetFrequency hal f s = (false, s)) ∧
    (f ≤ 2 →
      (Pattern_SetFrequency hal f s).1 = true ∧
      (Pattern_SetFrequency hal f s).2.currentFrequency = f ∧
      (Pattern_SetFrequency hal f s).2.activePattern = s.activePattern ∧
      (Pattern_SetFrequency hal f s).2.patternStep = s.patternStep ∧
      (Pattern_SetFrequency hal f s).2.patternNeedsUpdate = s.patternNeedsUpdate ∧
      (∀ i, LED_GetState i (Pattern_SetFrequency hal f s).2 = LED_GetState i s)) := by
  constructor
  · intro h
    have hv : f < PATTERN_FREQ_500MS ∨ f > PATTERN_FREQ_3S := Or.inr h
    simp only [Pattern_SetFrequency, if_pos hv]
  · intro h
    have e := Pattern_SetFrequency_of_valid hal f s h
    refine ⟨by rw [e], by rw [e], by rw [e], by rw [e], by rw [e], ?_⟩
    intro i
    rw [e]
    rfl

/-- C11 at the invalid tier 3 and the valid tier 0 while pattern 2 runs. -/
theorem C11_set_frequency_witness :
    Pattern_SetFrequency HAL.ok 3 (State.running 2) = (false, State.running 2) ∧
    (Pattern_SetFrequency HAL.ok 0 (State.running 2)).2.currentFrequency = 0 ∧
    (Pattern_SetFrequency HAL.ok 0 (State.running 2)).2.patternStep =
      (State.running 2).patternStep :=
  ⟨(C11_set_frequency HAL.ok 3 (State.running 2)).1 (by decide),
   ((C11_set_frequency HAL.ok 0 (State.running 2)).2 (by decide)).2.1,
   ((C11_set_frequency HAL.ok 0 (State.running 2)).2 (by decide)).2.2.2.1⟩

theorem LED_ForceState_engine (n v : Nat) (s : State) :
    (LED_ForceState n v s).patternStep = s.patternStep ∧
    (LED_ForceState n v s).activePattern = s.activePattern ∧
    (LED_ForceState n v s).currentFrequency = s.currentFrequency ∧
    (LED_ForceState n v s).patternNeedsUpdate = s.patternNeedsUpdate ∧
    (LED_ForceState n v s).timerActive = s.timerActive ∧
    (LED_ForceState n v s).tx = s.tx := by
  rw [LED_ForceState_frame]
  exact ⟨rfl, rfl, rfl, rfl, rfl, rfl⟩

theorem Pattern1_Update_engine (s : State) :
    (Pattern1_Update s).patternStep = (s.patternStep + 1) % 3 ∧
    (Pattern1_Update s).activePattern = s.activePattern ∧
    (Pattern1_Update s).currentFrequency = s.currentFrequency := by
  simp only [Pattern1_Update, LED_AllOff_eq, LED_COUNT]
  obtain ⟨h1, h2, h3, -⟩ := LED_ForceState_engine ((s.patternStep + 1) % 256) LED_ON
    { s with pb0 := false, pb7 := false, pb14 := false }
  exact ⟨by rw [h1], by rw [h2], by rw [h3]⟩

theorem Pattern2_Update_engine (s : State) :
    (Pattern2_Update s).patternStep = (s.patternStep + 1) % 2 ∧
    (Pattern2_Update s).activePattern = s.activePattern ∧
    (Pattern2_Update s).currentFrequency = s.currentFrequency := by
  simp only [Pattern2_Update, LED_ForceState_one, LED_ForceState_two, LED_ForceState_three]
  split_ifs <;> exact ⟨rfl, rfl, rfl⟩

theorem Pattern3_Update_engine (s : State) :
    (Pattern3_Update s).patternStep = (s.patternStep + 1) % 6 ∧
    (Pattern3_Update s).activePattern = s.activePattern ∧
    (Pattern3_Update s).currentFrequency = s.currentFrequency := by
  simp only [Pattern3_Update, LED_AllOff_eq, LED_ForceState_one, LED_ForceState_two,
    LED_ForceState_three]
  split <;> exact ⟨rfl, rfl, rfl⟩

theorem Pattern_Controller_Update_engine (s : State) (hn : s.patternNeedsUpdate = true)
    (hp : 1 ≤ s.activePattern ∧ s.activePattern ≤ 3) :
    (Pattern_Controller_Update s).patternStep =
      (s.patternStep + 1) % sequenceLength s.activePattern ∧
    (Pattern_Controller_Update s).patternNeedsUpdate = false ∧
    (Pattern_Controller_Update s).activePattern = s.activePattern ∧
    (Pattern_Controller_Update s).currentFrequency = s.currentFrequency := by
  obtain ⟨h1, h3⟩ := hp
  have hc : s.activePattern = 1 ∨ s.activePattern = 2 ∨ s.activePattern = 3 := by omega
  rcases hc with ha | ha | ha
  · obtain ⟨e1, e2, e3⟩ := Pattern1_Update_engine s
    have hU : Pattern_Controller_Update s =
        { Pattern1_Update s with patternNeedsUpdate := false } := by
      simp [Pattern_Controller_Update, hn, ha, PATTERN_NONE]
    rw [hU]
    refine ⟨?_, rfl, e2, e3⟩
    rw [ha]
    exact e1
  · obtain ⟨e1, e2, e3⟩ := Pattern2_Update_engine s
    have hU : Pattern_Controller_Update s =
        { Pattern2_Update s with patternNeedsUpdate := false } := by
      simp [Pattern_Controller_Update, hn, ha, PATTERN_NONE]
    rw [hU]
    refine ⟨?_, rfl, e2, e3⟩
    rw [ha]
    exact e1
  · obtain ⟨e1, e2, e3⟩ := Pattern3_Update_engine s
    have hU : Pattern_Controller_Update s =
        { Pattern3_Update s with patternNeedsUpdate := false } := by
      simp [Pattern_Controller_Update, hn, ha, PATTERN_NONE]
    rw [hU]
    refine ⟨?_, rfl, e2, e3⟩
    rw [ha]
    exact e1

/-- C12: `Pattern_Controller_Update` changes nothing when the pending-update flag is clear or
no pattern is active; with the flag set and pattern 1, 2 or 3 active it is that pattern's step
function followed by clearing the flag, the step counter becomes (step + 1) mod L with
L = 3, 2, 6, and selection and frequency are unchanged. -/
theorem C12_poll (s : State) :
    ((s.patternNeedsUpdate = false ∨ s.activePattern = PATTERN_NONE) →
      Pattern_Controller_Update s = s) ∧
    (s.patternNeedsUpdate = true →
      (s.activePattern = 1 →
        Pattern_Controller_Update s = { Pattern1_Update s with patternNeedsUpdate := false }) ∧
      (s.activePattern = 2 →
        Pattern_Controller_Update s = { Pattern2_Update s with patternNeedsUpdate := false }) ∧
      (s.activePattern = 3 →
        Pattern_Controller_Update s = { Pattern3_Update s with patternNeedsUpdate := false })) ∧
    (s.patternNeedsUpdate = true → 1 ≤ s.activePattern ∧ s.activePattern ≤ 3 →
      (Pattern_Controller_Update s).patternStep =
        (s.patternStep + 1) % sequenceLength s.activePattern ∧
      (Pattern_Controller_Update s).patternNeedsUpdate = false ∧
      (Pattern_Controller_Update s).activePattern = s.activePattern ∧
      (Pattern_Controller_Update s).currentFrequency = s.currentFrequency) := by
  refine ⟨?_, ?_, ?_⟩
  · intro h
    unfold Pattern_Controller_Update
    rcases h with h | h <;> simp [h]
  · intro hn
    refine ⟨?_, ?_, ?_⟩ <;> intro ha <;>
      simp [Pattern_Controller_Update, hn, ha, PATTERN_NONE]
  · intro hn hp
    exact Pattern_Controller_Update_engine s hn hp

/-- C12 with the flag clear, and with pattern 3 at step 5 and the flag set. -/
theorem C12_poll_witness :
    Pattern_Controller_Update (State.running 2) = State.running 2 ∧
    (Pattern_Controller_Update
      { State.running 3 with patternNeedsUpdate := true, patternStep := 5 }).patternStep = 0 :=
  ⟨(C12_poll (State.running 2)).1 (by decide),
   ((C12_poll { State.running 3 with patternNeedsUpdate := true, patternStep := 5 }).2.2
      (by decide) (by decide)).1⟩

theorem Pattern1_Update_eq (s : State) (k : Nat) (hk : s.patternStep = k) (hkL : k < 3) :
    Pattern1_Update s =
      { s with
        pb0 := decide (k = 0), pb7 := decide (k = 1), pb14 := decide (k = 2)
        patternStep := (k + 1) % 3 } := by
  have hc : k = 0 ∨ k = 1 ∨ k = 2 := by omega
  rcases hc with rfl | rfl | rfl
  · simp only [Pattern1_Update, LED_AllOff_eq, hk]
    simp only [Nat.reduceAdd, Nat.reduceMod, LED_ForceState_one, LED_COUNT]
    rfl
  · simp only [Pattern1_Update, LED_AllOff_eq, hk]
    simp only [Nat.reduceAdd, Nat.reduceMod, LED_ForceState_two, LED_COUNT]
    rfl
  · simp only [Pattern1_Update, LED_AllOff_eq, hk]
    simp only [Nat.reduceAdd, Nat.reduceMod, LED_ForceState_three, LED_COUNT]
    rfl

theorem Pattern2_Update_eq (s : State) (k : Nat) (hk : s.patternStep = k) (hkL : k < 2) :
    Pattern2_Update s =
      { s with
        pb0 := decide (k = 0), pb7 := decide (k = 1), pb14 := decide (k = 0)
        patternStep := (k + 1) % 2 } := by
  have hc : k = 0 ∨ k = 1 := by omega
  rcases hc with rfl | rfl
  · simp only [Pattern2_Update, hk, if_true, LED_ForceState_one, LED_ForceState_two,
      LED_ForceState_three]
    rfl
  · simp only [Pattern2_Update, hk, Nat.one_ne_zero, if_false, LED_ForceState_one,
      LED_ForceState_two, LED_ForceState_three]
    rfl

theorem Pattern3_Update_eq (s : State) (k : Nat) (hk : s.patternStep = k) (hkL : k < 6) :
    Pattern3_Update s =
      { s with
        pb0 := decide (k ≤ 2), pb7 := decide (1 ≤ k ∧ k ≤ 3), pb14 := decide (2 ≤ k ∧ k ≤ 4)
        patternStep := (k + 1) % 6 } := by
  have hc : k = 0 ∨ k = 1 ∨ k = 2 ∨ k = 3 ∨ k = 4 ∨ k = 5 := by omega
  rcases hc with rfl | rfl | rfl | rfl | rfl | rfl <;>
    simp only [Pattern3_Update, LED_AllOff_eq, hk, LED_ForceState_one, LED_ForceState_two,
      LED_ForceState_three] <;> rfl

theorem Pattern_Controller_Update_pins (s : State) (p k : Nat) (hp : 1 ≤ p ∧ p ≤ 3)
    (ha : s.activePattern = p) (hn : s.patternNeedsUpdate = true)
    (hk : s.patternStep = k) (hkL : k < sequenceLength p) :
    (Pattern_Controller_Update s).pb0 = decide (1 ∈ patternMask p k) ∧
    (Pattern_Controller_Update s).pb7 = decide (2 ∈ patternMask p k) ∧
    (Pattern_Controller_Update s).pb14 = decide (3 ∈ patternMask p k) := by
  obtain ⟨hp1, hp3⟩ := hp
  have hc : p = 1 ∨ p = 2 ∨ p = 3 := by omega
  rcases hc with rfl | rfl | rfl
  · have hU : Pattern_Controller_Update s =
        { Pattern1_Update s with patternNeedsUpdate := false } := by
      simp [Pattern_Controller_Update, hn, ha, PATTERN_NONE]
    have hk3 : k < 3 := hkL
    rw [hU, Pattern1_Update_eq s k hk hk3]
    have hc : k = 0 ∨ k = 1 ∨ k = 2 := by omega
    rcases hc with rfl | rfl | rfl <;> exact ⟨rfl, rfl, rfl⟩
  · have hU : Pattern_Controller_Update s =
        { Pattern2_Update s with patternNeedsUpdate := false } := by
      simp [Pattern_Controller_Update, hn, ha, PATTERN_NONE]
    have hk2 : k < 2 := hkL
    rw [hU, Pattern2_Update_eq s k hk hk2]
    have hc : k = 0 ∨ k = 1 := by omega
    rcases hc with rfl | rfl <;> exact ⟨rfl, rfl, rfl⟩
  · have hU : Pattern_Controller_Update s =
        { Pattern3_Update s with patternNeedsUpdate := false } := by
      simp [Pattern_Controller_Update, hn, ha, PATTERN_NONE]
    have hk6 : k < 6 := hkL
    rw [hU, Pattern3_Update_eq s k hk hk6]
    have hc : k = 0 ∨ k = 1 ∨ k = 2 ∨ k = 3 ∨ k = 4 ∨ k = 5 := by omega
    rcases hc with rfl | rfl | rfl | rfl | rfl | rfl <;> exact ⟨rfl, rfl, rfl⟩

theorem LED_GetState_pins (i : Nat) (s : State) (hi : 1 ≤ i ∧ i ≤ 3) :
    LED_GetState i s =
      if (if i = 1 then s.pb0 else if i = 2 then s.pb7 else s.pb14) = true then LED_ON
      else LED_OFF := by
  obtain ⟨h1, h3⟩ := hi
  have hc : i = 1 ∨ i = 2 ∨ i = 3 := by omega
  rcases hc with rfl | rfl | rfl
  · rw [LED_GetState_one]; rfl
  · rw [LED_GetState_two]; rfl
  · rw [LED_GetState_three]; rfl

/-- C13: when the poll runs with pattern `p` active, the pending flag set and step counter
`k` below the sequence length, output `i` is on afterwards exactly when `i` is in the table
entry `patternMask p k`, whatever the outputs were before. -/
theorem C13_step_outputs (s : State) (p k i : Nat) (hp : 1 ≤ p ∧ p ≤ 3)
    (ha : s.activePattern = p) (hn : s.patternNeedsUpdate = true)
    (hk : s.patternStep = k) (hkL : k < sequenceLength p) (hi : 1 ≤ i ∧ i ≤ 3) :
    LED_GetState i (Pattern_Controller_Update s) =
      if i ∈ patternMask p k then LED_ON else LED_OFF := by
  obtain ⟨e0, e7, e14⟩ := Pattern_Controller_Update_pins s p k hp ha hn hk hkL
  rw [LED_GetState_pins i _ hi, e0, e7, e14]
  obtain ⟨h1, h3⟩ := hi
  have hc : i = 1 ∨ i = 2 ∨ i = 3 := by omega
  rcases hc with rfl | rfl | rfl <;> simp

/-- C13 at pattern 3, step 3: output 2 is on and output 1 is off. -/
theorem C13_step_outputs_witness :
    LED_GetState 2 (Pattern_Controller_Update
      { State.running 3 with patternNeedsUpdate := true, patternStep := 3 }) = LED_ON ∧
    LED_GetState 1 (Pattern_Controller_Update
      { State.running 3 with patternNeedsUpdate := true, patternStep := 3 }) = LED_OFF :=
  ⟨C13_step_outputs { State.running 3 with patternNeedsUpdate := true, patternStep := 3 }
      3 3 2 (by decide) rfl rfl rfl (by decide) (by decide),
   C13_step_outputs { State.running 3 with patternNeedsUpdate := true, patternStep := 3 }
      3 3 1 (by decide) rfl rfl rfl (by decide) (by decide)⟩

theorem TimerCallback_idem (t : Nat) (s : State) :
    Pattern_TimerCallback t (Pattern_TimerCallback t s) = Pattern_TimerCallback t s := by
  unfold Pattern_TimerCallback
  by_cases h : s.activePattern ≠ PATTERN_NONE ∧ t = s.currentFrequency
  · simp only [if_pos h]
  · simp only [if_neg h]

theorem TimerCallback_iterate (t : Nat) (s : State) (n : Nat) (hn : 1 ≤ n) :
    (Pattern_TimerCallback t)^[n] s = Pattern_TimerCallback t s := by
  induction n with
  | zero => omega
  | succ m ih =>
    rw [Function.iterate_succ_apply']
    by_cases hm : 1 ≤ m
    · rw [ih hm, TimerCallback_idem]
    · have : m = 0 := by omega
      subst this
      rfl

/-- C14: `Pattern_TimerCallback` changes nothing unless a pattern is active and the tier
equals the current frequency, and then only raises the pending-update flag; any number
n >= 1 of ticks leaves the same state as one tick, and n qualifying ticks followed by one poll
advance the step counter by exactly one (mod the sequence length). -/
theorem C14_tick (t : Nat) (s : State) :
    (¬ (s.activePattern ≠ PATTERN_NONE ∧ t = s.currentFrequency) →
      Pattern_TimerCallback t s = s) ∧
    ((s.activePattern ≠ PATTERN_NONE ∧ t = s.currentFrequency) →
      Pattern_TimerCallback t s = { s with patternNeedsUpdate := true }) ∧
    (∀ n, 1 ≤ n → (Pattern_TimerCallback t)^[n] s = Pattern_TimerCallback t s) ∧
    (∀ n, 1 ≤ n → (1 ≤ s.activePattern ∧ s.activePattern ≤ 3) → t = s.currentFrequency →
      (Pattern_Controller_Update ((Pattern_TimerCallback t)^[n] s)).patternStep =
        (s.patternStep + 1) % sequenceLength s.activePattern) := by
  refine ⟨?_, ?_, ?_, ?_⟩
  · intro h
    simp only [Pattern_TimerCallback, if_neg h]
  · intro h
    simp only [Pattern_TimerCallback, if_pos h]
  · intro n hn
    exact TimerCallback_iterate t s n hn
  · intro n hn hp ht
    have hq : s.activePattern ≠ PATTERN_NONE ∧ t = s.currentFrequency := by
      refine ⟨?_, ht⟩
      simp only [PATTERN_NONE]; omega
    rw [TimerCallback_iterate t s n hn]
    simp only [Pattern_TimerCallback, if_pos hq]
    exact (Pattern_Controller_Update_engine { s with patternNeedsUpdate := true } rfl hp).1

/-- C14 with a non-matching tier, and with five matching ticks while pattern 2 runs. -/
theorem C14_tick_witness :
    Pattern_TimerCallback 0 (State.running 2) = State.running 2 ∧
    (Pattern_TimerCallback 1)^[5] (State.running 2) = Pattern_TimerCallback 1 (State.running 2) ∧
    (Pattern_Controller_Update ((Pattern_TimerCallback 1)^[5] (State.running 2))).patternStep =
      1 :=
  ⟨(C14_tick 0 (State.running 2)).1 (by decide),
   (C14_tick 1 (State.running 2)).2.2.1 5 (by decide),
   (C14_tick 1 (State.running 2)).2.2.2 5 (by decide) (by decide) rfl⟩

/-! ## Dispatcher: STOP and frequency commands -/

theorem Select_STOP (hal : HAL) (s : State) :
    Command_Parser_Select hal (s.withLine [83, 84, 79, 80]) =
      Execute_STOP_Command hal (s.withLine [83, 84, 79, 80]) := by
  have h63 : ([83, 84, 79, 80] : List Nat).length ≤ 63 := by simp
  have hz : ∀ c ∈ ([83, 84, 79, 80] : List Nat), c ≠ 0 := by
    intro c hc; simp at hc; omega
  unfold Command_Parser_Select
  simp only [withLine_commandBuffer, strcmp_eq, cstr_padded _ h63 hz, cstr_STATUS, cstr_STOP]
  simp only [beq_iff_eq, List.cons.injEq, Nat.reduceEqDiff, false_and, and_false, if_false,
    and_self, if_true, beq_self_eq_true]

theorem Pattern_Stop_tx (hal : HAL) (s : State) : (Pattern_Stop hal s).2.tx = s.tx := by
  by_cases h : s.activePattern ≠ PATTERN_NONE
  · rw [Pattern_Stop_of_active hal s h]
  · have h2 : s.activePattern = PATTERN_NONE := by
      by_contra hc; exact h hc
    simp only [Pattern_Stop, if_pos h2]

theorem STOP_result_active (hal : HAL) (s : State) (h : s.activePattern ≠ PATTERN_NONE) :
    Command_Parser_ProcessCommands hal (s.withLine (str "STOP")) =
      { (Pattern_Stop hal s).2 with
        commandBuffer := List.replicate 64 0, bufferIndex := 0, commandComplete := false
        tx := s.tx ++ [str "[OK] Chenillard arrete\r\n", str "STM32> "] } := by
  have hL : str "STOP" = [83, 84, 79, 80] := by decide
  have h63 : ([83, 84, 79, 80] : List Nat).length ≤ 63 := by simp
  have hz : ∀ c ∈ ([83, 84, 79, 80] : List Nat), c ≠ 0 := by
    intro c hc; simp at hc; omega
  have e6 : cstr (str "STM32> ") = str "STM32> " := by decide
  have hst : (Pattern_Stop hal s).1 = true := by rw [Pattern_Stop_of_active hal s h]
  have hmsg : ∀ st : State, Send_Success_Message (str "Chenillard arrete\r\n") st =
      UART_SendString (str "[OK] Chenillard arrete\r\n") st := by
    intro st
    unfold Send_Success_Message
    rw [if_pos (by decide)]
    congr 1
  have e7 : cstr (str "[OK] Chenillard arrete\r\n") = str "[OK] Chenillard arrete\r\n" := by
    decide
  rw [hL, ProcessCommands_withLine hal s _ h63 hz (by simp), Select_STOP]
  simp only [Execute_STOP_Command, Pattern_Stop_withLine, hst, if_true, hmsg, send2_withLine,
    e6, e7, Pattern_Stop_tx]

theorem STOP_result_idle (hal : HAL) (s : State) (h : s.activePattern = PATTERN_NONE) :
    Command_Parser_ProcessCommands hal (s.withLine (str "STOP")) =
      { s with
        commandBuffer := List.replicate 64 0, bufferIndex := 0, commandComplete := false
        tx := s.tx ++ [str "[ERR] Aucun chenillard actif a arreter\r\n", str "STM32> "] } := by
  have hL : str "STOP" = [83, 84, 79, 80] := by decide
  have h63 : ([83, 84, 79, 80] : List Nat).length ≤ 63 := by simp
  have hz : ∀ c ∈ ([83, 84, 79, 80] : List Nat), c ≠ 0 := by
    intro c hc; simp at hc; omega
  have e6 : cstr (str "STM32> ") = str "STM32> " := by decide
  have hst : Pattern_Stop hal s = (false, s) := by
    simp only [Pattern_Stop, if_pos h]
  have e7 : cstr (snprintf 100 (str "[ERR] " ++ cstr (str "Aucun chenillard actif a arreter") ++
      str "\r\n")) = str "[ERR] Aucun chenillard actif a arreter\r\n" := by
    decide
  rw [hL, ProcessCommands_withLine hal s _ h63 hz (by simp), Select_STOP]
  simp only [Execute_STOP_Command, Pattern_Stop_withLine, hst, Bool.false_eq_true, if_false,
    if_true, Send_Error_Message, send2_withLine, e6, e7]

/-- C16: dispatching STOP while any pattern is active leaves no pattern active and every
output 1..3 off, and transmits exactly `[OK] Chenillard arrete` (with CR LF) followed by the
prompt `STM32> `. -/
theorem C16_stop_active (hal : HAL) (s s' : State) (h : s.activePattern ≠ PATTERN_NONE)
    (hs' : s' = Command_Parser_ProcessCommands hal (s.withLine (str "STOP"))) :
    s'.activePattern = PATTERN_NONE ∧
    (∀ i, 1 ≤ i ∧ i ≤ 3 → LED_GetState i s' = LED_OFF) ∧
    s'.tx = s.tx ++ [str "[OK] Chenillard arrete\r\n", str "STM32> "] := by
  rw [hs', STOP_result_active hal s h, Pattern_Stop_of_active hal s h]
  refine ⟨rfl, ?_, rfl⟩
  intro i hi
  rw [LED_GetState_off_iff i _ hi]
  split_ifs <;> rfl

/-- C16 while pattern 2 runs with output 1 on. -/
theorem C16_stop_active_witness :
    (Command_Parser_ProcessCommands HAL.ok ((State.running 2).withLine (str "STOP"))).activePattern
      = PATTERN_NONE ∧
    LED_GetState 1 (Command_Parser_ProcessCommands HAL.ok
      ((State.running 2).withLine (str "STOP"))) = LED_OFF :=
  ⟨(C16_stop_active HAL.ok (State.running 2) _ (by decide) rfl).1,
   (C16_stop_active HAL.ok (State.running 2) _ (by decide) rfl).2.1 1 (by decide)⟩

/-- C17 (amended): dispatching STOP when no pattern is active is handled without the generic
unknown-command error and changes no output or engine state, but the response is the line
`[ERR] Aucun chenillard actif a arreter` (an `[ERR]` line, not an `[OK]` line), followed by
the prompt. -/
theorem C17_stop_idle (hal : HAL) (s : State) (h : s.activePattern = PATTERN_NONE) :
    Command_Parser_ProcessCommands hal (s.withLine (str "STOP")) =
      { s with
        commandBuffer := List.replicate 64 0, bufferIndex := 0, commandComplete := false
        tx := s.tx ++ [str "[ERR] Aucun chenillard actif a arreter\r\n", str "STM32> "] } ∧
    str "[ERR] Aucun chenillard actif a arreter\r\n" ≠
      str "[ERR] Commande inconnue ou format invalide\r\n" :=
  ⟨STOP_result_idle hal s h, by decide⟩

/-- C17 (amended) at the idle all-off state. -/
theorem C17_stop_idle_witness :
    (Command_Parser_ProcessCommands HAL.ok (State.zero.withLine (str "STOP"))).activePattern = 0 ∧
    (Command_Parser_ProcessCommands HAL.ok (State.zero.withLine (str "STOP"))).tx.length = 2 :=
  ⟨(congrArg State.activePattern (C17_stop_idle HAL.ok State.zero rfl).1).trans rfl,
   (congrArg (fun st => st.tx.length) (C17_stop_idle HAL.ok State.zero rfl).1).trans rfl⟩

/-- C17 as stated fails at the idle all-off state: the single response line of STOP does not
begin with `[OK] `. -/
theorem C17_stop_idle_counterexample :
    ¬ ∃ r : List Nat,
      (Command_Parser_ProcessCommands HAL.ok (State.zero.withLine (str "STOP"))).tx =
        [r, str "STM32> "] ∧ r.take 5 = str "[OK] " := by
  rintro ⟨r, h, hr⟩
  have e : (Command_Parser_ProcessCommands HAL.ok (State.zero.withLine (str "STOP"))).tx =
      [str "[ERR] Aucun chenillard actif a arreter\r\n", str "STM32> "] := by decide
  rw [e] at h
  have hr2 : r = str "[ERR] Aucun chenillard actif a arreter\r\n" := by
    injection h with h1 _
    exact h1.symm
  rw [hr2] at hr
  exact absurd hr (by decide)

theorem freqOfChar_digit (f : Nat) (hf : 1 ≤ f ∧ f ≤ 3) :
    freqOfChar (48 + f) = some (f - 1, freqLabel f) := by
  obtain ⟨h1, h3⟩ := hf
  have hc : f = 1 ∨ f = 2 ∨ f = 3 := by omega
  rcases hc with rfl | rfl | rfl <;> rfl

theorem Pattern_SetFrequency_withLine (hal : HAL) (f : Nat) (s : State) (L : List Nat) :
    Pattern_SetFrequency hal f (s.withLine L) =
      ((Pattern_SetFrequency hal f s).1, (Pattern_SetFrequency hal f s).2.withLine L) := by
  by_cases hv : f < PATTERN_FREQ_500MS ∨ f > PATTERN_FREQ_3S
  · simp only [Pattern_SetFrequency, if_pos hv]
  · by_cases h : s.activePattern ≠ PATTERN_NONE
    · have h2 : (s.withLine L).activePattern ≠ PATTERN_NONE := h
      have hc : (s.withLine L).currentFrequency = s.currentFrequency := rfl
      simp only [Pattern_SetFrequency, if_neg hv, if_pos h, if_pos h2, hc, Timer_Stop_withLine]
      have := Timer_Start_withLine hal (f % 256)
        { (Timer_Stop hal (s.currentFrequency % 256) s).2 with currentFrequency := f } L
      simp only [State.withLine] at this ⊢
      rw [this]
    · have h2 : ¬ (s.withLine L).activePattern ≠ PATTERN_NONE := h
      simp only [Pattern_SetFrequency, if_neg hv, if_neg h, if_neg h2]
      rfl

theorem Pattern_SetFrequency_fst (hal : HAL) (f : Nat) (s : State) (hf : f ≤ 2) :
    (Pattern_SetFrequency hal f s).1 = true := by
  rw [Pattern_SetFrequency_of_valid hal f s hf]

theorem Pattern_SetFrequency_tx (hal : HAL) (f : Nat) (s : State) (hf : f ≤ 2) :
    (Pattern_SetFrequency hal f s).2.tx = s.tx := by
  rw [Pattern_SetFrequency_of_valid hal f s hf]

theorem Frequence_ok_line (f : Nat) (hf : 1 ≤ f ∧ f ≤ 3) (s : State) :
    Send_Success_Message (snprintf 40 (str "Frequence reglee a " ++ freqLabel f ++ str "\r\n")) s =
      UART_SendString (str "[OK] Frequence reglee a " ++ freqLabel f ++ str "\r\n") s := by
  obtain ⟨h1, h3⟩ := hf
  have hc : f = 1 ∨ f = 2 ∨ f = 3 := by omega
  unfold Send_Success_Message
  rcases hc with rfl | rfl | rfl
  · rw [if_pos (by decide)]; congr 1
  · rw [if_pos (by decide)]; congr 1
  · rw [if_pos (by decide)]; congr 1

theorem Select_FREQ (hal : HAL) (s : State) (f : Nat) (hf : 1 ≤ f ∧ f ≤ 3) :
    Command_Parser_Select hal (s.withLine [70, 82, 69, 81, 48 + f]) =
      (true, UART_SendString (str "[OK] Frequence reglee a " ++ freqLabel f ++ str "\r\n")
        ((Pattern_SetFrequency hal (f - 1) s).2.withLine [70, 82, 69, 81, 48 + f])) := by
  have h63 : ([70, 82, 69, 81, 48 + f] : List Nat).length ≤ 63 := by simp
  have hz : ∀ c ∈ ([70, 82, 69, 81, 48 + f] : List Nat), c ≠ 0 := by
    intro c hc; simp at hc; omega
  have hf2 : f - 1 ≤ 2 := by omega
  unfold Command_Parser_Select
  simp only [withLine_commandBuffer, strcmp_eq, strncmp_eq, cstr_padded _ h63 hz, cstr_LED,
    cstr_STATUS, cstr_STOP, strlen_LED, cstr_CHENILLARD, strlen_CHENILLARD, cstr_PAT, strlen_PAT,
    cstr_FREQ, strlen_FREQ]
  simp only [beq_iff_eq, List.take_succ_cons, List.take_zero, List.take_nil, List.cons.injEq,
    Nat.reduceEqDiff, false_and, and_false, if_false, and_self, or_true, if_true]
  unfold Parse_Shortcut_Command
  simp only [strcmp_eq, strncmp_eq, cstr_padded _ h63 hz, cstr_STOP, cstr_PAT, strlen_PAT,
    cstr_FREQ, strlen_FREQ, strlen_padded _ h63 hz, charAt_padded]
  simp only [beq_iff_eq, List.take_succ_cons, List.take_zero, List.take_nil, List.cons.injEq,
    Nat.reduceEqDiff, false_and, and_false, if_false, and_self, if_true, List.length_cons,
    List.length_nil, List.getD_cons_succ, List.getD_cons_zero, Nat.reduceAdd,
    freqOfChar_digit f hf, Pattern_SetFrequency_withLine, Pattern_SetFrequency_fst hal _ s hf2,
    Frequence_ok_line f hf]

theorem isdigit_space : isdigit 32 = false := by decide
theorem cstr_sp_FREQUENCE :
    cstr (str " " ++ CMD_FREQ_PREFIX) = [32, 70, 82, 69, 81, 85, 69, 78, 67, 69] := by decide
theorem strlen_sp_FREQUENCE : strlen (str " " ++ CMD_FREQ_PREFIX) = 10 := by decide
theorem cstr_CHENILLARD_FREQUENCE :
    cstr (CMD_CHENILLARD ++ str " " ++ CMD_FREQ_PREFIX) =
      [67, 72, 69, 78, 73, 76, 76, 65, 82, 68, 32, 70, 82, 69, 81, 85, 69, 78, 67, 69] := by
  decide
theorem strlen_CHENILLARD_FREQUENCE :
    strlen (CMD_CHENILLARD ++ str " " ++ CMD_FREQ_PREFIX) = 20 := by decide

theorem Select_CHENILLARD_FREQUENCE (hal : HAL) (s : State) (f : Nat) (hf : 1 ≤ f ∧ f ≤ 3) :
    Command_Parser_Select hal (s.withLine [67, 72, 69, 78, 73, 76, 76, 65, 82, 68, 32, 70, 82, 69, 81, 85, 69, 78, 67, 69, 48 + f]) =
      (true, UART_SendString (str "[OK] Frequence reglee a " ++ freqLabel f ++ str "\r\n")
        ((Pattern_SetFrequency hal (f - 1) s).2.withLine [67, 72, 69, 78, 73, 76, 76, 65, 82, 68, 32, 70, 82, 69, 81, 85, 69, 78, 67, 69, 48 + f])) := by
  have h63 : ([67, 72, 69, 78, 73, 76, 76, 65, 82, 68, 32, 70, 82, 69, 81, 85, 69, 78, 67, 69, 48 + f] : List Nat).length ≤ 63 := by simp
  have hz : ∀ c ∈ ([67, 72, 69, 78, 73, 76, 76, 65, 82, 68, 32, 70, 82, 69, 81, 85, 69, 78, 67, 69, 48 + f] : List Nat), c ≠ 0 := by
    intro c hc; simp at hc; omega
  have hf2 : f - 1 ≤ 2 := by omega
  unfold Command_Parser_Select
  simp only [withLine_commandBuffer, strcmp_eq, strncmp_eq, cstr_padded _ h63 hz, cstr_LED,
    cstr_STATUS, cstr_STOP, strlen_LED, cstr_CHENILLARD, strlen_CHENILLARD, cstr_PAT, strlen_PAT,
    strlen, cstr_drop_padded _ _ h63 hz, List.drop_drop, charAt_drop, charAt_padded, cstr_sp_ON,
    cstr_sp_FREQUENCE]
  simp only [beq_iff_eq, List.take_succ_cons, List.take_zero, List.take_nil, List.cons.injEq,
    Nat.reduceEqDiff, false_and, and_false, if_false, and_self, true_or, if_true,
    List.drop_succ_cons, List.drop_zero, List.length_cons, List.length_nil,
    List.getD_cons_succ, List.getD_cons_zero, Nat.reduceAdd, isdigit_space, ge_iff_le,
    Nat.reduceLeDiff, Nat.le_refl, true_and, Bool.false_eq_true]
  unfold Parse_Chenillard_Frequency_Command
  simp only [strncmp_eq, cstr_padded _ h63 hz, cstr_CHENILLARD_FREQUENCE,
    strlen_CHENILLARD_FREQUENCE, strlen_padded _ h63 hz, charAt_padded]
  simp only [beq_iff_eq, List.take_succ_cons, List.take_zero, List.take_nil, List.cons.injEq,
    Nat.reduceEqDiff, false_and, and_false, if_false, and_self, if_true, List.length_cons,
    List.length_nil, List.getD_cons_succ, List.getD_cons_zero, Nat.reduceAdd, ne_eq,
    not_true_eq_false, Bool.not_true, Bool.false_eq_true, or_self, beq_self_eq_true,
    freqOfChar_digit f hf, Pattern_SetFrequency_withLine, Pattern_SetFrequency_fst hal _ s hf2,
    Frequence_ok_line f hf]

/-- C15: for f in 1..3 and any prior state, dispatching `FREQ<f>` and dispatching
`CHENILLARD FREQUENCE<f>` give the same final state and output: the current frequency becomes
tier f (1 = 500 ms, 2 = 1 s, 3 = 3 s), selection, step, pending flag and outputs are unchanged
(only the timer-running flags follow the restart of the periodic source), and the transmitted
text is `[OK] Frequence reglee a <label>` (with CR LF) followed by the prompt. -/
theorem C15_frequency_command (hal : HAL) (s : State) (f : Nat) (hf : 1 ≤ f ∧ f ≤ 3) :
    Command_Parser_ProcessCommands hal (s.withLine (str "FREQ" ++ [48 + f])) =
      Command_Parser_ProcessCommands hal
        (s.withLine (str "CHENILLARD FREQUENCE" ++ [48 + f])) ∧
    Command_Parser_ProcessCommands hal (s.withLine (str "FREQ" ++ [48 + f])) =
      { s with
        currentFrequency :=
          if f = 1 then PATTERN_FREQ_500MS else if f = 2 then PATTERN_FREQ_1S
          else PATTERN_FREQ_3S
        timerActive := (Pattern_SetFrequency hal (f - 1) s).2.timerActive
        commandBuffer := List.replicate 64 0, bufferIndex := 0, commandComplete := false
        tx := s.tx ++ [str "[OK] Frequence reglee a " ++ freqLabel f ++ str "\r\n",
          str "STM32> "] } := by
  have hL1 : str "FREQ" ++ [48 + f] = [70, 82, 69, 81, 48 + f] := by
    have : str "FREQ" = [70, 82, 69, 81] := by decide
    rw [this]; rfl
  have hL2 : str "CHENILLARD FREQUENCE" ++ [48 + f] = [67, 72, 69, 78, 73, 76, 76, 65, 82, 68, 32, 70, 82, 69, 81, 85, 69, 78, 67, 69, 48 + f] := by
    have h1 : str "CHENILLARD FREQUENCE" =
        [67, 72, 69, 78, 73, 76, 76, 65, 82, 68, 32, 70, 82, 69, 81, 85, 69, 78, 67, 69] := by
      decide
    rw [h1]; rfl
  have hz1 : ∀ c ∈ ([70, 82, 69, 81, 48 + f] : List Nat), c ≠ 0 := by
    intro c hc; simp at hc; omega
  have hz2 : ∀ c ∈ ([67, 72, 69, 78, 73, 76, 76, 65, 82, 68, 32, 70, 82, 69, 81, 85, 69, 78, 67, 69, 48 + f] : List Nat), c ≠ 0 := by
    intro c hc; simp at hc; omega
  have hf2 : f - 1 ≤ 2 := by omega
  have hfr : f - 1 = (if f = 1 then PATTERN_FREQ_500MS else if f = 2 then PATTERN_FREQ_1S
      else PATTERN_FREQ_3S) := by
    obtain ⟨h1, h3⟩ := hf
    have hc : f = 1 ∨ f = 2 ∨ f = 3 := by omega
    rcases hc with rfl | rfl | rfl <;> rfl
  have e6 : cstr (str "STM32> ") = str "STM32> " := by decide
  have e7 : cstr (str "[OK] Frequence reglee a " ++ freqLabel f ++ str "\r\n") =
      str "[OK] Frequence reglee a " ++ freqLabel f ++ str "\r\n" := by
    obtain ⟨h1, h3⟩ := hf
    have hc : f = 1 ∨ f = 2 ∨ f = 3 := by omega
    rcases hc with rfl | rfl | rfl <;> decide
  have hset : (Pattern_SetFrequency hal (f - 1) s).2 =
      { s with
        currentFrequency :=
          if f = 1 then PATTERN_FREQ_500MS else if f = 2 then PATTERN_FREQ_1S
          else PATTERN_FREQ_3S
        timerActive := (Pattern_SetFrequency hal (f - 1) s).2.timerActive } := by
    conv_lhs => rw [Pattern_SetFrequency_of_valid hal (f - 1) s hf2]
    rw [← hfr]
  have r1 : Command_Parser_ProcessCommands hal (s.withLine [70, 82, 69, 81, 48 + f]) =
      { (Pattern_SetFrequency hal (f - 1) s).2 with
        commandBuffer := List.replicate 64 0, bufferIndex := 0, commandComplete := false
        tx := s.tx ++ [str "[OK] Frequence reglee a " ++ freqLabel f ++ str "\r\n",
          str "STM32> "] } := by
    rw [ProcessCommands_withLine hal s _ (by simp) hz1 (by simp), Select_FREQ hal s f hf]
    simp only [if_true, send2_withLine, e6, e7, Pattern_SetFrequency_tx hal _ s hf2]
  have r2 : Command_Parser_ProcessCommands hal (s.withLine [67, 72, 69, 78, 73, 76, 76, 65, 82, 68, 32, 70, 82, 69, 81, 85, 69, 78, 67, 69, 48 + f]) =
      { (Pattern_SetFrequency hal (f - 1) s).2 with
        commandBuffer := List.replicate 64 0, bufferIndex := 0, commandComplete := false
        tx := s.tx ++ [str "[OK] Frequence reglee a " ++ freqLabel f ++ str "\r\n",
          str "STM32> "] } := by
    rw [ProcessCommands_withLine hal s _ (by simp) hz2 (by simp),
      Select_CHENILLARD_FREQUENCE hal s f hf]
    simp only [if_true, send2_withLine, e6, e7, Pattern_SetFrequency_tx hal _ s hf2]
  rw [hL1, hL2]
  refine ⟨by rw [r1, r2], ?_⟩
  rw [r1]
  conv_lhs => rw [hset]

/-- C15 at f = 3 from the idle state. -/
theorem C15_frequency_command_witness :
    Command_Parser_ProcessCommands HAL.ok (State.zero.withLine (str "FREQ" ++ [48 + 3])) =
      Command_Parser_ProcessCommands HAL.ok
        (State.zero.withLine (str "CHENILLARD FREQUENCE" ++ [48 + 3])) ∧
    (Command_Parser_ProcessCommands HAL.ok
      (State.zero.withLine (str "FREQ" ++ [48 + 3]))).currentFrequency = PATTERN_FREQ_3S :=
  ⟨(C15_frequency_command HAL.ok State.zero 3 (by decide)).1,
   (congrArg State.currentFrequency (C15_frequency_command HAL.ok State.zero 3 (by decide)).2).trans
     rfl⟩

/-! ## Dispatcher: response lines and prompt -/

theorem Responds_error (b : Bool) (m : List Nat) (s s' : State) (htx : s'.tx = s.tx)
    (h : isErrLine (cstr (snprintf 100 (str "[ERR] " ++ cstr m ++ str "\r\n"))) = true) :
    Responds b s (Send_Error_Message m s') := by
  refine ⟨_, ?_, Or.inr h⟩
  simp only [Send_Error_Message, UART_SendString, htx]

theorem Responds_ok (line : List Nat) (s s' : State) (htx : s'.tx = s.tx)
    (h : isOkLine (cstr line) = true) :
    Responds true s (UART_SendString line s') := by
  refine ⟨_, ?_, Or.inl ⟨h, rfl⟩⟩
  simp only [UART_SendString, htx]

theorem LED_SetState_tx (n v : Nat) (s : State) : (LED_SetState n v s).2.tx = s.tx := by
  simp only [LED_SetState, HAL_GPIO_WritePin]
  split_ifs <;> rfl

theorem LED_ok_line_isOk (n : Nat) (t : List Nat) (hn : 1 ≤ n ∧ n ≤ 3)
    (ht : t = [79, 78] ∨ t = [79, 70, 70]) :
    isOkLine (cstr (str "[OK] LED " ++ [48 + n] ++ str " mise a " ++ t ++ str "\r\n")) = true := by
  obtain ⟨h1, h3⟩ := hn
  have hc : n = 1 ∨ n = 2 ∨ n = 3 := by omega
  rcases hc with rfl | rfl | rfl <;> rcases ht with rfl | rfl <;> decide

theorem Chenillard_ok_line_isOk (n : Nat) (hn : 1 ≤ n ∧ n ≤ 3) :
    isOkLine (cstr (str "[OK] Chenillard " ++ [48 + n] ++ str " active\r\n")) = true := by
  obtain ⟨h1, h3⟩ := hn
  have hc : n = 1 ∨ n = 2 ∨ n = 3 := by omega
  rcases hc with rfl | rfl | rfl <;> decide

theorem Frequence_ok_line_isOk (f : Nat) (hf : 1 ≤ f ∧ f ≤ 3) :
    isOkLine (cstr (str "[OK] Frequence reglee a " ++ freqLabel f ++ str "\r\n")) = true := by
  obtain ⟨h1, h3⟩ := hf
  have hc : f = 1 ∨ f = 2 ∨ f = 3 := by omega
  rcases hc with rfl | rfl | rfl <;> decide

theorem strcmp_eq_iff (a b : List Nat) : strcmp_eq a b = true ↔ cstr a = cstr b := by
  simp [strcmp_eq]

theorem Parse_LED_Command_responds (cmd : List Nat) (s : State) :
    Responds (Parse_LED_Command cmd s).1 s (Parse_LED_Command cmd s).2 := by
  unfold Parse_LED_Command
  simp only [strlen_LED, LED_COUNT]
  by_cases h1 : strlen cmd < 3 + 4
  · simp only [if_pos h1]
    exact Responds_error _ _ s s rfl (by decide)
  simp only [if_neg h1]
  by_cases h2 : charAt cmd 3 < 49 ∨ charAt cmd 3 > 48 + 3
  · simp only [if_pos h2]
    exact Responds_error _ _ s s rfl (by decide)
  simp only [if_neg h2]
  by_cases h3 : charAt cmd (3 + 1) ≠ 32
  · simp only [if_pos h3]
    exact Responds_error _ _ s s rfl (by decide)
  simp only [if_neg h3]
  by_cases h4 : strcmp_eq (cmd.drop (3 + 2)) CMD_ON = true ∨
      strcmp_eq (cmd.drop (3 + 2)) CMD_OFF = true
  · simp only [if_pos h4]
    have hn : 1 ≤ (charAt cmd 3 - 48) % 256 ∧ (charAt cmd 3 - 48) % 256 ≤ 3 := by omega
    have ht : cstr (cmd.drop (3 + 2)) = [79, 78] ∨ cstr (cmd.drop (3 + 2)) = [79, 70, 70] := by
      rcases h4 with h | h
      · left; rw [(strcmp_eq_iff _ _).mp h, cstr_ON]
      · right; rw [(strcmp_eq_iff _ _).mp h, cstr_OFF]
    generalize (if strcmp_eq (cmd.drop (3 + 2)) CMD_ON = true then LED_ON else LED_OFF) = v
    cases hb : (LED_SetState ((charAt cmd 3 - 48) % 256) v s).1
    · simp only [Bool.not_false, if_true]
      exact Responds_error _ _ s _ (LED_SetState_tx _ _ s) (by decide)
    · simp only [Bool.not_true, Bool.false_eq_true, if_false]
      rw [LED_ok_line _ _ hn ht]
      exact Responds_ok _ s _ (LED_SetState_tx _ _ s) (LED_ok_line_isOk _ _ hn ht)
  · simp only [if_neg h4]
    exact Responds_error _ _ s s rfl (by decide)

theorem Pattern_Start_fst_iff (hal : HAL) (p : Nat) (s : State)
    (h : (Pattern_Start hal p s).1 = true) : 1 ≤ p ∧ p ≤ 3 := by
  by_contra hc
  have hv : p ≤ PATTERN_NONE ∨ p > PATTERN_COUNT := by
    simp only [PATTERN_NONE, PATTERN_COUNT]; omega
  simp only [Pattern_Start, if_pos hv] at h
  exact absurd h (by decide)

theorem Start_responds (hal : HAL) (n : Nat) (s : State) :
    Responds
      (if (Pattern_Start hal n s).1 = true then
        (true, Send_Success_Message
          (snprintf 40 (str "Chenillard " ++ fmt_d n ++ str " active\r\n"))
          (Pattern_Start hal n s).2)
      else
        (false, Send_Error_Message (str "Impossible de demarrer chenillard")
          (Pattern_Start hal n s).2)).1 s
      (if (Pattern_Start hal n s).1 = true then
        (true, Send_Success_Message
          (snprintf 40 (str "Chenillard " ++ fmt_d n ++ str " active\r\n"))
          (Pattern_Start hal n s).2)
      else
        (false, Send_Error_Message (str "Impossible de demarrer chenillard")
          (Pattern_Start hal n s).2)).2 := by
  by_cases hb : (Pattern_Start hal n s).1 = true
  · have hn := Pattern_Start_fst_iff hal n s hb
    simp only [if_pos hb]
    rw [Chenillard_ok_line n hn]
    exact Responds_ok _ s _ (Pattern_Start_tx hal n s) (Chenillard_ok_line_isOk n hn)
  · simp only [if_neg hb]
    exact Responds_error _ _ s _ (Pattern_Start_tx hal n s) (by decide)

theorem Parse_Chenillard_ON_Command_responds (hal : HAL) (cmd : List Nat) (s : State) :
    Responds (Parse_Chenillard_ON_Command hal cmd s).1 s
      (Parse_Chenillard_ON_Command hal cmd s).2 := by
  unfold Parse_Chenillard_ON_Command
  simp only [strlen_CHENILLARD, PATTERN_COUNT]
  by_cases h2 : charAt cmd 10 < 49 ∨ charAt cmd 10 > 48 + 3
  · simp only [if_pos h2]
    exact Responds_error _ _ s s rfl (by decide)
  simp only [if_neg h2]
  by_cases h3 : (!strcmp_eq (cmd.drop (10 + 1)) (str " " ++ CMD_ON)) = true
  · simp only [if_pos h3]
    exact Responds_error _ _ s s rfl (by decide)
  simp only [if_neg h3]
  exact Start_responds hal _ s

theorem freqOfChar_some (c : Nat) (x : Nat × List Nat) (h : freqOfChar c = some x) :
    ∃ f, (1 ≤ f ∧ f ≤ 3) ∧ x = (f - 1, freqLabel f) := by
  unfold freqOfChar at h
  split at h
  · exact ⟨1, by decide, by injection h with h; exact h.symm⟩
  · exact ⟨2, by decide, by injection h with h; exact h.symm⟩
  · exact ⟨3, by decide, by injection h with h; exact h.symm⟩
  · exact absurd h (by simp)

theorem Freq_responds (hal : HAL) (c : Nat) (m : List Nat) (s : State)
    (hm : isErrLine (cstr (snprintf 100 (str "[ERR] " ++ cstr m ++ str "\r\n"))) = true) :
    Responds
      (match freqOfChar c with
      | none => (false, Send_Error_Message m s)
      | some (patternFreq, freqStr) =>
        if (Pattern_SetFrequency hal patternFreq s).1 = true then
          (true, Send_Success_Message
            (snprintf 40 (str "Frequence reglee a " ++ freqStr ++ str "\r\n"))
            (Pattern_SetFrequency hal patternFreq s).2)
        else
          (false, Send_Error_Message (str "Impossible de regler frequence")
            (Pattern_SetFrequency hal patternFreq s).2)).1 s
      (match freqOfChar c with
      | none => (false, Send_Error_Message m s)
      | some (patternFreq, freqStr) =>
        if (Pattern_SetFrequency hal patternFreq s).1 = true then
          (true, Send_Success_Message
            (snprintf 40 (str "Frequence reglee a " ++ freqStr ++ str "\r\n"))
            (Pattern_SetFrequency hal patternFreq s).2)
        else
          (false, Send_Error_Message (str "Impossible de regler frequence")
            (Pattern_SetFrequency hal patternFreq s).2)).2 := by
  cases hc : freqOfChar c with
  | none => exact Responds_error _ _ s s rfl hm
  | some x =>
    obtain ⟨f, hf, rfl⟩ := freqOfChar_some c x hc
    have hf2 : f - 1 ≤ 2 := by omega
    simp only [Pattern_SetFrequency_fst hal _ s hf2, if_true]
    rw [Frequence_ok_line f hf]
    exact Responds_ok _ s _ (Pattern_SetFrequency_tx hal _ s hf2) (Frequence_ok_line_isOk f hf)

theorem Parse_Chenillard_Frequency_Command_responds (hal : HAL) (cmd : List Nat) (s : State) :
    Responds (Parse_Chenillard_Frequency_Command hal cmd s).1 s
      (Parse_Chenillard_Frequency_Command hal cmd s).2 := by
  unfold Parse_Chenillard_Frequency_Command
  simp only []
  split_ifs with h1
  · exact Responds_error _ _ s s rfl (by decide)
  · exact Freq_responds hal _ _ s (by decide)

theorem Execute_STOP_Command_responds (hal : HAL) (s : State) :
    Responds (Execute_STOP_Command hal s).1 s (Execute_STOP_Command hal s).2 := by
  unfold Execute_STOP_Command
  simp only []
  by_cases hb : (Pattern_Stop hal s).1 = true
  · simp only [if_pos hb]
    have hmsg : ∀ st : State, Send_Success_Message (str "Chenillard arrete\r\n") st =
        UART_SendString (str "[OK] Chenillard arrete\r\n") st := by
      intro st
      unfold Send_Success_Message
      rw [if_pos (by decide)]
      congr 1
    rw [hmsg]
    exact Responds_ok _ s _ (Pattern_Stop_tx hal s) (by decide)
  · simp only [if_neg hb]
    exact Responds_error _ _ s _ (Pattern_Stop_tx hal s) (by decide)

theorem Parse_Shortcut_Command_responds (hal : HAL) (cmd : List Nat) (s : State) :
    Responds (Parse_Shortcut_Command hal cmd s).1 s (Parse_Shortcut_Command hal cmd s).2 := by
  unfold Parse_Shortcut_Command
  simp only [strlen_PAT, strlen_FREQ, PATTERN_COUNT]
  by_cases h1 : strcmp_eq cmd CMD_STOP = true
  · simp only [if_pos h1]
    exact Execute_STOP_Command_responds hal s
  simp only [if_neg h1]
  by_cases h2 : strncmp_eq cmd CMD_PAT 3 = true ∧ strlen cmd = 3 + 1
  · simp only [if_pos h2]
    by_cases h3 : charAt cmd 3 ≥ 49 ∧ charAt cmd 3 ≤ 48 + 3
    · simp only [if_pos h3]
      exact Start_responds hal _ s
    · simp only [if_neg h3]
      exact Responds_error _ _ s s rfl (by decide)
  simp only [if_neg h2]
  by_cases h4 : strncmp_eq cmd CMD_FREQ 4 = true ∧ strlen cmd = 4 + 1
  · simp only [if_pos h4]
    exact Freq_responds hal _ _ s (by decide)
  · simp only [if_neg h4]
    exact Responds_error _ _ s s rfl (by decide)

theorem Select_responds (hal : HAL) (s : State)
    (hns : strcmp_eq s.commandBuffer CMD_STATUS = false) :
    Responds (Command_Parser_Select hal s).1 s (Command_Parser_Select hal s).2 ∨
      Command_Parser_Select hal s = (false, s) := by
  unfold Command_Parser_Select
  simp only [hns, Bool.false_eq_true, if_false]
  by_cases h1 : strcmp_eq s.commandBuffer CMD_STOP = true
  · simp only [if_pos h1]
    exact Or.inl (Execute_STOP_Command_responds hal s)
  simp only [if_neg h1]
  by_cases h2 : strncmp_eq s.commandBuffer CMD_LED (strlen CMD_LED) = true
  · simp only [if_pos h2]
    exact Or.inl (Parse_LED_Command_responds _ s)
  simp only [if_neg h2]
  by_cases h3 : strncmp_eq s.commandBuffer CMD_CHENILLARD (strlen CMD_CHENILLARD) = true
  · simp only [if_pos h3]
    split_ifs
    · exact Or.inl (Parse_Chenillard_ON_Command_responds hal _ s)
    · exact Or.inl (Parse_Chenillard_Frequency_Command_responds hal _ s)
    · exact Or.inr rfl
  simp only [if_neg h3]
  split_ifs
  · exact Or.inl (Parse_Shortcut_Command_responds hal _ s)
  · exact Or.inr rfl

theorem ProcessCommands_tx (hal : HAL) (s : State) (L : List Nat)
    (h63 : L.length ≤ 63) (hz : ∀ c ∈ L, c ≠ 0) (hne : L ≠ []) :
    (Command_Parser_ProcessCommands hal (s.withLine L)).tx =
      (if (Command_Parser_Select hal (s.withLine L)).1 = true then
        (Command_Parser_Select hal (s.withLine L)).2.tx
      else (Command_Parser_Select hal (s.withLine L)).2.tx ++
        [str "[ERR] Commande inconnue ou format invalide\r\n"]) ++ [str "STM32> "] := by
  have e5 : cstr (snprintf 100 (str "[ERR] " ++ cstr (str "Commande inconnue ou format invalide") ++
      str "\r\n")) = str "[ERR] Commande inconnue ou format invalide\r\n" := by
    decide
  have e6 : cstr (str "STM32> ") = str "STM32> " := by decide
  rw [ProcessCommands_withLine hal s L h63 hz hne]
  by_cases hb : (Command_Parser_Select hal (s.withLine L)).1 = true
  · simp only [if_pos hb, UART_SendString, Command_Parser_Init, e6]
  · simp only [if_neg hb, UART_SendString, Command_Parser_Init, Send_Error_Message, e5, e6]

/-- C18 (amended): for every non-empty ready line other than STATUS the dispatcher transmits
one or two response lines and then the prompt. When the command is handled (the selection
returns true) there is exactly one line, an `[OK]` or `[ERR]` line; when it is rejected there
is either the parser's own `[ERR]` line followed by the generic
`[ERR] Commande inconnue ou format invalide` line, or the generic line alone. Every response
line begins with `[OK] ` or `[ERR] ` and ends with CR LF, and a rejected command never produces
an `[OK]` line. -/
theorem C18_response_lines (hal : HAL) (s : State) (L : List Nat)
    (h63 : L.length ≤ 63) (hz : ∀ c ∈ L, c ≠ 0) (hne : L ≠ []) (hns : L ≠ str "STATUS") :
    isErrLine (str "[ERR] Commande inconnue ou format invalide\r\n") = true ∧
    (((Command_Parser_Select hal (s.withLine L)).1 = true ∧
      ∃ r : List Nat, (isOkLine r = true ∨ isErrLine r = true) ∧
        (Command_Parser_ProcessCommands hal (s.withLine L)).tx =
          s.tx ++ [r, str "STM32> "]) ∨
    ((Command_Parser_Select hal (s.withLine L)).1 = false ∧
      ((∃ r : List Nat, isErrLine r = true ∧
        (Command_Parser_ProcessCommands hal (s.withLine L)).tx =
          s.tx ++ [r, str "[ERR] Commande inconnue ou format invalide\r\n", str "STM32> "]) ∨
       (Command_Parser_ProcessCommands hal (s.withLine L)).tx =
          s.tx ++ [str "[ERR] Commande inconnue ou format invalide\r\n", str "STM32> "]))) := by
  refine ⟨by decide, ?_⟩
  have hst : strcmp_eq (s.withLine L).commandBuffer CMD_STATUS = false := by
    have hS : str "STATUS" = [83, 84, 65, 84, 85, 83] := by decide
    rw [hS] at hns
    simp only [withLine_commandBuffer, strcmp_eq, cstr_padded L h63 hz, cstr_STATUS]
    simpa using hns
  have htx0 : (s.withLine L).tx = s.tx := rfl
  rw [ProcessCommands_tx hal s L h63 hz hne]
  rcases Select_responds hal (s.withLine L) hst with ⟨r, hr, hk⟩ | hsil
  · cases hb : (Command_Parser_Select hal (s.withLine L)).1
    · right
      refine ⟨rfl, Or.inl ⟨r, ?_, ?_⟩⟩
      · rcases hk with ⟨_, hk2⟩ | hk
        · rw [hb] at hk2; exact absurd hk2 (by decide)
        · exact hk
      · simp [hr, htx0]
    · left
      refine ⟨rfl, r, ?_, ?_⟩
      · rcases hk with ⟨hk1, _⟩ | hk
        · exact Or.inl hk1
        · exact Or.inr hk
      · simp [hr, htx0]
  · right
    rw [hsil]
    refine ⟨rfl, Or.inr ?_⟩
    simp [htx0]

/-- C18 (amended) at the line `PAT9` from the idle state. -/
theorem C18_response_lines_witness :
    ((Command_Parser_Select HAL.ok (State.zero.withLine (str "PAT9"))).1 = true ∧
      ∃ r : List Nat, (isOkLine r = true ∨ isErrLine r = true) ∧
        (Command_Parser_ProcessCommands HAL.ok (State.zero.withLine (str "PAT9"))).tx =
          State.zero.tx ++ [r, str "STM32> "]) ∨
    ((Command_Parser_Select HAL.ok (State.zero.withLine (str "PAT9"))).1 = false ∧
      ((∃ r : List Nat, isErrLine r = true ∧
        (Command_Parser_ProcessCommands HAL.ok (State.zero.withLine (str "PAT9"))).tx =
          State.zero.tx ++
            [r, str "[ERR] Commande inconnue ou format invalide\r\n", str "STM32> "]) ∨
       (Command_Parser_ProcessCommands HAL.ok (State.zero.withLine (str "PAT9"))).tx =
          State.zero.tx ++
            [str "[ERR] Commande inconnue ou format invalide\r\n", str "STM32> "])) :=
  (C18_response_lines HAL.ok State.zero (str "PAT9") (by decide) (by decide) (by decide)
    (by decide)).2

/-- C18 as stated fails at the line `PAT9`: the dispatcher does not transmit exactly one
response line followed by the prompt (it transmits two `[ERR]` lines). -/
theorem C18_response_lines_counterexample :
    ¬ ∃ r : List Nat,
      (Command_Parser_ProcessCommands HAL.ok (State.zero.withLine (str "PAT9"))).tx =
        [r, str "STM32> "] := by
  rintro ⟨r, h⟩
  have e : (Command_Parser_ProcessCommands HAL.ok (State.zero.withLine (str "PAT9"))).tx =
      [str "[ERR] Numero PAT invalide (1-3)\r\n",
        str "[ERR] Commande inconnue ou format invalide\r\n", str "STM32> "] := by decide
  rw [e] at h
  have := congrArg List.length h
  simp at this

theorem SendsNoPrompt_of_tx_eq (s s' : State) (h : s'.tx = s.tx) : SendsNoPrompt s s' :=
  ⟨[], by simp [h], by simp⟩

theorem cstr_cons (c : Nat) (rest : List Nat) (hc : c ≠ 0) :
    cstr (c :: rest) = c :: cstr rest := by
  simp [cstr, List.takeWhile_cons, hc]

theorem ne_prompt_of_head (c : Nat) (tl : List Nat) (hc : c ≠ 83) : c :: tl ≠ str "STM32> " := by
  intro h
  have h2 : str "STM32> " = 83 :: str "TM32> " := by decide
  rw [h2] at h
  injection h with h1 _
  exact hc h1

theorem SendsNoPrompt_send (c : Nat) (rest : List Nat) (s s' : State)
    (h : SendsNoPrompt s s') (hc : c ≠ 0 ∧ c ≠ 83) :
    SendsNoPrompt s (UART_SendString (c :: rest) s') := by
  obtain ⟨resp, h1, h2⟩ := h
  refine ⟨resp ++ [cstr (c :: rest)], ?_, ?_⟩
  · simp [UART_SendString, h1]
  · rw [cstr_cons c rest hc.1]
    intro hm
    rcases List.mem_append.mp hm with hm | hm
    · exact h2 hm
    · simp only [List.mem_singleton] at hm
      exact ne_prompt_of_head c _ hc.2 hm.symm

theorem SendsNoPrompt_snprintf (n c : Nat) (rest : List Nat) (s s' : State)
    (h : SendsNoPrompt s s') (hc : c ≠ 0 ∧ c ≠ 83) (hn : 2 ≤ n) :
    SendsNoPrompt s (UART_SendString (snprintf n (c :: rest)) s') := by
  have e : snprintf n (c :: rest) = c :: rest.take (n - 2) := by
    obtain ⟨k, rfl⟩ : ∃ k, n = k + 2 := ⟨n - 2, by omega⟩
    simp [snprintf]
  rw [e]
  exact SendsNoPrompt_send c _ s s' h hc

theorem STATUS_led_step (s0 st : State) (i : Nat) (h : SendsNoPrompt s0 st) :
    SendsNoPrompt s0
      (UART_SendString
        (snprintf 80 (str "LED " ++ fmt_d i ++ str ": " ++
          (if LED_GetState i st = LED_ON then CMD_ON else CMD_OFF) ++ str "\r\n")) st) := by
  have e : str "LED " ++ fmt_d i ++ str ": " ++
      (if LED_GetState i st = LED_ON then CMD_ON else CMD_OFF) ++ str "\r\n" =
      76 :: (str "ED " ++ fmt_d i ++ str ": " ++
        (if LED_GetState i st = LED_ON then CMD_ON else CMD_OFF) ++ str "\r\n") := by
    have : str "LED " = 76 :: str "ED " := by decide
    rw [this]; rfl
  rw [e]
  exact SendsNoPrompt_snprintf 80 76 _ s0 st h (by decide) (by decide)

theorem STATUS_led_fold (s0 : State) (l : List Nat) :
    ∀ st : State, SendsNoPrompt s0 st →
      SendsNoPrompt s0 (l.foldl
        (fun st i =>
          UART_SendString
            (snprintf 80 (str "LED " ++ fmt_d i ++ str ": " ++
              (if LED_GetState i st = LED_ON then CMD_ON else CMD_OFF) ++ str "\r\n")) st) st) := by
  induction l with
  | nil => intro st h; exact h
  | cons i l ih =>
    intro st h
    rw [List.foldl_cons]
    exact ih _ (STATUS_led_step s0 st i h)

theorem STATUS_pattern_step (s0 st : State) (h : SendsNoPrompt s0 st) :
    SendsNoPrompt s0
      (UART_SendString
        (if Pattern_GetActive st = PATTERN_NONE then
          snprintf 80 (str "Chenillard: INACTIF (Freq select: " ++
            (if Pattern_GetFrequency st = PATTERN_FREQ_500MS then str "500MS"
              else if Pattern_GetFrequency st = PATTERN_FREQ_1S then str "1S" else str "3S") ++
            str ")\r\n")
        else
          snprintf 80 (str "Chenillard: ACTIF (Pattern: " ++ fmt_d (Pattern_GetActive st) ++
            str ", Freq: " ++
            (if Pattern_GetFrequency st = PATTERN_FREQ_500MS then str "500MS"
              else if Pattern_GetFrequency st = PATTERN_FREQ_1S then str "1S" else str "3S") ++
            str ")\r\n")) st) := by
  have e1 : str "Chenillard: INACTIF (Freq select: " =
      67 :: str "henillard: INACTIF (Freq select: " := by decide
  have e2 : str "Chenillard: ACTIF (Pattern: " = 67 :: str "henillard: ACTIF (Pattern: " := by
    decide
  rw [e1, e2]
  split_ifs <;> exact SendsNoPrompt_snprintf 80 67 _ s0 st h (by decide) (by decide)

theorem STATUS_tail (s0 st : State) (h : SendsNoPrompt s0 st) :
    SendsNoPrompt s0
      (if (UART_HasOverflow st).1 = true then
        (true, UART_SendString (str "Attention: Debordement buffer UART detecte!\r\n")
          (UART_HasOverflow st).2)
      else (true, (UART_HasOverflow st).2)).2 := by
  have h2 : SendsNoPrompt s0 (UART_HasOverflow st).2 := by
    obtain ⟨resp, h1, h2⟩ := h
    exact ⟨resp, h1, h2⟩
  have e : str "Attention: Debordement buffer UART detecte!\r\n" =
      65 :: str "ttention: Debordement buffer UART detecte!\r\n" := by decide
  split_ifs
  · rw [e]
    exact SendsNoPrompt_send 65 _ s0 _ h2 (by decide)
  · exact h2

theorem Execute_STATUS_Command_noPrompt (s : State) :
    SendsNoPrompt s (Execute_STATUS_Command s).2 := by
  have e : str "--- Statut ---\r\n" = 45 :: str "-- Statut ---\r\n" := by decide
  have h1 : SendsNoPrompt s (UART_SendString (str "--- Statut ---\r\n") s) := by
    rw [e]
    exact SendsNoPrompt_send 45 _ s s (SendsNoPrompt_of_tx_eq s s rfl) (by decide)
  exact STATUS_tail s _ (STATUS_pattern_step s _ (STATUS_led_fold s _ _ h1))

theorem Execute_STATUS_Command_fst (s : State) : (Execute_STATUS_Command s).1 = true := by
  unfold Execute_STATUS_Command
  simp only []
  split_ifs <;> rfl

theorem SendsNoPrompt_of_responds (b : Bool) (s s' : State) (h : Responds b s s') :
    SendsNoPrompt s s' := by
  obtain ⟨r, h1, h2⟩ := h
  refine ⟨[r], h1, ?_⟩
  simp only [List.mem_singleton]
  intro hp
  rw [← hp] at h2
  have g1 : isOkLine (str "STM32> ") = false := by decide
  have g2 : isErrLine (str "STM32> ") = false := by decide
  rcases h2 with ⟨h2, _⟩ | h2
  · rw [g1] at h2; exact absurd h2 (by decide)
  · rw [g2] at h2; exact absurd h2 (by decide)

theorem Select_noPrompt (hal : HAL) (s : State) :
    SendsNoPrompt s (Command_Parser_Select hal s).2 := by
  cases hst : strcmp_eq s.commandBuffer CMD_STATUS
  · rcases Select_responds hal s hst with h | h
    · exact SendsNoPrompt_of_responds _ s _ h
    · rw [h]
      exact SendsNoPrompt_of_tx_eq s s rfl
  · unfold Command_Parser_Select
    simp only [hst, if_true]
    exact Execute_STATUS_Command_noPrompt s

theorem ProcessCommands_empty (hal : HAL) (s : State) :
    Command_Parser_ProcessCommands hal (s.withLine []) = Command_Parser_Init s := by
  have h0 : strlen (padded []) = 0 := by decide
  unfold Command_Parser_ProcessCommands
  simp only [withLine_commandComplete, withLine_commandBuffer, h0, Bool.not_true,
    Bool.false_eq_true, if_false, beq_self_eq_true]
  rfl

/-- C19: an empty ready line makes the dispatcher transmit nothing (no error, no prompt);
every non-empty ready line makes the transmitted entries end with the prompt `STM32> `, and no
earlier entry of that dispatch is the prompt. -/
theorem C19_prompt (hal : HAL) (s : State) (L : List Nat)
    (h63 : L.length ≤ 63) (hz : ∀ c ∈ L, c ≠ 0) :
    (L = [] → (Command_Parser_ProcessCommands hal (s.withLine L)).tx = s.tx) ∧
    (L ≠ [] → ∃ resp : List (List Nat),
      (Command_Parser_ProcessCommands hal (s.withLine L)).tx = s.tx ++ resp ++ [str "STM32> "] ∧
      str "STM32> " ∉ resp) := by
  constructor
  · intro h
    rw [h, ProcessCommands_empty]
    rfl
  · intro hne
    obtain ⟨resp, h1, h2⟩ := Select_noPrompt hal (s.withLine L)
    have htx0 : (s.withLine L).tx = s.tx := rfl
    rw [ProcessCommands_tx hal s L h63 hz hne, h1, htx0]
    by_cases hb : (Command_Parser_Select hal (s.withLine L)).1 = true
    · exact ⟨resp, by simp only [if_pos hb], h2⟩
    · refine ⟨resp ++ [str "[ERR] Commande inconnue ou format invalide\r\n"], ?_, ?_⟩
      · simp only [if_neg hb, List.append_assoc]
      · intro hm
        rcases List.mem_append.mp hm with hm | hm
        · exact h2 hm
        · simp only [List.mem_singleton] at hm
          exact absurd hm (by decide)

/-- C19 at the empty line and at the line `STATUS`. -/
theorem C19_prompt_witness :
    (Command_Parser_ProcessCommands HAL.ok (State.zero.withLine [])).tx = State.zero.tx ∧
    ∃ resp : List (List Nat),
      (Command_Parser_ProcessCommands HAL.ok (State.zero.withLine (str "STATUS"))).tx =
        State.zero.tx ++ resp ++ [str "STM32> "] ∧ str "STM32> " ∉ resp :=
  ⟨(C19_prompt HAL.ok State.zero [] (by decide) (by decide)).1 rfl,
   (C19_prompt HAL.ok State.zero (str "STATUS") (by decide) (by decide)).2 (by decide)⟩

/-! ## Dispatcher: unrecognised lines -/

theorem drop_eq_getD_cons (L : List Nat) (n : Nat) (h : n < L.length) :
    L.drop n = L.getD n 0 :: L.drop (n + 1) := by
  rw [List.drop_eq_getElem_cons h]
  simp [List.getD_eq_getElem?_getD, List.getElem?_eq_getElem h]

theorem Select_unknown (hal : HAL) (s : State) (L : List Nat)
    (h63 : L.length ≤ 63) (hz : ∀ c ∈ L, c ≠ 0)
    (h1 : L ≠ str "STATUS") (h2 : L ≠ str "STOP")
    (h3 : L.take 3 ≠ str "LED") (h4 : L.take 3 ≠ str "PAT") (h5 : L.take 4 ≠ str "FREQ")
    (h6 : L.take 10 = str "CHENILLARD" →
      (∀ d, 48 ≤ d ∧ d ≤ 57 → L.drop 10 ≠ [d] ++ str " ON") ∧
      (L.drop 10).take 10 ≠ str " FREQUENCE") :
    Command_Parser_Select hal (s.withLine L) = (false, s.withLine L) := by
  have e1 : str "STATUS" = [83, 84, 65, 84, 85, 83] := by decide
  have e2 : str "STOP" = [83, 84, 79, 80] := by decide
  have e3 : str "LED" = [76, 69, 68] := by decide
  have e4 : str "PAT" = [80, 65, 84] := by decide
  have e5 : str "FREQ" = [70, 82, 69, 81] := by decide
  have e6 : str "CHENILLARD" = [67, 72, 69, 78, 73, 76, 76, 65, 82, 68] := by decide
  have e7 : str " FREQUENCE" = [32, 70, 82, 69, 81, 85, 69, 78, 67, 69] := by decide
  have e8 : str " ON" = [32, 79, 78] := by decide
  rw [e1] at h1; rw [e2] at h2; rw [e3] at h3; rw [e4] at h4; rw [e5] at h5
  rw [e6, e7, e8] at h6
  unfold Command_Parser_Select
  simp only [withLine_commandBuffer, strcmp_eq, strncmp_eq, cstr_padded _ h63 hz, cstr_LED,
    cstr_STATUS, cstr_STOP, strlen_LED, cstr_CHENILLARD, strlen_CHENILLARD, cstr_PAT, strlen_PAT,
    cstr_FREQ, strlen_FREQ, strlen, cstr_drop_padded _ _ h63 hz, List.drop_drop, charAt_drop,
    charAt_padded, cstr_sp_ON, cstr_sp_FREQUENCE, strlen_sp_FREQUENCE, beq_iff_eq,
    List.take_succ_cons, List.take_zero, List.take_nil, List.length_cons, List.length_nil,
    Nat.reduceAdd, h1, h2, h3, h4, h5, if_false, or_self]
  by_cases hc : L.take 10 = [67, 72, 69, 78, 73, 76, 76, 65, 82, 68]
  · obtain ⟨g1, g2⟩ := h6 hc
    have k1 : ¬ (4 ≤ (L.drop 10).length ∧ isdigit (L.getD 10 0) = true ∧
        L.drop 11 = [32, 79, 78]) := by
      rintro ⟨a1, a2, a3⟩
      have hl : 10 < L.length := by
        simp only [List.length_drop] at a1; omega
      have hd : 48 ≤ L.getD 10 0 ∧ L.getD 10 0 ≤ 57 := by
        simpa [isdigit] using a2
      apply g1 (L.getD 10 0) hd
      rw [drop_eq_getD_cons L 10 hl, a3]
      rfl
    simp only [hc, if_true, k1, if_false, g2]
  · simp only [hc, if_false]

/-- C20: for every non-empty ready line that is not STATUS or STOP, does not start with LED,
PAT or FREQ and, when it starts with CHENILLARD, has a suffix that is neither a digit followed by
` ON` nor a string beginning with ` FREQUENCE`, the dispatcher transmits exactly the generic
error `[ERR] Commande inconnue ou format invalide` and the prompt, and changes nothing else
but the cleared line assembler. -/
theorem C20_unknown_command (hal : HAL) (s : State) (L : List Nat)
    (h63 : L.length ≤ 63) (hz : ∀ c ∈ L, c ≠ 0) (hne : L ≠ [])
    (h1 : L ≠ str "STATUS") (h2 : L ≠ str "STOP")
    (h3 : L.take 3 ≠ str "LED") (h4 : L.take 3 ≠ str "PAT") (h5 : L.take 4 ≠ str "FREQ")
    (h6 : L.take 10 = str "CHENILLARD" →
      (∀ d, 48 ≤ d ∧ d ≤ 57 → L.drop 10 ≠ [d] ++ str " ON") ∧
      (L.drop 10).take 10 ≠ str " FREQUENCE") :
    Command_Parser_ProcessCommands hal (s.withLine L) =
      { s with
        commandBuffer := List.replicate 64 0, bufferIndex := 0, commandComplete := false
        tx := s.tx ++ [str "[ERR] Commande inconnue ou format invalide\r\n", str "STM32> "] } := by
  have e5 : cstr (snprintf 100 (str "[ERR] " ++ cstr (str "Commande inconnue ou format invalide") ++
      str "\r\n")) = str "[ERR] Commande inconnue ou format invalide\r\n" := by
    decide
  have e6 : cstr (str "STM32> ") = str "STM32> " := by decide
  rw [ProcessCommands_withLine hal s L h63 hz hne,
    Select_unknown hal s L h63 hz h1 h2 h3 h4 h5 h6]
  simp only [Bool.false_eq_true, if_false, Send_Error_Message, send2_withLine, e5, e6]

/-- C20 at the lines `HELP` and `CHENILLARD OFF`. -/
theorem C20_unknown_command_witness :
    (Command_Parser_ProcessCommands HAL.ok (State.zero.withLine (str "HELP"))).tx =
      [str "[ERR] Commande inconnue ou format invalide\r\n", str "STM32> "] ∧
    (Command_Parser_ProcessCommands HAL.ok (State.zero.withLine (str "CHENILLARD OFF"))).tx =
      [str "[ERR] Commande inconnue ou format invalide\r\n", str "STM32> "] :=
  ⟨(congrArg State.tx
      (C20_unknown_command HAL.ok State.zero (str "HELP") (by decide) (by decide) (by decide)
        (by decide) (by decide) (by decide) (by decide) (by decide)
        (fun h => absurd h (by decide)))).trans rfl,
   (congrArg State.tx
      (C20_unknown_command HAL.ok State.zero (str "CHENILLARD OFF") (by decide) (by decide)
        (by decide) (by decide) (by decide) (by decide) (by decide) (by decide)
        (fun _ => ⟨fun d _ h => by simp [str] at h, by decide⟩))).trans rfl⟩

/-! ## Output bank: toggle -/

theorem LED_Toggle_valid (i : Nat) (s : State) (hi : 1 ≤ i ∧ i ≤ 3) :
    LED_Toggle i s =
      (true, { s with
        pb0 := if i = 1 then !s.pb0 else s.pb0
        pb7 := if i = 2 then !s.pb7 else s.pb7
        pb14 := if i = 3 then !s.pb14 else s.pb14 }) := by
  obtain ⟨h1, h3⟩ := hi
  have hc : i = 1 ∨ i = 2 ∨ i = 3 := by omega
  rcases hc with rfl | rfl | rfl <;> rfl

/-- C30: for every valid id in 1..3, `LED_Toggle` returns true, flips output id and leaves the
other outputs (and the pattern selection) unchanged, whether or not a pattern is active; it
returns false exactly for an invalid id. -/
theorem C30_toggle (i : Nat) (s : State) :
    ((1 ≤ i ∧ i ≤ 3) →
      (LED_Toggle i s).1 = true ∧
      LED_GetState i (LED_Toggle i s).2 =
        (if LED_GetState i s = LED_ON then LED_OFF else LED_ON) ∧
      (∀ j, 1 ≤ j ∧ j ≤ 3 → j ≠ i →
        LED_GetState j (LED_Toggle i s).2 = LED_GetState j s) ∧
      (LED_Toggle i s).2.activePattern = s.activePattern) ∧
    ((LED_Toggle i s).1 = false ↔ ¬ (1 ≤ i ∧ i ≤ 3)) := by
  constructor
  · intro hi
    rw [LED_Toggle_valid i s hi]
    obtain ⟨h1, h3⟩ := hi
    have hc : i = 1 ∨ i = 2 ∨ i = 3 := by omega
    refine ⟨rfl, ?_, ?_, rfl⟩
    · rcases hc with rfl | rfl | rfl
      · rw [LED_GetState_one, LED_GetState_one]; cases s.pb0 <;> simp [LED_ON, LED_OFF]
      · rw [LED_GetState_two, LED_GetState_two]; cases s.pb7 <;> simp [LED_ON, LED_OFF]
      · rw [LED_GetState_three, LED_GetState_three]; cases s.pb14 <;> simp [LED_ON, LED_OFF]
    · intro j ⟨hj1, hj3⟩ hji
      have hd : j = 1 ∨ j = 2 ∨ j = 3 := by omega
      rcases hc with rfl | rfl | rfl <;> rcases hd with rfl | rfl | rfl <;>
        first
        | exact absurd rfl hji
        | simp [LED_GetState_one, LED_GetState_two, LED_GetState_three]
  · by_cases hi : 1 ≤ i ∧ i ≤ 3
    · rw [LED_Toggle_valid i s hi]
      simp [hi]
    · have hv : LED_IsValidNumber i = false := by
        simp only [LED_IsValidNumber, LED_COUNT, decide_eq_false_iff_not]
        omega
      simp [LED_Toggle, hv, hi]

/-- C30 at output 2 while pattern 2 runs (output 1 on, output 2 off before). -/
theorem C30_toggle_witness :
    (LED_Toggle 2 (State.running 2)).1 = true ∧
    LED_GetState 2 (LED_Toggle 2 (State.running 2)).2 = LED_ON ∧
    LED_GetState 1 (LED_Toggle 2 (State.running 2)).2 = LED_ON :=
  ⟨((C30_toggle 2 (State.running 2)).1 (by decide)).1,
   ((C30_toggle 2 (State.running 2)).1 (by decide)).2.1.trans (by decide),
   (((C30_toggle 2 (State.running 2)).1 (by decide)).2.2.1 1 (by decide) (by decide)).trans
     (by decide)⟩

/-! ## Line assembler: case, consumption, terminators -/

theorem toupper_toupper_mod (c : Nat) : toupper (toupper c % 256) = toupper (c % 256) := by
  unfold toupper
  split_ifs <;> omega

theorem ProcessChar_toupper (c : Nat) (s : State) :
    Command_Parser_ProcessChar (toupper c) s = Command_Parser_ProcessChar c s := by
  unfold Command_Parser_ProcessChar
  rw [toupper_toupper_mod]

theorem feed_cons (c : Nat) (cs : List Nat) (s : State) :
    feed (c :: cs) s = feed cs (Command_Parser_ProcessChar c s) := by
  simp [feed]

theorem feed_map_toupper (cs : List Nat) : ∀ s : State, feed (cs.map toupper) s = feed cs s := by
  induction cs with
  | nil => intro s; rfl
  | cons c cs ih =>
    intro s
    rw [List.map_cons, feed_cons, feed_cons, ProcessChar_toupper, ih]

/-- C27: `Command_Parser_ProcessChar c` and `Command_Parser_ProcessChar (toupper c)` give the
same state for every state and character, hence two input streams with the same upper-casing
give the same assembler state and the same dispatcher result. -/
theorem C27_case_insensitive (hal : HAL) (s : State) :
    (∀ c : Nat, Command_Parser_ProcessChar c s = Command_Parser_ProcessChar (toupper c) s) ∧
    (∀ cs1 cs2 : List Nat, cs1.map toupper = cs2.map toupper →
      feed cs1 s = feed cs2 s ∧
      Command_Parser_ProcessCommands hal (feed cs1 s) =
        Command_Parser_ProcessCommands hal (feed cs2 s)) := by
  constructor
  · intro c
    exact (ProcessChar_toupper c s).symm
  · intro cs1 cs2 h
    have e : feed cs1 s = feed cs2 s := by
      rw [← feed_map_toupper cs1 s, ← feed_map_toupper cs2 s, h]
    exact ⟨e, by rw [e]⟩

/-- C27 at the streams `led1 On` and `LED1 oN`, each followed by CR. -/
theorem C27_case_insensitive_witness :
    feed (str "led1 On\r") State.zero = feed (str "LED1 oN\r") State.zero ∧
    Command_Parser_ProcessCommands HAL.ok (feed (str "led1 On\r") State.zero) =
      Command_Parser_ProcessCommands HAL.ok (feed (str "LED1 oN\r") State.zero) :=
  (C27_case_insensitive HAL.ok State.zero).2 (str "led1 On\r") (str "LED1 oN\r") (by decide)

/-- C23: when a line is ready, `Command_Parser_ProcessCommands` leaves the assembler cleared
(all 64 buffer bytes zero, cursor 0, no line ready) whatever the line was; when no line is
ready it returns the state unchanged (so it transmits nothing). -/
theorem C23_line_consumed (hal : HAL) (s : State) :
    (s.commandComplete = true →
      (Command_Parser_ProcessCommands hal s).commandBuffer =
        List.replicate COMMAND_BUFFER_SIZE 0 ∧
      (Command_Parser_ProcessCommands hal s).bufferIndex = 0 ∧
      (Command_Parser_ProcessCommands hal s).commandComplete = false) ∧
    (s.commandComplete = false → Command_Parser_ProcessCommands hal s = s) := by
  constructor
  · intro h
    unfold Command_Parser_ProcessCommands
    simp only [h, Bool.not_true, Bool.false_eq_true, if_false]
    cases (strlen s.commandBuffer == 0) <;> exact ⟨rfl, rfl, rfl⟩
  · intro h
    unfold Command_Parser_ProcessCommands
    simp only [h, Bool.not_false, if_true]

/-- C23 at the rejected ready line `LED9`, and at a state with no line ready. -/
theorem C23_line_consumed_witness :
    (Command_Parser_ProcessCommands HAL.ok (State.zero.withLine (str "LED9"))).commandBuffer =
      List.replicate COMMAND_BUFFER_SIZE 0 ∧
    Command_Parser_ProcessCommands HAL.ok (State.running 2) = State.running 2 :=
  ⟨((C23_line_consumed HAL.ok (State.zero.withLine (str "LED9"))).1 rfl).1,
   (C23_line_consumed HAL.ok (State.running 2)).2 rfl⟩

/-- C25: in the Accumulating state a carriage return only writes a NUL at the cursor and marks
the line ready; when a line is ready, any further character is processed exactly as by the
cleared assembler (the ready line is discarded first). -/
theorem C25_carriage_return (s : State) :
    (s.commandComplete = false →
      Command_Parser_ProcessChar 13 s =
        { s with
          commandBuffer := s.commandBuffer.set s.bufferIndex 0
          commandComplete := true }) ∧
    (s.commandComplete = true →
      ∀ c : Nat, Command_Parser_ProcessChar c s =
        Command_Parser_ProcessChar c (Command_Parser_Init s)) := by
  constructor
  · intro h
    unfold Command_Parser_ProcessChar
    simp [h, toupper]
  · intro h c
    unfold Command_Parser_ProcessChar
    simp only [h, if_true, Command_Parser_Init, Bool.false_eq_true, if_false]

/-- C25 at the accumulated text `LED`, and at the ready line `LED` followed by `A`. -/
theorem C25_carriage_return_witness :
    (Command_Parser_ProcessChar 13 (State.zero.accumulating (str "LED"))).commandComplete = true ∧
    Command_Parser_ProcessChar 65 (State.zero.withLine (str "LED")) =
      Command_Parser_ProcessChar 65 (Command_Parser_Init (State.zero.withLine (str "LED"))) :=
  ⟨(congrArg State.commandComplete
      ((C25_carriage_return (State.zero.accumulating (str "LED"))).1 rfl)).trans rfl,
   (C25_carriage_return (State.zero.withLine (str "LED"))).2 rfl 65⟩

/-- While no line is ready, a line feed leaves the state unchanged. -/
theorem ProcessChar_LF_accumulating (s : State) (h : s.commandComplete = false) :
    Command_Parser_ProcessChar 10 s = s := by
  unfold Command_Parser_ProcessChar
  simp [h, toupper]

/-- C24 fails when a line is ready: a line feed received after `LED1 ON` and CR, before the
dispatcher ran, changes the state, discards the ready line and makes the dispatcher transmit
nothing, whereas after CR alone the line is `LED1 ON` and the dispatcher answers with the
`[OK]` line and the prompt. -/
theorem C24_line_feed_discards_ready_line :
    Command_Parser_ProcessChar 10 (feed (str "LED1 ON\r") State.zero) ≠
      feed (str "LED1 ON\r") State.zero ∧
    cstr (feed (str "LED1 ON\r") State.zero).commandBuffer = str "LED1 ON" ∧
    (feed (str "LED1 ON\r\n") State.zero).commandComplete = false ∧
    cstr (feed (str "LED1 ON\r\n") State.zero).commandBuffer = [] ∧
    (Command_Parser_ProcessCommands HAL.ok (feed (str "LED1 ON\r") State.zero)).tx =
      [str "[OK] LED 1 mise a ON\r\n", str "STM32> "] ∧
    (Command_Parser_ProcessCommands HAL.ok (feed (str "LED1 ON\r\n") State.zero)).tx = [] := by
  decide

/-! ## Line assembler: invariant and backspace -/

theorem padded_length (l : List Nat) (h : l.length ≤ 63) : (padded l).length = 64 := by
  simp only [padded, List.length_append, List.length_replicate, COMMAND_BUFFER_SIZE]
  omega

theorem padded_nil : padded [] = List.replicate COMMAND_BUFFER_SIZE 0 := rfl

theorem AsmLine_nil_of_cleared (s : State)
    (hb : s.commandBuffer = List.replicate COMMAND_BUFFER_SIZE 0) (hi : s.bufferIndex = 0) :
    AsmLine s [] :=
  ⟨hb, hi, by simp, by simp⟩

theorem AsmOK_init (s : State) : AsmOK (Command_Parser_Init s) :=
  ⟨[], AsmLine_nil_of_cleared _ rfl rfl⟩

theorem padded_set_dropLast (l : List Nat) (h : l.length ≤ 63) (hne : l ≠ []) :
    (padded l).set (l.length - 1) 0 = padded l.dropLast := by
  obtain ⟨l', a, rfl⟩ : ∃ l' a, l = l' ++ [a] := by
    refine ⟨l.dropLast, l.getLast hne, ?_⟩
    exact (List.dropLast_append_getLast hne).symm
  have hl : l'.length < 63 := by
    simp only [List.length_append, List.length_singleton] at h; omega
  rw [List.dropLast_concat, ← padded_set_char l' a hl]
  simp only [List.length_append, List.length_singleton, Nat.add_sub_cancel]
  rw [List.set_set, padded_set_nul l' (by omega)]

theorem toupper_mod_props (c : Nat) :
    ¬ (97 ≤ toupper (c % 256) ∧ toupper (c % 256) ≤ 122) := by
  unfold toupper
  split_ifs <;> omega

theorem ProcessChar_accumulating_cases (c : Nat) (s : State) (h : s.commandComplete = false) :
    Command_Parser_ProcessChar c s =
      if toupper (c % 256) = 10 then s
      else if toupper (c % 256) = 13 then
        { s with commandBuffer := s.commandBuffer.set s.bufferIndex 0, commandComplete := true }
      else if toupper (c % 256) = 8 ∨ toupper (c % 256) = 127 then
        if s.bufferIndex > 0 then
          { s with
            bufferIndex := s.bufferIndex - 1
            commandBuffer := s.commandBuffer.set (s.bufferIndex - 1) 0 }
        else s
      else if s.bufferIndex < COMMAND_BUFFER_SIZE - 1 ∧ isprint (toupper (c % 256)) = true then
        { s with
          commandBuffer := s.commandBuffer.set s.bufferIndex (toupper (c % 256))
          bufferIndex := s.bufferIndex + 1 }
      else s := by
  unfold Command_Parser_ProcessChar
  simp only [h, Bool.false_eq_true, if_false]

theorem AsmOK_ProcessChar_accumulating (c : Nat) (s : State) (h : s.commandComplete = false)
    (hs : AsmOK s) : AsmOK (Command_Parser_ProcessChar c s) := by
  obtain ⟨l, hb, hi, hl, hp⟩ := hs
  rw [ProcessChar_accumulating_cases c s h]
  split_ifs with h1 h2 h3 h4 h5
  · exact ⟨l, hb, hi, hl, hp⟩
  · refine ⟨l, ?_, hi, hl, hp⟩
    show s.commandBuffer.set s.bufferIndex 0 = padded l
    rw [hb, hi, padded_set_nul l hl]
  · have hne : l ≠ [] := by
      intro hn; rw [hn] at hi; simp at hi; omega
    refine ⟨l.dropLast, ?_, ?_, ?_, ?_⟩
    · show s.commandBuffer.set (s.bufferIndex - 1) 0 = padded l.dropLast
      rw [hb, hi, padded_set_dropLast l hl hne]
    · show s.bufferIndex - 1 = l.dropLast.length
      rw [hi, List.length_dropLast]
    · rw [List.length_dropLast]; omega
    · intro x hx
      exact hp x (List.mem_of_mem_dropLast hx)
  · exact ⟨l, hb, hi, hl, hp⟩
  · have hlt : l.length < 63 := by
      have := h5.1
      simp only [COMMAND_BUFFER_SIZE] at this
      omega
    refine ⟨l ++ [toupper (c % 256)], ?_, ?_, ?_, ?_⟩
    · show s.commandBuffer.set s.bufferIndex (toupper (c % 256)) = _
      rw [hb, hi, padded_set_char l _ hlt]
    · show s.bufferIndex + 1 = _
      rw [hi]; simp
    · simp; omega
    · intro x hx
      rcases List.mem_append.mp hx with hx | hx
      · exact hp x hx
      · simp only [List.mem_singleton] at hx
        rw [hx]
        exact ⟨h5.2, toupper_mod_props c⟩
  · exact ⟨l, hb, hi, hl, hp⟩

theorem ProcessChar_of_complete (c : Nat) (s : State) (h : s.commandComplete = true) :
    Command_Parser_ProcessChar c s = Command_Parser_ProcessChar c (Command_Parser_Init s) := by
  unfold Command_Parser_ProcessChar
  simp only [h, if_true, Command_Parser_Init, Bool.false_eq_true, if_false]

theorem AsmOK_ProcessChar (c : Nat) (s : State) (hs : AsmOK s) :
    AsmOK (Command_Parser_ProcessChar c s) := by
  cases h : s.commandComplete
  · exact AsmOK_ProcessChar_accumulating c s h hs
  · rw [ProcessChar_of_complete c s h]
    exact AsmOK_ProcessChar_accumulating c _ rfl (AsmOK_init s)

theorem AsmOK_ProcessCommands (hal : HAL) (s : State) (hs : AsmOK s) :
    AsmOK (Command_Parser_ProcessCommands hal s) := by
  cases h : s.commandComplete
  · have : Command_Parser_ProcessCommands hal s = s := by
      unfold Command_Parser_ProcessCommands
      simp only [h, Bool.not_false, if_true]
    rw [this]; exact hs
  · have e : (Command_Parser_ProcessCommands hal s).commandBuffer =
        List.replicate COMMAND_BUFFER_SIZE 0 ∧
        (Command_Parser_ProcessCommands hal s).bufferIndex = 0 := by
      unfold Command_Parser_ProcessCommands
      simp only [h, Bool.not_true, Bool.false_eq_true, if_false]
      cases (strlen s.commandBuffer == 0) <;> exact ⟨rfl, rfl⟩
    exact ⟨[], AsmLine_nil_of_cleared _ e.1 e.2⟩

theorem AsmOK_runEvents (hal : HAL) (es : List AsmEvent) :
    ∀ s : State, AsmOK s → AsmOK (runEvents hal es s) := by
  induction es with
  | nil => intro s hs; exact hs
  | cons e es ih =>
    intro s hs
    have : runEvents hal (e :: es) s = runEvents hal es (e.apply hal s) := by
      simp [runEvents]
    rw [this]
    apply ih
    cases e with
    | char c => exact AsmOK_ProcessChar c s hs
    | poll => exact AsmOK_ProcessCommands hal s hs

/-- C28 (amended): in every state reached from `Command_Parser_Init` by any interleaving of
received characters and dispatcher calls, the cursor is at most 63 and the buffer has 64 bytes,
so every buffer write is inside the buffer; and while no line is ready, a character that is not
CR, backspace or DEL and is non-printable or arrives with the cursor at 63 leaves the state
unchanged. -/
theorem C28_cursor_bound (hal : HAL) (s0 : State) (es : List AsmEvent) (s : State)
    (hs : s = runEvents hal es (Command_Parser_Init s0)) :
    s.bufferIndex ≤ COMMAND_BUFFER_SIZE - 1 ∧
    s.commandBuffer.length = COMMAND_BUFFER_SIZE ∧
    (∀ c : Nat, s.commandComplete = false →
      toupper (c % 256) ≠ 13 → toupper (c % 256) ≠ 8 → toupper (c % 256) ≠ 127 →
      (isprint (toupper (c % 256)) = false ∨ s.bufferIndex = COMMAND_BUFFER_SIZE - 1) →
      Command_Parser_ProcessChar c s = s) := by
  obtain ⟨l, hb, hi, hl, _⟩ := AsmOK_runEvents hal es _ (AsmOK_init s0)
  rw [← hs] at hb hi
  refine ⟨?_, ?_, ?_⟩
  · rw [hi]; simp only [COMMAND_BUFFER_SIZE]; omega
  · rw [hb, padded_length l hl]; rfl
  · intro c hc h13 h8 h127 hdrop
    rw [ProcessChar_accumulating_cases c s hc]
    have h3 : ¬ (toupper (c % 256) = 8 ∨ toupper (c % 256) = 127) := by
      rintro (h | h)
      · exact h8 h
      · exact h127 h
    have h5 : ¬ (s.bufferIndex < COMMAND_BUFFER_SIZE - 1 ∧ isprint (toupper (c % 256)) = true) := by
      rintro ⟨a, b⟩
      rcases hdrop with h | h
      · rw [h] at b; exact absurd b (by decide)
      · omega
    simp only [if_neg h13, if_neg h3, if_neg h5, ite_self]

/-- C28 (amended) after the events `L`, poll, `E`, with the non-printable byte 7. -/
theorem C28_cursor_bound_witness :
    (runEvents HAL.ok [AsmEvent.char 76, AsmEvent.poll, AsmEvent.char 69]
      (Command_Parser_Init State.zero)).bufferIndex ≤ COMMAND_BUFFER_SIZE - 1 ∧
    Command_Parser_ProcessChar 7
        (runEvents HAL.ok [AsmEvent.char 76, AsmEvent.poll, AsmEvent.char 69]
          (Command_Parser_Init State.zero)) =
      runEvents HAL.ok [AsmEvent.char 76, AsmEvent.poll, AsmEvent.char 69]
        (Command_Parser_Init State.zero) :=
  ⟨(C28_cursor_bound HAL.ok State.zero [AsmEvent.char 76, AsmEvent.poll, AsmEvent.char 69] _
      rfl).1,
   (C28_cursor_bound HAL.ok State.zero [AsmEvent.char 76, AsmEvent.poll, AsmEvent.char 69] _
      rfl).2.2 7 (by decide) (by decide) (by decide) (by decide) (Or.inl (by decide))⟩

/-- C28 as stated fails when a line is ready: after `A` and CR the non-printable byte 7 is not
dropped without changing the state (the ready line is discarded). -/
theorem C28_cursor_bound_counterexample :
    Command_Parser_ProcessChar 7
        (runEvents HAL.ok [AsmEvent.char 65, AsmEvent.char 13] (Command_Parser_Init State.zero)) ≠
      runEvents HAL.ok [AsmEvent.char 65, AsmEvent.char 13] (Command_Parser_Init State.zero) ∧
    isprint 7 = false := by
  decide

theorem ProcessChar_backspace (s0 : State) (l : List Nat) (c : Nat) (hl : l.length ≤ 63)
    (hc : c = 8 ∨ c = 127) :
    Command_Parser_ProcessChar c (s0.accumulating l) = s0.accumulating l.dropLast := by
  have hu : toupper (c % 256) = 8 ∨ toupper (c % 256) = 127 := by
    rcases hc with rfl | rfl
    · left; decide
    · right; decide
  have h10 : ¬ toupper (c % 256) = 10 := by omega
  have h13 : ¬ toupper (c % 256) = 13 := by omega
  rw [ProcessChar_accumulating_cases c _ rfl]
  simp only [if_neg h10, if_neg h13, if_pos hu]
  cases l with
  | nil => rfl
  | cons a l' =>
    have hpos : (s0.accumulating (a :: l')).bufferIndex > 0 := by
      show (a :: l').length > 0
      simp
    rw [if_pos hpos]
    have e := padded_set_dropLast (a :: l') hl (by simp)
    simp only [State.accumulating, e, List.length_dropLast]

/-- C26 (amended): while no line is ready, a backspace or DEL changes nothing at cursor 0 and
otherwise decrements the cursor and zeroes the byte at the new cursor position; hence, from a
cleared assembler, a non-empty printable text of at most 63 characters, one backspace and CR
give the upper-cased text without its last character as ready line. -/
theorem C26_backspace (s : State) (c : Nat) (hacc : s.commandComplete = false)
    (hc : c = 8 ∨ c = 127) :
    (s.bufferIndex = 0 → Command_Parser_ProcessChar c s = s) ∧
    (s.bufferIndex > 0 →
      Command_Parser_ProcessChar c s =
        { s with
          bufferIndex := s.bufferIndex - 1
          commandBuffer := s.commandBuffer.set (s.bufferIndex - 1) 0 }) ∧
    (∀ cs : List Nat, cs ≠ [] → cs.length ≤ 63 → (∀ x ∈ cs, isprint x = true) →
      s.commandBuffer = List.replicate COMMAND_BUFFER_SIZE 0 → s.bufferIndex = 0 →
      feed (cs ++ [c, 13]) s = s.withLine (cs.map toupper).dropLast ∧
      cstr (feed (cs ++ [c, 13]) s).commandBuffer = (cs.map toupper).dropLast) := by
  have hu : toupper (c % 256) = 8 ∨ toupper (c % 256) = 127 := by
    rcases hc with rfl | rfl
    · left; decide
    · right; decide
  have h10 : ¬ toupper (c % 256) = 10 := by omega
  have h13 : ¬ toupper (c % 256) = 13 := by omega
  refine ⟨?_, ?_, ?_⟩
  · intro h0
    rw [ProcessChar_accumulating_cases c s hacc]
    simp only [if_neg h10, if_neg h13, if_pos hu, h0, gt_iff_lt, Nat.lt_irrefl, if_false]
  · intro hpos
    rw [ProcessChar_accumulating_cases c s hacc]
    simp only [if_neg h10, if_neg h13, if_pos hu, if_pos hpos]
  · intro cs hne hlen hprint hbuf hidx
    have h0 := cleared_eq_accumulating s ⟨hbuf, hidx, hacc⟩
    have hmlen : (cs.map toupper).length ≤ 63 := by simpa using hlen
    have e : feed (cs ++ [c, 13]) s = s.withLine (cs.map toupper).dropLast := by
      rw [feed_append]
      conv_lhs => rw [h0]
      rw [feed_printable s cs [] (by simp) hprint, List.nil_append,
        List.take_of_length_le hmlen, feed_cons, ProcessChar_backspace s _ c hmlen hc,
        feed_cons, ProcessChar_CR s _ (by rw [List.length_dropLast]; omega)]
      rfl
    refine ⟨e, ?_⟩
    rw [e]
    show cstr (padded _) = _
    apply cstr_padded _ (by rw [List.length_dropLast]; omega)
    intro x hx
    have hx2 := List.mem_of_mem_dropLast hx
    simp only [List.mem_map] at hx2
    obtain ⟨d, hd, rfl⟩ := hx2
    have := toupper_of_isprint d (hprint d hd)
    omega

/-- C26 (amended) at the cleared assembler, and at `LED1`, backspace, CR giving `LED`. -/
theorem C26_backspace_witness :
    Command_Parser_ProcessChar 8 State.zero = State.zero ∧
    cstr (feed (str "LED1" ++ [8, 13]) State.zero).commandBuffer = str "LED" :=
  ⟨(C26_backspace State.zero 8 rfl (Or.inl rfl)).1 rfl,
   ((C26_backspace State.zero 8 rfl (Or.inl rfl)).2.2 (str "LED1") (by decide) (by decide)
      (by decide) rfl rfl).2.trans (by decide)⟩

/-- C26 as stated fails when a line is ready: at cursor 0 a backspace changes the state, and at
cursor 3 it resets the cursor to 0 instead of decrementing it. -/
theorem C26_backspace_counterexample :
    (State.zero.withLine []).bufferIndex = 0 ∧
    Command_Parser_ProcessChar 8 (State.zero.withLine []) ≠ State.zero.withLine [] ∧
    (State.zero.withLine (str "LED")).bufferIndex = 3 ∧
    (Command_Parser_ProcessChar 8 (State.zero.withLine (str "LED"))).bufferIndex = 0 := by
  decide

/-! ## Pattern 2 period -/

theorem patternRound_two (s : State) (k : Nat) (ha : s.activePattern = 2)
    (hk : s.patternStep = k) (hk2 : k < 2) :
    patternRound s =
      { s with
        pb0 := decide (k = 0), pb7 := decide (k = 1), pb14 := decide (k = 0)
        patternStep := (k + 1) % 2
        patternNeedsUpdate := false } := by
  have hT : Pattern_TimerCallback s.currentFrequency s = { s with patternNeedsUpdate := true } := by
    simp [Pattern_TimerCallback, ha, PATTERN_NONE]
  have hU : Pattern_Controller_Update { s with patternNeedsUpdate := true } =
      { Pattern2_Update { s with patternNeedsUpdate := true } with
        patternNeedsUpdate := false } := by
    simp [Pattern_Controller_Update, ha, PATTERN_NONE]
  rw [patternRound, hT, hU, Pattern2_Update_eq { s with patternNeedsUpdate := true } k hk hk2]

theorem patternRound_two_period (s : State) (ha : s.activePattern = 2) (hk : s.patternStep = 0) :
    patternRound (patternRound (patternRound s)) = patternRound s := by
  have hA := patternRound_two s 0 ha hk (by decide)
  have hAa : (patternRound s).activePattern = 2 := by rw [hA]; exact ha
  have hAk : (patternRound s).patternStep = 1 := by rw [hA]
  have hB := patternRound_two (patternRound s) 1 hAa hAk (by decide)
  have hBa : (patternRound (patternRound s)).activePattern = 2 := by rw [hB]; exact hAa
  have hBk : (patternRound (patternRound s)).patternStep = 0 := by rw [hB]
  have hC := patternRound_two (patternRound (patternRound s)) 0 hBa hBk (by decide)
  rw [hC, hB, hA]

theorem iterate_period_two (f : State → State) (a : State) (h : f (f a) = a) :
    ∀ n : Nat, f^[n + 2] a = f^[n] a := by
  intro n
  rw [Function.iterate_add_apply]
  show f^[n] (f (f a)) = f^[n] a
  rw [h]

theorem patternRound_two_iterate (s : State) (ha : s.activePattern = 2)
    (hk : s.patternStep = 0) (m : Nat) (hm : 1 ≤ m) :
    patternRound^[m + 2] s = patternRound^[m] s := by
  obtain ⟨n, rfl⟩ : ∃ n, m = n + 1 := ⟨m - 1, by omega⟩
  have e1 : patternRound^[n + 1 + 2] s = patternRound^[n + 2] (patternRound s) := by
    rw [show n + 1 + 2 = (n + 2) + 1 by omega, Function.iterate_succ_apply]
  rw [e1, Function.iterate_succ_apply]
  exact iterate_period_two patternRound (patternRound s) (patternRound_two_period s ha hk) n

theorem patternRound_two_odd (s : State) (ha : s.activePattern = 2) (hk : s.patternStep = 0) :
    ∀ k : Nat,
      (patternRound^[2 * k + 1] s).pb0 = true ∧ (patternRound^[2 * k + 1] s).pb7 = false ∧
      (patternRound^[2 * k + 1] s).pb14 = true := by
  intro k
  induction k with
  | zero =>
    show (patternRound s).pb0 = true ∧ (patternRound s).pb7 = false ∧ (patternRound s).pb14 = true
    rw [patternRound_two s 0 ha hk (by decide)]
    exact ⟨rfl, rfl, rfl⟩
  | succ k ih =>
    rw [show 2 * (k + 1) + 1 = (2 * k + 1) + 2 by omega,
      patternRound_two_iterate s ha hk (2 * k + 1) (by omega)]
    exact ih

theorem patternRound_two_even (s : State) (ha : s.activePattern = 2) (hk : s.patternStep = 0) :
    ∀ k : Nat, 1 ≤ k →
      (patternRound^[2 * k] s).pb0 = false ∧ (patternRound^[2 * k] s).pb7 = true ∧
      (patternRound^[2 * k] s).pb14 = false := by
  intro k hk1
  induction k with
  | zero => omega
  | succ k ih =>
    by_cases h0 : k = 0
    · subst h0
      show (patternRound (patternRound s)).pb0 = false ∧ (patternRound (patternRound s)).pb7 = true ∧
        (patternRound (patternRound s)).pb14 = false
      have hA := patternRound_two s 0 ha hk (by decide)
      have hAa : (patternRound s).activePattern = 2 := by rw [hA]; exact ha
      have hAk : (patternRound s).patternStep = 1 := by rw [hA]
      rw [patternRound_two (patternRound s) 1 hAa hAk (by decide)]
      exact ⟨rfl, rfl, rfl⟩
    · rw [show 2 * (k + 1) = 2 * k + 2 by omega,
        patternRound_two_iterate s ha hk (2 * k) (by omega)]
      exact ih (by omega)

/-- C29 (amended): after `Pattern_Start` of pattern 2, once at least one round (tick at the
current frequency, then poll) has run, two more rounds return the whole state: the state after
m + 2 rounds equals the state after m rounds for m >= 1; the outputs are exactly output 2 after
every even positive number of rounds and exactly outputs 1 and 3 after every odd number. -/
theorem C29_pattern2_period (hal : HAL) (s s1 : State) (hs1 : s1 = (Pattern_Start hal 2 s).2) :
    (∀ m, 1 ≤ m → patternRound^[m + 2] s1 = patternRound^[m] s1) ∧
    (∀ k, 1 ≤ k →
      LED_GetState 1 (patternRound^[2 * k] s1) = LED_OFF ∧
      LED_GetState 2 (patternRound^[2 * k] s1) = LED_ON ∧
      LED_GetState 3 (patternRound^[2 * k] s1) = LED_OFF) ∧
    (∀ k,
      LED_GetState 1 (patternRound^[2 * k + 1] s1) = LED_ON ∧
      LED_GetState 2 (patternRound^[2 * k + 1] s1) = LED_OFF ∧
      LED_GetState 3 (patternRound^[2 * k + 1] s1) = LED_ON) := by
  have e := Pattern_Start_of_valid hal 2 s (by decide)
  have ha : s1.activePattern = 2 := by rw [hs1, e]
  have hk : s1.patternStep = 0 := by rw [hs1, e]
  refine ⟨?_, ?_, ?_⟩
  · intro m hm
    exact patternRound_two_iterate s1 ha hk m hm
  · intro k hk1
    obtain ⟨a, b, c⟩ := patternRound_two_even s1 ha hk k hk1
    rw [LED_GetState_one, LED_GetState_two, LED_GetState_three, a, b, c]
    exact ⟨rfl, rfl, rfl⟩
  · intro k
    obtain ⟨a, b, c⟩ := patternRound_two_odd s1 ha hk k
    rw [LED_GetState_one, LED_GetState_two, LED_GetState_three, a, b, c]
    exact ⟨rfl, rfl, rfl⟩

/-- C29 (amended) from the idle all-off state, at m = 3 and after 10 rounds. -/
theorem C29_pattern2_period_witness :
    patternRound^[3 + 2] (Pattern_Start HAL.ok 2 State.zero).2 =
      patternRound^[3] (Pattern_Start HAL.ok 2 State.zero).2 ∧
    LED_GetState 2 (patternRound^[2 * 5] (Pattern_Start HAL.ok 2 State.zero).2) = LED_ON :=
  ⟨(C29_pattern2_period HAL.ok State.zero _ rfl).1 3 (by decide),
   ((C29_pattern2_period HAL.ok State.zero _ rfl).2.1 5 (by decide)).2.1⟩

/-- C29 as stated fails from the idle all-off state: after 2 rounds output 2 is on, whereas
immediately after the start it is off. -/
theorem C29_pattern2_period_counterexample :
    LED_GetState 2 (patternRound^[2 * 1] (Pattern_Start HAL.ok 2 State.zero).2) ≠
      LED_GetState 2 (Pattern_Start HAL.ok 2 State.zero).2 := by
  decide

/-! ## Out-of-range digits -/

theorem freqOfChar_bad (d : Nat) (hd : d = 0 ∨ (4 ≤ d ∧ d ≤ 9)) : freqOfChar (48 + d) = none := by
  have hc : d = 0 ∨ d = 4 ∨ d = 5 ∨ d = 6 ∨ d = 7 ∨ d = 8 ∨ d = 9 := by omega
  rcases hc with rfl | rfl | rfl | rfl | rfl | rfl | rfl <;> rfl

theorem Select_PAT_bad (hal : HAL) (s : State) (d : Nat) (hd : d = 0 ∨ (4 ≤ d ∧ d ≤ 9)) :
    Command_Parser_Select hal (s.withLine [80, 65, 84, 48 + d]) =
      (false, Send_Error_Message (str "Numero PAT invalide (1-3)")
        (s.withLine [80, 65, 84, 48 + d])) := by
  have h63 : ([80, 65, 84, 48 + d] : List Nat).length ≤ 63 := by simp
  have hz : ∀ c ∈ ([80, 65, 84, 48 + d] : List Nat), c ≠ 0 := by
    intro c hc; simp at hc; omega
  have hrange : ¬ (48 + d ≥ 49 ∧ 48 + d ≤ 48 + 3) := by omega
  unfold Command_Parser_Select
  simp only [withLine_commandBuffer, strcmp_eq, strncmp_eq, cstr_padded _ h63 hz, cstr_LED,
    cstr_STATUS, cstr_STOP, strlen_LED, cstr_CHENILLARD, strlen_CHENILLARD, cstr_PAT, strlen_PAT]
  simp only [beq_iff_eq, List.take_succ_cons, List.take_zero, List.take_nil, List.cons.injEq,
    Nat.reduceEqDiff, false_and, and_false, if_false, and_self, true_or, if_true]
  unfold Parse_Shortcut_Command
  simp only [strcmp_eq, strncmp_eq, cstr_padded _ h63 hz, cstr_STOP, cstr_PAT, strlen_PAT,
    strlen_padded _ h63 hz, charAt_padded, PATTERN_COUNT]
  simp only [beq_iff_eq, List.take_succ_cons, List.take_zero, List.take_nil, List.cons.injEq,
    Nat.reduceEqDiff, false_and, and_false, if_false, and_self, if_true, List.length_cons,
    List.length_nil, List.getD_cons_succ, List.getD_cons_zero, hrange]

theorem Select_FREQ_bad (hal : HAL) (s : State) (d : Nat) (hd : d = 0 ∨ (4 ≤ d ∧ d ≤ 9)) :
    Command_Parser_Select hal (s.withLine [70, 82, 69, 81, 48 + d]) =
      (false, Send_Error_Message (str "Numero FREQ invalide (1-3)")
        (s.withLine [70, 82, 69, 81, 48 + d])) := by
  have h63 : ([70, 82, 69, 81, 48 + d] : List Nat).length ≤ 63 := by simp
  have hz : ∀ c ∈ ([70, 82, 69, 81, 48 + d] : List Nat), c ≠ 0 := by
    intro c hc; simp at hc; omega
  unfold Command_Parser_Select
  simp only [withLine_commandBuffer, strcmp_eq, strncmp_eq, cstr_padded _ h63 hz, cstr_LED,
    cstr_STATUS, cstr_STOP, strlen_LED, cstr_CHENILLARD, strlen_CHENILLARD, cstr_PAT, strlen_PAT,
    cstr_FREQ, strlen_FREQ]
  simp only [beq_iff_eq, List.take_succ_cons, List.take_zero, List.take_nil, List.cons.injEq,
    Nat.reduceEqDiff, false_and, and_false, if_false, and_self, or_true, if_true]
  unfold Parse_Shortcut_Command
  simp only [strcmp_eq, strncmp_eq, cstr_padded _ h63 hz, cstr_STOP, cstr_PAT, strlen_PAT,
    cstr_FREQ, strlen_FREQ, strlen_padded _ h63 hz, charAt_padded]
  simp only [beq_iff_eq, List.take_succ_cons, List.take_zero, List.take_nil, List.cons.injEq,
    Nat.reduceEqDiff, false_and, and_false, if_false, and_self, if_true, List.length_cons,
    List.length_nil, List.getD_cons_succ, List.getD_cons_zero, Nat.reduceAdd,
    freqOfChar_bad d hd]

theorem Select_CHENILLARD_ON_bad (hal : HAL) (s : State) (d : Nat)
    (hd : d = 0 ∨ (4 ≤ d ∧ d ≤ 9)) :
    Command_Parser_Select hal (s.withLine [67, 72, 69, 78, 73, 76, 76, 65, 82, 68, 48 + d, 32, 79, 78]) =
      (false, Send_Error_Message (str "Numero chenillard invalide (1-3)")
        (s.withLine [67, 72, 69, 78, 73, 76, 76, 65, 82, 68, 48 + d, 32, 79, 78])) := by
  have h63 : ([67, 72, 69, 78, 73, 76, 76, 65, 82, 68, 48 + d, 32, 79, 78] : List Nat).length ≤ 63 := by simp
  have hz : ∀ c ∈ ([67, 72, 69, 78, 73, 76, 76, 65, 82, 68, 48 + d, 32, 79, 78] : List Nat), c ≠ 0 := by
    intro c hc; simp at hc; omega
  have hrange : 48 + d < 49 ∨ 48 + d > 48 + 3 := by omega
  have hdig : isdigit (48 + d) = true := by
    simp only [isdigit, decide_eq_true_eq]; omega
  unfold Command_Parser_Select
  simp only [withLine_commandBuffer, strcmp_eq, strncmp_eq, cstr_padded _ h63 hz, cstr_LED,
    cstr_STATUS, cstr_STOP, strlen_LED, cstr_CHENILLARD, strlen_CHENILLARD, cstr_PAT, strlen_PAT,
    strlen, cstr_drop_padded _ _ h63 hz, List.drop_drop, charAt_drop, charAt_padded, cstr_sp_ON]
  simp only [beq_iff_eq, List.take_succ_cons, List.take_zero, List.take_nil, List.cons.injEq,
    Nat.reduceEqDiff, false_and, and_false, if_false, and_self, true_or, if_true,
    List.drop_succ_cons, List.drop_zero, List.length_cons, List.length_nil,
    List.getD_cons_succ, List.getD_cons_zero, Nat.reduceAdd, hdig, ge_iff_le, Nat.reduceLeDiff,
    Nat.le_refl, true_and]
  unfold Parse_Chenillard_ON_Command
  simp only [strcmp_eq, cstr_drop_padded _ _ h63 hz, cstr_sp_ON, strlen_CHENILLARD,
    charAt_padded, PATTERN_COUNT]
  simp only [List.getD_cons_succ, List.getD_cons_zero, hrange, if_true]

theorem Select_CHENILLARD_FREQUENCE_bad (hal : HAL) (s : State) (d : Nat)
    (hd : d = 0 ∨ (4 ≤ d ∧ d ≤ 9)) :
    Command_Parser_Select hal (s.withLine [67, 72, 69, 78, 73, 76, 76, 65, 82, 68, 32, 70, 82, 69, 81, 85, 69, 78, 67, 69, 48 + d]) =
      (false, Send_Error_Message (str "Numero Frequence invalide (1-3)")
        (s.withLine [67, 72, 69, 78, 73, 76, 76, 65, 82, 68, 32, 70, 82, 69, 81, 85, 69, 78, 67, 69, 48 + d])) := by
  have h63 : ([67, 72, 69, 78, 73, 76, 76, 65, 82, 68, 32, 70, 82, 69, 81, 85, 69, 78, 67, 69, 48 + d] : List Nat).length ≤ 63 := by simp
  have hz : ∀ c ∈ ([67, 72, 69, 78, 73, 76, 76, 65, 82, 68, 32, 70, 82, 69, 81, 85, 69, 78, 67, 69, 48 + d] : List Nat), c ≠ 0 := by
    intro c hc; simp at hc; omega
  unfold Command_Parser_Select
  simp only [withLine_commandBuffer, strcmp_eq, strncmp_eq, cstr_padded _ h63 hz, cstr_LED,
    cstr_STATUS, cstr_STOP, strlen_LED, cstr_CHENILLARD, strlen_CHENILLARD, cstr_PAT, strlen_PAT,
    strlen, cstr_drop_padded _ _ h63 hz, List.drop_drop, charAt_drop, charAt_padded, cstr_sp_ON,
    cstr_sp_FREQUENCE]
  simp only [beq_iff_eq, List.take_succ_cons, List.take_zero, List.take_nil, List.cons.injEq,
    Nat.reduceEqDiff, false_and, and_false, if_false, and_self, true_or, if_true,
    List.drop_succ_cons, List.drop_zero, List.length_cons, List.length_nil,
    List.getD_cons_succ, List.getD_cons_zero, Nat.reduceAdd, isdigit_space, ge_iff_le,
    Nat.reduceLeDiff, Nat.le_refl, true_and, Bool.false_eq_true]
  unfold Parse_Chenillard_Frequency_Command
  simp only [strncmp_eq, cstr_padded _ h63 hz, cstr_CHENILLARD_FREQUENCE,
    strlen_CHENILLARD_FREQUENCE, strlen_padded _ h63 hz, charAt_padded]
  simp only [beq_iff_eq, List.take_succ_cons, List.take_zero, List.take_nil, List.cons.injEq,
    Nat.reduceEqDiff, false_and, and_false, if_false, and_self, if_true, List.length_cons,
    List.length_nil, List.getD_cons_succ, List.getD_cons_zero, Nat.reduceAdd, ne_eq,
    not_true_eq_false, Bool.not_true, Bool.false_eq_true, or_self, beq_self_eq_true,
    freqOfChar_bad d hd]

/-- C21: for a digit `d` out of range (0 or 4..9) the dispatcher answers each of the lines
`PAT<d>`, `FREQ<d>`, `CHENILLARD<d> ON` and `CHENILLARD FREQUENCE<d>` with the specific
invalid-number error of that command (followed by the generic error line and the prompt), and
the state after the call differs from the state before only in the cleared assembler and the
transmitted lines: pattern selection, step, frequency, timer and outputs are unchanged. -/
theorem C21_out_of_range_digit (hal : HAL) (s : State) (d : Nat)
    (hd : d = 0 ∨ (4 ≤ d ∧ d ≤ 9)) :
    Command_Parser_ProcessCommands hal (s.withLine (str "PAT" ++ [48 + d])) =
      { s with
        commandBuffer := List.replicate 64 0, bufferIndex := 0, commandComplete := false
        tx := s.tx ++ [str "[ERR] Numero PAT invalide (1-3)\r\n",
          str "[ERR] Commande inconnue ou format invalide\r\n", str "STM32> "] } ∧
    Command_Parser_ProcessCommands hal (s.withLine (str "FREQ" ++ [48 + d])) =
      { s with
        commandBuffer := List.replicate 64 0, bufferIndex := 0, commandComplete := false
        tx := s.tx ++ [str "[ERR] Numero FREQ invalide (1-3)\r\n",
          str "[ERR] Commande inconnue ou format invalide\r\n", str "STM32> "] } ∧
    Command_Parser_ProcessCommands hal (s.withLine (str "CHENILLARD" ++ [48 + d] ++ str " ON")) =
      { s with
        commandBuffer := List.replicate 64 0, bufferIndex := 0, commandComplete := false
        tx := s.tx ++ [str "[ERR] Numero chenillard invalide (1-3)\r\n",
          str "[ERR] Commande inconnue ou format invalide\r\n", str "STM32> "] } ∧
    Command_Parser_ProcessCommands hal (s.withLine (str "CHENILLARD FREQUENCE" ++ [48 + d])) =
      { s with
        commandBuffer := List.replicate 64 0, bufferIndex := 0, commandComplete := false
        tx := s.tx ++ [str "[ERR] Numero Frequence invalide (1-3)\r\n",
          str "[ERR] Commande inconnue ou format invalide\r\n", str "STM32> "] } := by
  have hL1 : str "PAT" ++ [48 + d] = [80, 65, 84, 48 + d] := by
    have : str "PAT" = [80, 65, 84] := by decide
    rw [this]; rfl
  have hL2 : str "FREQ" ++ [48 + d] = [70, 82, 69, 81, 48 + d] := by
    have : str "FREQ" = [70, 82, 69, 81] := by decide
    rw [this]; rfl
  have hL3 : str "CHENILLARD" ++ [48 + d] ++ str " ON" = [67, 72, 69, 78, 73, 76, 76, 65, 82, 68, 48 + d, 32, 79, 78] := by
    have h1 : str "CHENILLARD" = [67, 72, 69, 78, 73, 76, 76, 65, 82, 68] := by decide
    have h2 : str " ON" = [32, 79, 78] := by decide
    rw [h1, h2]; rfl
  have hL4 : str "CHENILLARD FREQUENCE" ++ [48 + d] = [67, 72, 69, 78, 73, 76, 76, 65, 82, 68, 32, 70, 82, 69, 81, 85, 69, 78, 67, 69, 48 + d] := by
    have h1 : str "CHENILLARD FREQUENCE" =
        [67, 72, 69, 78, 73, 76, 76, 65, 82, 68, 32, 70, 82, 69, 81, 85, 69, 78, 67, 69] := by
      decide
    rw [h1]; rfl
  have hz1 : ∀ c ∈ ([80, 65, 84, 48 + d] : List Nat), c ≠ 0 := by
    intro c hc; simp at hc; omega
  have hz2 : ∀ c ∈ ([70, 82, 69, 81, 48 + d] : List Nat), c ≠ 0 := by
    intro c hc; simp at hc; omega
  have hz3 : ∀ c ∈ ([67, 72, 69, 78, 73, 76, 76, 65, 82, 68, 48 + d, 32, 79, 78] : List Nat), c ≠ 0 := by
    intro c hc; simp at hc; omega
  have hz4 : ∀ c ∈ ([67, 72, 69, 78, 73, 76, 76, 65, 82, 68, 32, 70, 82, 69, 81, 85, 69, 78, 67, 69, 48 + d] : List Nat), c ≠ 0 := by
    intro c hc; simp at hc; omega
  have e1 : cstr (snprintf 100 (str "[ERR] " ++ cstr (str "Numero PAT invalide (1-3)") ++
      str "\r\n")) = str "[ERR] Numero PAT invalide (1-3)\r\n" := by decide
  have e2 : cstr (snprintf 100 (str "[ERR] " ++ cstr (str "Numero FREQ invalide (1-3)") ++
      str "\r\n")) = str "[ERR] Numero FREQ invalide (1-3)\r\n" := by decide
  have e3 : cstr (snprintf 100 (str "[ERR] " ++ cstr (str "Numero chenillard invalide (1-3)") ++
      str "\r\n")) = str "[ERR] Numero chenillard invalide (1-3)\r\n" := by decide
  have e4 : cstr (snprintf 100 (str "[ERR] " ++ cstr (str "Numero Frequence invalide (1-3)") ++
      str "\r\n")) = str "[ERR] Numero Frequence invalide (1-3)\r\n" := by decide
  have e5 : cstr (snprintf 100 (str "[ERR] " ++ cstr (str "Commande inconnue ou format invalide") ++
      str "\r\n")) = str "[ERR] Commande inconnue ou format invalide\r\n" := by
    decide
  have e6 : cstr (str "STM32> ") = str "STM32> " := by decide
  rw [hL1, hL2, hL3, hL4]
  refine ⟨?_, ?_, ?_, ?_⟩
  · rw [ProcessCommands_withLine hal s _ (by simp) hz1 (by simp), Select_PAT_bad hal s d hd]
    simp only [Bool.false_eq_true, if_false, Send_Error_Message, send3_withLine, e1, e5, e6]
  · rw [ProcessCommands_withLine hal s _ (by simp) hz2 (by simp), Select_FREQ_bad hal s d hd]
    simp only [Bool.false_eq_true, if_false, Send_Error_Message, send3_withLine, e2, e5, e6]
  · rw [ProcessCommands_withLine hal s _ (by simp) hz3 (by simp),
      Select_CHENILLARD_ON_bad hal s d hd]
    simp only [Bool.false_eq_true, if_false, Send_Error_Message, send3_withLine, e3, e5, e6]
  · rw [ProcessCommands_withLine hal s _ (by simp) hz4 (by simp),
      Select_CHENILLARD_FREQUENCE_bad hal s d hd]
    simp only [Bool.false_eq_true, if_false, Send_Error_Message, send3_withLine, e4, e5, e6]

/-- Instance of C21 while pattern 2 runs: `CHENILLARD0 ON` is answered by the chenillard
number error, and `FREQ7` leaves the frequency tier as it was. -/
theorem C21_out_of_range_digit_witness :
    (Command_Parser_ProcessCommands HAL.ok
      ((State.running 2).withLine (str "CHENILLARD" ++ [48 + 0] ++ str " ON"))).tx =
      [str "[ERR] Numero chenillard invalide (1-3)\r\n",
        str "[ERR] Commande inconnue ou format invalide\r\n", str "STM32> "] ∧
    (Command_Parser_ProcessCommands HAL.ok
      ((State.running 2).withLine (str "FREQ" ++ [48 + 7]))).currentFrequency =
      (State.running 2).currentFrequency :=
  ⟨(congrArg State.tx (C21_out_of_range_digit HAL.ok (State.running 2) 0 (Or.inl rfl)).2.2.1).trans
      rfl,
   (congrArg State.currentFrequency
      (C21_out_of_range_digit HAL.ok (State.running 2) 7 (Or.inr (by decide))).2.1).trans rfl⟩

/-! ## Status report -/

theorem LED_GetState_send (i : Nat) (m : List Nat) (s : State) :
    LED_GetState i (UART_SendString m s) = LED_GetState i s := rfl

theorem statusLed_eval (i : Nat) (hi : 1 ≤ i ∧ i ≤ 3) (v : Nat) :
    cstr (snprintf 80 (str "LED " ++ fmt_d i ++ str ": " ++
      (if v = LED_ON then CMD_ON else CMD_OFF) ++ str "\r\n")) =
      statusLedLine i (v == LED_ON) := by
  obtain ⟨h1, h3⟩ := hi
  have hc : i = 1 ∨ i = 2 ∨ i = 3 := by omega
  by_cases hv : v = LED_ON
  · have hb : (v == LED_ON) = true := by simp [hv]
    rw [if_pos hv, hb]
    rcases hc with rfl | rfl | rfl <;> decide
  · have hb : (v == LED_ON) = false := by simp [hv]
    rw [if_neg hv, hb]
    rcases hc with rfl | rfl | rfl <;> decide

theorem statusPattern_eval (p f : Nat) (hp : p ≤ 3) :
    cstr (if p = PATTERN_NONE then
        snprintf 80 (str "Chenillard: INACTIF (Freq select: " ++
          (if f = PATTERN_FREQ_500MS then str "500MS"
            else if f = PATTERN_FREQ_1S then str "1S" else str "3S") ++ str ")\r\n")
      else
        snprintf 80 (str "Chenillard: ACTIF (Pattern: " ++ fmt_d p ++ str ", Freq: " ++
          (if f = PATTERN_FREQ_500MS then str "500MS"
            else if f = PATTERN_FREQ_1S then str "1S" else str "3S") ++ str ")\r\n")) =
      statusPatternLine p f := by
  have hc : p = 0 ∨ p = 1 ∨ p = 2 ∨ p = 3 := by omega
  unfold statusPatternLine tierLabel
  by_cases h0 : f = PATTERN_FREQ_500MS
  · simp only [if_pos h0]
    rcases hc with rfl | rfl | rfl | rfl <;> decide
  · by_cases h1 : f = PATTERN_FREQ_1S
    · simp only [if_neg h0, if_pos h1]
      rcases hc with rfl | rfl | rfl | rfl <;> decide
    · simp only [if_neg h0, if_neg h1]
      rcases hc with rfl | rfl | rfl | rfl <;> decide

theorem Execute_STATUS_Command_eq (st : State) (hp : st.activePattern ≤ 3) :
    Execute_STATUS_Command st =
      (true, { st with
        rxOverflow := false
        tx := st.tx ++ [str "--- Statut ---\r\n",
          statusLedLine 1 (LED_GetState 1 st == LED_ON),
          statusLedLine 2 (LED_GetState 2 st == LED_ON),
          statusLedLine 3 (LED_GetState 3 st == LED_ON),
          statusPatternLine st.activePattern st.currentFrequency] ++
          (if st.rxOverflow = true then [str "Attention: Debordement buffer UART detecte!\r\n"]
            else []) }) := by
  have hr : List.range' 1 LED_COUNT = [1, 2, 3] := by decide
  have e0 : cstr (str "--- Statut ---\r\n") = str "--- Statut ---\r\n" := by decide
  have ew : cstr (str "Attention: Debordement buffer UART detecte!\r\n") =
      str "Attention: Debordement buffer UART detecte!\r\n" := by decide
  unfold Execute_STATUS_Command
  simp only [hr, List.foldl_cons, List.foldl_nil, LED_GetState_send]
  simp only [UART_SendString, UART_HasOverflow, Pattern_GetActive, Pattern_GetFrequency,
    statusLed_eval 1 (by decide), statusLed_eval 2 (by decide), statusLed_eval 3 (by decide),
    statusPattern_eval st.activePattern st.currentFrequency hp, e0, ew]
  cases hov : st.rxOverflow <;> simp

theorem Select_STATUS (hal : HAL) (s : State) :
    Command_Parser_Select hal (s.withLine [83, 84, 65, 84, 85, 83]) =
      Execute_STATUS_Command (s.withLine [83, 84, 65, 84, 85, 83]) := by
  have h63 : ([83, 84, 65, 84, 85, 83] : List Nat).length ≤ 63 := by simp
  have hz : ∀ c ∈ ([83, 84, 65, 84, 85, 83] : List Nat), c ≠ 0 := by
    intro c hc; simp at hc; omega
  unfold Command_Parser_Select
  simp only [withLine_commandBuffer, strcmp_eq, cstr_padded _ h63 hz, cstr_STATUS,
    beq_self_eq_true, if_true]

/-- C22: dispatching the ready line `STATUS` transmits, in order, the header, one line
`LED <n>: ON` or `LED <n>: OFF` for n = 1, 2, 3 according to the output read back, the pattern
line (`INACTIF` with the tier label when no pattern is selected, `ACTIF` with the pattern id and
the tier label otherwise), the overflow warning exactly when the UART overflow flag was set, and
the prompt; besides, the assembler is cleared and the overflow flag is reset. The pattern
selection is one of the enumeration values 0..3. -/
theorem C22_status_report (hal : HAL) (s : State) (hp : s.activePattern ≤ 3) :
    Command_Parser_ProcessCommands hal (s.withLine (str "STATUS")) =
      { s with
        commandBuffer := List.replicate 64 0, bufferIndex := 0, commandComplete := false
        rxOverflow := false
        tx := s.tx ++ [str "--- Statut ---\r\n",
          statusLedLine 1 (LED_GetState 1 s == LED_ON),
          statusLedLine 2 (LED_GetState 2 s == LED_ON),
          statusLedLine 3 (LED_GetState 3 s == LED_ON),
          statusPatternLine s.activePattern s.currentFrequency] ++
          (if s.rxOverflow = true then [str "Attention: Debordement buffer UART detecte!\r\n"]
            else []) ++ [str "STM32> "] } := by
  have hL : str "STATUS" = [83, 84, 65, 84, 85, 83] := by decide
  have h63 : ([83, 84, 65, 84, 85, 83] : List Nat).length ≤ 63 := by simp
  have hz : ∀ c ∈ ([83, 84, 65, 84, 85, 83] : List Nat), c ≠ 0 := by
    intro c hc; simp at hc; omega
  have e6 : cstr (str "STM32> ") = str "STM32> " := by decide
  have hp2 : (s.withLine [83, 84, 65, 84, 85, 83]).activePattern ≤ 3 := hp
  rw [hL, ProcessCommands_withLine hal s _ h63 hz (by simp), Select_STATUS,
    Execute_STATUS_Command_eq _ hp2]
  simp only [if_true, UART_SendString, Command_Parser_Init, e6, COMMAND_BUFFER_SIZE]
  rfl

/-- Instance of C22 while pattern 2 runs at the default tier with output 1 lit. -/
theorem C22_status_report_witness :
    (Command_Parser_ProcessCommands HAL.ok ((State.running 2).withLine (str "STATUS"))).tx =
      [str "--- Statut ---\r\n", str "LED 1: ON\r\n", str "LED 2: OFF\r\n", str "LED 3: OFF\r\n",
        str "Chenillard: ACTIF (Pattern: 2, Freq: 1S)\r\n", str "STM32> "] :=
  (congrArg State.tx (C22_status_report HAL.ok (State.running 2) (by decide))).trans (by decide)

/-! ## Output bank: invalid ids and initialisation -/

theorem LED_IsValidNumber_invalid (i : Nat) (hi : ¬ (1 ≤ i ∧ i ≤ 3)) :
    LED_IsValidNumber i = false := by
  simp only [LED_IsValidNumber, LED_COUNT, decide_eq_false_iff_not]
  omega

/-- C31: for every id outside 1..3 (and every requested state), `LED_SetState` and `LED_Toggle`
return false and leave the whole state unchanged, `LED_GetState` returns `LED_ERROR`, which is
neither `LED_ON` nor `LED_OFF`, and `LED_ForceState` leaves the state unchanged. -/
theorem C31_invalid_id (i v : Nat) (s : State) (hi : ¬ (1 ≤ i ∧ i ≤ 3)) :
    LED_SetState i v s = (false, s) ∧
    LED_Toggle i s = (false, s) ∧
    LED_GetState i s = LED_ERROR ∧ LED_ERROR ≠ LED_ON ∧ LED_ERROR ≠ LED_OFF ∧
    LED_ForceState i v s = s := by
  have hv := LED_IsValidNumber_invalid i hi
  refine ⟨?_, ?_, ?_, by decide, by decide, ?_⟩
  · simp [LED_SetState, hv]
  · simp [LED_Toggle, hv]
  · simp [LED_GetState, hv]
  · simp [LED_ForceState, hv]

/-- C31 at the ids 0 and 4 with outputs lit and a pattern running. -/
theorem C31_invalid_id_witness :
    LED_SetState 0 LED_ON (State.running 2) = (false, State.running 2) ∧
    LED_GetState 4 (State.running 2) = LED_ERROR :=
  ⟨(C31_invalid_id 0 LED_ON (State.running 2) (by decide)).1,
   (C31_invalid_id 4 LED_ON (State.running 2) (by decide)).2.2.1⟩

theorem LED_Controller_Init_idle (s : State) (h : s.activePattern = PATTERN_NONE) :
    LED_Controller_Init s = { s with pb0 := false, pb7 := false, pb14 := false } := by
  have hp : ∀ t : State, t.activePattern = PATTERN_NONE → Pattern_IsActive t = false := by
    intro t ht
    simp [Pattern_IsActive, ht]
  unfold LED_Controller_Init
  have e1 := LED_SetState_free 1 LED_OFF s (by decide) (hp s h)
  have h1 : (LED_ForceState 1 LED_OFF s).activePattern = PATTERN_NONE := by
    rw [LED_ForceState_one]; exact h
  have e2 := LED_SetState_free 2 LED_OFF (LED_ForceState 1 LED_OFF s) (by decide) (hp _ h1)
  have h2 : (LED_ForceState 2 LED_OFF (LED_ForceState 1 LED_OFF s)).activePattern =
      PATTERN_NONE := by
    rw [LED_ForceState_two]; exact h1
  have e3 := LED_SetState_free 3 LED_OFF (LED_ForceState 2 LED_OFF (LED_ForceState 1 LED_OFF s))
    (by decide) (hp _ h2)
  simp only [e1, e2, e3]
  rw [LED_ForceState_three, LED_ForceState_two, LED_ForceState_one]
  rfl

theorem LED_Controller_Init_active (s : State) (h : s.activePattern ≠ PATTERN_NONE) :
    LED_Controller_Init s = s := by
  have hp : Pattern_IsActive s = true := by
    simp [Pattern_IsActive, h]
  unfold LED_Controller_Init
  simp only [LED_SetState_blocked _ _ s hp]

/-- C32 (amended): when no pattern is active, `LED_Controller_Init` leaves every output 1..3
off and changes nothing else; when a pattern is active it leaves the state, outputs included,
unchanged. -/
theorem C32_init_outputs (s : State) :
    (s.activePattern = PATTERN_NONE →
      LED_Controller_Init s = { s with pb0 := false, pb7 := false, pb14 := false } ∧
      ∀ i, 1 ≤ i ∧ i ≤ 3 → LED_GetState i (LED_Controller_Init s) = LED_OFF) ∧
    (s.activePattern ≠ PATTERN_NONE → LED_Controller_Init s = s) := by
  refine ⟨?_, LED_Controller_Init_active s⟩
  intro h
  refine ⟨LED_Controller_Init_idle s h, ?_⟩
  intro i ⟨h1, h3⟩
  rw [LED_Controller_Init_idle s h]
  have hc : i = 1 ∨ i = 2 ∨ i = 3 := by omega
  rcases hc with rfl | rfl | rfl
  · rw [LED_GetState_one]; rfl
  · rw [LED_GetState_two]; rfl
  · rw [LED_GetState_three]; rfl

/-- C32 (amended) from the idle state with the three outputs lit. -/
theorem C32_init_outputs_witness :
    LED_GetState 2
      (LED_Controller_Init { State.zero with pb0 := true, pb7 := true, pb14 := true }) =
      LED_OFF :=
  ((C32_init_outputs { State.zero with pb0 := true, pb7 := true, pb14 := true }).1 rfl).2 2
    (by decide)

/-- C32 as stated fails while a pattern is active: with pattern 2 selected and output 1 lit,
output 1 is still lit after `LED_Controller_Init`. -/
theorem C32_init_outputs_counterexample :
    LED_GetState 1 (LED_Controller_Init (State.running 2)) = LED_ON ∧ LED_ON ≠ LED_OFF := by
  decide

/-! ## Dispatcher: command form of the file header -/

theorem ProcessCommands_unknown (hal : HAL) (s : State) (L : List Nat)
    (h63 : L.length ≤ 63) (hz : ∀ c ∈ L, c ≠ 0) (hne : L ≠ [])
    (hsel : Command_Parser_Select hal (s.withLine L) = (false, s.withLine L)) :
    Command_Parser_ProcessCommands hal (s.withLine L) =
      { s with
        commandBuffer := List.replicate 64 0, bufferIndex := 0, commandComplete := false
        tx := s.tx ++ [str "[ERR] Commande inconnue ou format invalide\r\n", str "STM32> "] } := by
  have e5 : cstr (snprintf 100 (str "[ERR] " ++ cstr (str "Commande inconnue ou format invalide") ++
      str "\r\n")) = str "[ERR] Commande inconnue ou format invalide\r\n" := by
    decide
  have e6 : cstr (str "STM32> ") = str "STM32> " := by decide
  rw [ProcessCommands_withLine hal s L h63 hz hne, hsel]
  simp only [Bool.false_eq_true, if_false, Send_Error_Message, send2_withLine, e5, e6]

theorem Select_CHENILLARD_label (hal : HAL) (s : State) (n : Nat) (lab : List Nat)
    (hn : 1 ≤ n ∧ n ≤ 3) (hl : lab = str "500MS" ∨ lab = str "1S" ∨ lab = str "3S") :
    Command_Parser_Select hal (s.withLine (str "CHENILLARD" ++ [48 + n] ++ str " " ++ lab)) =
      (false, s.withLine (str "CHENILLARD" ++ [48 + n] ++ str " " ++ lab)) := by
  obtain ⟨h1, h3⟩ := hn
  have hc : n = 1 ∨ n = 2 ∨ n = 3 := by omega
  rcases hc with rfl | rfl | rfl <;> rcases hl with rfl | rfl | rfl <;>
    exact Select_unknown hal s _ (by decide) (by decide) (by decide) (by decide) (by decide)
      (by decide) (by decide)
      (fun _ => ⟨fun d _ h => by simp [str] at h, by decide⟩)

/-- C33 fails: for num in 1..3 and frequence one of 500MS, 1S, 3S the ready line
`CHENILLARD<num> <frequence>` documented in the file header is not executed. The dispatcher
answers it with the generic error `[ERR] Commande inconnue ou format invalide` and the prompt,
and leaves the pattern selection, the frequency and the outputs as they were. -/
theorem C33_documented_form_rejected (hal : HAL) (s : State) (n : Nat) (lab : List Nat)
    (hn : 1 ≤ n ∧ n ≤ 3) (hl : lab = str "500MS" ∨ lab = str "1S" ∨ lab = str "3S") :
    Command_Parser_ProcessCommands hal
        (s.withLine (str "CHENILLARD" ++ [48 + n] ++ str " " ++ lab)) =
      { s with
        commandBuffer := List.replicate 64 0, bufferIndex := 0, commandComplete := false
        tx := s.tx ++ [str "[ERR] Commande inconnue ou format invalide\r\n", str "STM32> "] } := by
  have hsel := Select_CHENILLARD_label hal s n lab hn hl
  obtain ⟨h1, h3⟩ := hn
  have hc : n = 1 ∨ n = 2 ∨ n = 3 := by omega
  rcases hc with rfl | rfl | rfl <;> rcases hl with rfl | rfl | rfl <;>
    exact ProcessCommands_unknown hal s _ (by decide) (by decide) (by decide) hsel

/-- C33 at the two lines given as examples in the file header, from the idle all-off state. -/
theorem C33_documented_form_rejected_witness :
    (Command_Parser_ProcessCommands HAL.ok (State.zero.withLine (str "CHENILLARD1 1S"))).tx =
      [str "[ERR] Commande inconnue ou format invalide\r\n", str "STM32> "] ∧
    (Command_Parser_ProcessCommands HAL.ok
        (State.zero.withLine (str "CHENILLARD2 500MS"))).activePattern = PATTERN_NONE :=
  ⟨(congrArg State.tx
      (C33_documented_form_rejected HAL.ok State.zero 1 (str "1S") (by decide)
        (Or.inr (Or.inl rfl)))).trans rfl,
   (congrArg State.activePattern
      (C33_documented_form_rejected HAL.ok State.zero 2 (str "500MS") (by decide)
        (Or.inl rfl))).trans rfl⟩

/-! ## Dispatcher invariants and the receive path -/

theorem CommandInvariant.error {hal : HAL} {P : State → Prop} (hP : CommandInvariant hal P)
    (m : List Nat) (s : State) (h : P s) : P (Send_Error_Message m s) :=
  hP.send _ s h

theorem CommandInvariant.success {hal : HAL} {P : State → Prop} (hP : CommandInvariant hal P)
    (m : List Nat) (s : State) (h : P s) : P (Send_Success_Message m s) := by
  unfold Send_Success_Message
  simp only []
  split_ifs
  · exact hP.send _ s h
  · exact hP.send _ s h

theorem CommandInvariant.stopCommand {hal : HAL} {P : State → Prop}
    (hP : CommandInvariant hal P) (s : State) (h : P s) : P (Execute_STOP_Command hal s).2 := by
  unfold Execute_STOP_Command
  simp only []
  split_ifs <;> dsimp only
  · exact hP.success _ _ (hP.stop s h)
  · exact hP.error _ _ (hP.stop s h)

theorem CommandInvariant.foldSend {hal : HAL} {P : State → Prop} (hP : CommandInvariant hal P)
    (f : State → Nat → List Nat) (l : List Nat) :
    ∀ s, P s → P (l.foldl (fun st i => UART_SendString (f st i) st) s) := by
  induction l with
  | nil => intro s h; exact h
  | cons a l ih =>
    intro s h
    rw [List.foldl_cons]
    exact ih _ (hP.send _ s h)

theorem CommandInvariant.statusTail {hal : HAL} {P : State → Prop}
    (hP : CommandInvariant hal P) (line m : List Nat) (s : State) (h : P s) :
    P (if (UART_HasOverflow (UART_SendString line s)).1 = true then
        (true, UART_SendString m (UART_HasOverflow (UART_SendString line s)).2)
      else (true, (UART_HasOverflow (UART_SendString line s)).2)).2 := by
  split_ifs <;> dsimp only
  · exact hP.send _ _ (hP.overflow _ (hP.send _ s h))
  · exact hP.overflow _ (hP.send _ s h)

theorem CommandInvariant.statusCommand {hal : HAL} {P : State → Prop}
    (hP : CommandInvariant hal P) (s : State) (h : P s) : P (Execute_STATUS_Command s).2 :=
  hP.statusTail _ _ _ (hP.foldSend _ _ _ (hP.send _ s h))

theorem CommandInvariant.ledCommand {hal : HAL} {P : State → Prop}
    (hP : CommandInvariant hal P) (cmd : List Nat) (s : State) (h : P s) :
    P (Parse_LED_Command cmd s).2 := by
  unfold Parse_LED_Command
  simp only []
  split_ifs <;> dsimp only
  · exact hP.error _ _ h
  · exact hP.error _ _ h
  · exact hP.error _ _ h
  · exact hP.error _ _ (hP.led _ _ s h)
  · exact hP.success _ _ (hP.led _ _ s h)
  · exact hP.error _ _ (hP.led _ _ s h)
  · exact hP.success _ _ (hP.led _ _ s h)
  · exact hP.error _ _ h

theorem CommandInvariant.startReply {hal : HAL} {P : State → Prop}
    (hP : CommandInvariant hal P) (n : Nat) (s : State) (h : P s) :
    P (if (Pattern_Start hal n s).1 = true then
        (true, Send_Success_Message
          (snprintf 40 (str "Chenillard " ++ fmt_d n ++ str " active\r\n"))
          (Pattern_Start hal n s).2)
      else
        (false, Send_Error_Message (str "Impossible de demarrer chenillard")
          (Pattern_Start hal n s).2)).2 := by
  split_ifs <;> dsimp only
  · exact hP.success _ _ (hP.start n s h)
  · exact hP.error _ _ (hP.start n s h)

theorem CommandInvariant.freqReply {hal : HAL} {P : State → Prop}
    (hP : CommandInvariant hal P) (c : Nat) (m : List Nat) (s : State) (h : P s) :
    P (match freqOfChar c with
      | none => (false, Send_Error_Message m s)
      | some (patternFreq, freqStr) =>
        if (Pattern_SetFrequency hal patternFreq s).1 = true then
          (true, Send_Success_Message
            (snprintf 40 (str "Frequence reglee a " ++ freqStr ++ str "\r\n"))
            (Pattern_SetFrequency hal patternFreq s).2)
        else
          (false, Send_Error_Message (str "Impossible de regler frequence")
            (Pattern_SetFrequency hal patternFreq s).2)).2 := by
  cases freqOfChar c with
  | none => exact hP.error _ _ h
  | some x =>
    obtain ⟨a, b⟩ := x
    simp only []
    split_ifs <;> dsimp only
    · exact hP.success _ _ (hP.freq a s h)
    · exact hP.error _ _ (hP.freq a s h)

theorem CommandInvariant.chenillardOn {hal : HAL} {P : State → Prop}
    (hP : CommandInvariant hal P) (cmd : List Nat) (s : State) (h : P s) :
    P (Parse_Chenillard_ON_Command hal cmd s).2 := by
  unfold Parse_Chenillard_ON_Command
  simp only []
  split_ifs <;> dsimp only
  · exact hP.error _ _ h
  · exact hP.error _ _ h
  · exact hP.success _ _ (hP.start _ s h)
  · exact hP.error _ _ (hP.start _ s h)

theorem CommandInvariant.chenillardFrequency {hal : HAL} {P : State → Prop}
    (hP : CommandInvariant hal P) (cmd : List Nat) (s : State) (h : P s) :
    P (Parse_Chenillard_Frequency_Command hal cmd s).2 := by
  unfold Parse_Chenillard_Frequency_Command
  simp only []
  split_ifs
  · exact hP.error _ _ h
  · exact hP.freqReply _ _ s h

theorem CommandInvariant.shortcut {hal : HAL} {P : State → Prop}
    (hP : CommandInvariant hal P) (cmd : List Nat) (s : State) (h : P s) :
    P (Parse_Shortcut_Command hal cmd s).2 := by
  unfold Parse_Shortcut_Command
  simp only []
  by_cases h1 : strcmp_eq cmd CMD_STOP = true
  · simp only [if_pos h1]
    exact hP.stopCommand s h
  simp only [if_neg h1]
  by_cases h2 : strncmp_eq cmd CMD_PAT (strlen CMD_PAT) = true ∧ strlen cmd = strlen CMD_PAT + 1
  · simp only [if_pos h2]
    by_cases h3 : charAt cmd (strlen CMD_PAT) ≥ 49 ∧ charAt cmd (strlen CMD_PAT) ≤ 48 + PATTERN_COUNT
    · simp only [if_pos h3]
      exact hP.startReply _ s h
    · simp only [if_neg h3]
      exact hP.error _ _ h
  simp only [if_neg h2]
  by_cases h4 : strncmp_eq cmd CMD_FREQ (strlen CMD_FREQ) = true ∧
      strlen cmd = strlen CMD_FREQ + 1
  · simp only [if_pos h4]
    exact hP.freqReply _ _ s h
  · simp only [if_neg h4]
    exact hP.error _ _ h

theorem CommandInvariant.select {hal : HAL} {P : State → Prop}
    (hP : CommandInvariant hal P) (s : State) (h : P s) :
    P (Command_Parser_Select hal s).2 := by
  unfold Command_Parser_Select
  simp only []
  split_ifs
  · exact hP.statusCommand s h
  · exact hP.stopCommand s h
  · exact hP.ledCommand _ s h
  · exact hP.chenillardOn _ s h
  · exact hP.chenillardFrequency _ s h
  · exact h
  · exact hP.shortcut _ s h
  · exact h

theorem CommandInvariant.processCommands {hal : HAL} {P : State → Prop}
    (hP : CommandInvariant hal P) (s : State) (h : P s) :
    P (Command_Parser_ProcessCommands hal s) := by
  unfold Command_Parser_ProcessCommands
  simp only []
  have hI : ∀ t : State, P t → P { t with
      commandBuffer := List.replicate COMMAND_BUFFER_SIZE 0
      bufferIndex := 0
      commandComplete := false } := fun t ht => hP.init t ht
  split_ifs
  · exact h
  · exact hP.send _ _ (hI _ (hP.error _ _ (hP.select s h)))
  · exact hP.send _ _ (hI _ (hP.select s h))
  · exact hI _ h

theorem ProcessChar_rxIndex (c : Nat) (s : State) :
    (Command_Parser_ProcessChar c s).rxIndex = s.rxIndex ∧
    (Command_Parser_ProcessChar c s).rxOverflow = s.rxOverflow := by
  unfold Command_Parser_ProcessChar
  simp only []
  split_ifs <;> exact ⟨rfl, rfl⟩

theorem rxIndex_invariant (hal : HAL) (k : Nat) :
    CommandInvariant hal (fun s => s.rxIndex = k) where
  send := fun _ _ h => h
  overflow := fun _ h => h
  led := by
    intro n v s h
    simp only [LED_SetState, HAL_GPIO_WritePin]
    split_ifs <;> exact h
  start := by
    intro n s h
    simp only [Pattern_Start, Pattern_Stop, Timer_Start, Timer_Stop, LED_AllOff_eq]
    split_ifs <;> exact h
  stop := by
    intro s h
    simp only [Pattern_Stop, Timer_Stop, LED_AllOff_eq]
    split_ifs <;> exact h
  freq := by
    intro f s h
    simp only [Pattern_SetFrequency, Timer_Start, Timer_Stop]
    split_ifs <;> exact h
  init := fun _ h => h

theorem UART_Receive_rxIndex (b : Nat) (s : State) (h : s.rxIndex ≤ 63) :
    (UART_Receive b s).rxIndex = (s.rxIndex + 1) % 64 ∧
    (UART_Receive b s).rxOverflow = (if s.rxIndex = 63 then true else s.rxOverflow) := by
  unfold UART_Receive HAL_UART_RxCpltCallback
  simp only [Bool.not_true, Bool.false_eq_true, if_false, UART_BUFFER_SIZE]
  by_cases h63 : s.rxIndex = 63
  · rw [if_pos (by show s.rxIndex ≥ 64 - 1; omega)]
    rw [(ProcessChar_rxIndex _ _).1, (ProcessChar_rxIndex _ _).2, if_pos h63, h63]
    exact ⟨rfl, rfl⟩
  · rw [if_neg (by show ¬ s.rxIndex ≥ 64 - 1; omega)]
    rw [(ProcessChar_rxIndex _ _).1, (ProcessChar_rxIndex _ _).2, if_neg h63]
    refine ⟨?_, rfl⟩
    show (s.rxIndex + 1) % 256 = (s.rxIndex + 1) % 64
    omega

theorem runRx_append (hal : HAL) (a b : List RxEvent) (s : State) :
    runRx hal (a ++ b) s = runRx hal b (runRx hal a s) := by
  simp [runRx]

theorem rxCount_append (a b : List RxEvent) : rxCount (a ++ b) = rxCount a + rxCount b := by
  induction a with
  | nil => simp [rxCount]
  | cons e a ih =>
    cases e with
    | byte c =>
      show rxCount (a ++ b) + 1 = rxCount a + 1 + rxCount b
      omega
    | poll => exact ih

theorem runRx_rxIndex (hal : HAL) (es : List RxEvent) (s : State) (h : s.rxIndex = 0) :
    (runRx hal es s).rxIndex = rxCount es % 64 := by
  induction es using List.reverseRecOn with
  | nil => simpa [runRx, rxCount] using h
  | append_singleton es e ih =>
    rw [runRx_append, rxCount_append]
    cases e with
    | byte c =>
      have hle : (runRx hal es s).rxIndex ≤ 63 := by rw [ih]; omega
      show (UART_Receive c (runRx hal es s)).rxIndex = _
      rw [(UART_Receive_rxIndex c _ hle).1, ih]
      simp only [rxCount]
      omega
    | poll =>
      show (Command_Parser_ProcessCommands hal (runRx hal es s)).rxIndex = _
      rw [(rxIndex_invariant hal _).processCommands _ rfl, ih]
      simp [rxCount]

/-- C40: after `UART_Reset`, whatever bytes are received and however the dispatcher calls are
interleaved, the receive index equals the number of bytes received modulo 64, so it stays within
0..63; the next received byte raises the overflow flag exactly when it is the 64th, 128th, ...
byte since the reset, and otherwise leaves the flag as it was; `UART_HasOverflow` returns the
flag and clears it, so a second call right after returns false. -/
theorem C40_receive_index (hal : HAL) (s0 : State) (es : List RxEvent) (s : State)
    (hs : s = runRx hal es (UART_Reset s0)) :
    s.rxIndex = rxCount es % 64 ∧ s.rxIndex ≤ UART_BUFFER_SIZE - 1 ∧
    (∀ b : Nat,
      (UART_Receive b s).rxIndex ≤ UART_BUFFER_SIZE - 1 ∧
      ((rxCount es + 1) % 64 = 0 → (UART_Receive b s).rxOverflow = true) ∧
      ((rxCount es + 1) % 64 ≠ 0 → (UART_Receive b s).rxOverflow = s.rxOverflow)) ∧
    (UART_HasOverflow s).1 = s.rxOverflow ∧
    (UART_HasOverflow (UART_HasOverflow s).2).1 = false := by
  have hi : s.rxIndex = rxCount es % 64 := by
    rw [hs]; exact runRx_rxIndex hal es _ rfl
  have hle : s.rxIndex ≤ 63 := by omega
  refine ⟨hi, hle, ?_, rfl, rfl⟩
  intro b
  obtain ⟨h1, h2⟩ := UART_Receive_rxIndex b s hle
  refine ⟨?_, ?_, ?_⟩
  · rw [h1]; show _ ≤ 64 - 1; omega
  · intro h
    rw [h2, if_pos (by omega)]
  · intro h
    rw [h2, if_neg (by omega)]

/-- C40 after the three bytes of `A`, CR, `B` with a dispatcher call in between. -/
theorem C40_receive_index_witness :
    (runRx HAL.ok [RxEvent.byte 65, RxEvent.byte 13, RxEvent.poll, RxEvent.byte 66]
      (UART_Reset State.zero)).rxIndex = 3 ∧
    (UART_HasOverflow (UART_HasOverflow
      (runRx HAL.ok [RxEvent.byte 65, RxEvent.byte 13, RxEvent.poll, RxEvent.byte 66]
        (UART_Reset State.zero))).2).1 = false :=
  ⟨(C40_receive_index HAL.ok State.zero
      [RxEvent.byte 65, RxEvent.byte 13, RxEvent.poll, RxEvent.byte 66] _ rfl).1,
   (C40_receive_index HAL.ok State.zero
      [RxEvent.byte 65, RxEvent.byte 13, RxEvent.poll, RxEvent.byte 66] _ rfl).2.2.2.2⟩

/-! ## Animation period -/

theorem patternRound_eq (s : State) (p k : Nat) (hp : 1 ≤ p ∧ p ≤ 3)
    (ha : s.activePattern = p) (hk : s.patternStep = k) (hkL : k < sequenceLength p) :
    patternRound s =
      { s with
        pb0 := decide (1 ∈ patternMask p k)
        pb7 := decide (2 ∈ patternMask p k)
        pb14 := decide (3 ∈ patternMask p k)
        patternStep := (k + 1) % sequenceLength p
        patternNeedsUpdate := false } := by
  obtain ⟨h1, h3⟩ := hp
  have hne : s.activePattern ≠ PATTERN_NONE := by rw [ha, PATTERN_NONE]; omega
  have hT : Pattern_TimerCallback s.currentFrequency s = { s with patternNeedsUpdate := true } := by
    simp [Pattern_TimerCallback, hne]
  have hc : p = 1 ∨ p = 2 ∨ p = 3 := by omega
  rcases hc with rfl | rfl | rfl
  · have hU : Pattern_Controller_Update { s with patternNeedsUpdate := true } =
        { Pattern1_Update { s with patternNeedsUpdate := true } with
          patternNeedsUpdate := false } := by
      simp [Pattern_Controller_Update, ha, PATTERN_NONE]
    have hk3 : k < 3 := hkL
    rw [patternRound, hT, hU, Pattern1_Update_eq { s with patternNeedsUpdate := true } k hk hk3]
    have hq : k = 0 ∨ k = 1 ∨ k = 2 := by omega
    rcases hq with rfl | rfl | rfl <;> rfl
  · have hU : Pattern_Controller_Update { s with patternNeedsUpdate := true } =
        { Pattern2_Update { s with patternNeedsUpdate := true } with
          patternNeedsUpdate := false } := by
      simp [Pattern_Controller_Update, ha, PATTERN_NONE]
    have hk3 : k < 2 := hkL
    rw [patternRound, hT, hU, Pattern2_Update_eq { s with patternNeedsUpdate := true } k hk hk3]
    have hq : k = 0 ∨ k = 1 := by omega
    rcases hq with rfl | rfl <;> rfl
  · have hU : Pattern_Controller_Update { s with patternNeedsUpdate := true } =
        { Pattern3_Update { s with patternNeedsUpdate := true } with
          patternNeedsUpdate := false } := by
      simp [Pattern_Controller_Update, ha, PATTERN_NONE]
    have hk3 : k < 6 := hkL
    rw [patternRound, hT, hU, Pattern3_Update_eq { s with patternNeedsUpdate := true } k hk hk3]
    have hq : k = 0 ∨ k = 1 ∨ k = 2 ∨ k = 3 ∨ k = 4 ∨ k = 5 := by omega
    rcases hq with rfl | rfl | rfl | rfl | rfl | rfl <;> rfl

theorem sequenceLength_pos (p : Nat) (hp : 1 ≤ p ∧ p ≤ 3) : 0 < sequenceLength p := by
  obtain ⟨h1, h3⟩ := hp
  have hc : p = 1 ∨ p = 2 ∨ p = 3 := by omega
  rcases hc with rfl | rfl | rfl <;> decide

theorem patternRound_iterate (s : State) (p k : Nat) (hp : 1 ≤ p ∧ p ≤ 3)
    (ha : s.activePattern = p) (hk : s.patternStep = k) (hkL : k < sequenceLength p) (n : Nat) :
    patternRound^[n + 1] s =
      { s with
        pb0 := decide (1 ∈ patternMask p ((k + n) % sequenceLength p))
        pb7 := decide (2 ∈ patternMask p ((k + n) % sequenceLength p))
        pb14 := decide (3 ∈ patternMask p ((k + n) % sequenceLength p))
        patternStep := (k + n + 1) % sequenceLength p
        patternNeedsUpdate := false } := by
  have hL := sequenceLength_pos p hp
  induction n with
  | zero =>
    show patternRound s = _
    rw [patternRound_eq s p k hp ha hk hkL]
    simp only [Nat.add_zero, Nat.mod_eq_of_lt hkL]
  | succ n ih =>
    rw [Function.iterate_succ_apply', ih]
    have key : ∀ q : State, q.activePattern = p →
        q.patternStep = (k + n + 1) % sequenceLength p →
        patternRound q =
          { q with
            pb0 := decide (1 ∈ patternMask p ((k + n + 1) % sequenceLength p))
            pb7 := decide (2 ∈ patternMask p ((k + n + 1) % sequenceLength p))
            pb14 := decide (3 ∈ patternMask p ((k + n + 1) % sequenceLength p))
            patternStep := ((k + n + 1) % sequenceLength p + 1) % sequenceLength p
            patternNeedsUpdate := false } :=
      fun q hqa hqk => patternRound_eq q p _ hp hqa hqk (Nat.mod_lt _ hL)
    have e2 : ((k + n + 1) % sequenceLength p + 1) % sequenceLength p =
        (k + (n + 1) + 1) % sequenceLength p := by
      rw [Nat.mod_add_mod, Nat.add_assoc k n 1]
    refine Eq.trans (key _ ha rfl) ?_
    rw [e2, Nat.add_assoc k n 1]

/-- C38: for every pattern P in 1..3 and every state in which P is active with a step counter
below the sequence length L of P, the whole state after L + 1 rounds (tick at the current
frequency, then poll) equals the state after 1 round. -/
theorem C38_animation_period (s : State) (p : Nat) (hp : 1 ≤ p ∧ p ≤ 3)
    (ha : s.activePattern = p) (hk : s.patternStep < sequenceLength p) :
    patternRound^[sequenceLength p + 1] s = patternRound s := by
  have hL := sequenceLength_pos p hp
  rw [patternRound_iterate s p s.patternStep hp ha rfl hk (sequenceLength p),
    patternRound_eq s p s.patternStep hp ha rfl hk]
  have e1 : (s.patternStep + sequenceLength p) % sequenceLength p = s.patternStep := by
    rw [Nat.add_mod_right, Nat.mod_eq_of_lt hk]
  have e2 : (s.patternStep + sequenceLength p + 1) % sequenceLength p =
      (s.patternStep + 1) % sequenceLength p := by
    rw [Nat.add_right_comm, Nat.add_mod_right]
  rw [e1, e2]

/-- C38 for pattern 3 at step 4, with output 1 lit before the first round. -/
theorem C38_animation_period_witness :
    patternRound^[6 + 1] { State.running 3 with patternStep := 4 } =
      patternRound { State.running 3 with patternStep := 4 } :=
  C38_animation_period { State.running 3 with patternStep := 4 } 3 (by decide) rfl (by decide)

/-! ## Pattern engine: step counter invariant -/

theorem StepOK_of_idle (s : State) (h : s.activePattern = PATTERN_NONE) : StepOK s := by
  refine ⟨?_, fun hne => absurd h hne⟩
  rw [h]; decide

theorem StepOK_start (hal : HAL) (p : Nat) (s : State) (h : StepOK s) :
    StepOK (Pattern_Start hal p s).2 := by
  by_cases hp : 1 ≤ p ∧ p ≤ 3
  · rw [Pattern_Start_of_valid hal p s hp]
    refine ⟨hp.2, fun _ => ?_⟩
    exact sequenceLength_pos p hp
  · have hv : p ≤ PATTERN_NONE ∨ p > PATTERN_COUNT := by
      simp only [PATTERN_NONE, PATTERN_COUNT]; omega
    simp only [Pattern_Start, if_pos hv]
    exact h

theorem StepOK_stop (hal : HAL) (s : State) (h : StepOK s) : StepOK (Pattern_Stop hal s).2 := by
  by_cases ha : s.activePattern = PATTERN_NONE
  · simp only [Pattern_Stop, if_pos ha]
    exact h
  · rw [Pattern_Stop_of_active hal s ha]
    exact StepOK_of_idle _ rfl

theorem StepOK_setFrequency (hal : HAL) (f : Nat) (s : State) (h : StepOK s) :
    StepOK (Pattern_SetFrequency hal f s).2 := by
  simp only [Pattern_SetFrequency, Timer_Start, Timer_Stop]
  split_ifs <;> exact h

theorem StepOK_tick (t : Nat) (s : State) (h : StepOK s) : StepOK (Pattern_TimerCallback t s) := by
  simp only [Pattern_TimerCallback]
  split_ifs <;> exact h

theorem StepOK_poll (s : State) (h : StepOK s) : StepOK (Pattern_Controller_Update s) := by
  by_cases hc : s.patternNeedsUpdate = true ∧ s.activePattern ≠ PATTERN_NONE
  · obtain ⟨hn, ha⟩ := hc
    have hp : 1 ≤ s.activePattern ∧ s.activePattern ≤ 3 := by
      refine ⟨?_, h.1⟩
      rw [PATTERN_NONE] at ha
      omega
    obtain ⟨e1, _, e3, _⟩ := Pattern_Controller_Update_engine s hn hp
    refine ⟨by rw [e3]; exact h.1, fun _ => ?_⟩
    rw [e1, e3]
    exact Nat.mod_lt _ (sequenceLength_pos _ hp)
  · have : Pattern_Controller_Update s = s := by
      simp only [Pattern_Controller_Update]
      rw [if_pos]
      by_cases hn : s.patternNeedsUpdate = true
      · have ha : s.activePattern = PATTERN_NONE := by
          by_contra ha
          exact hc ⟨hn, ha⟩
        simp [ha]
      · simp [hn]
    rw [this]
    exact h

theorem StepOK_runPattern (es : List PatternEvent) :
    ∀ s : State, StepOK s → StepOK (runPattern es s) := by
  induction es with
  | nil => intro s hs; exact hs
  | cons e es ih =>
    intro s hs
    have : runPattern (e :: es) s = runPattern es (e.apply s) := by
      simp [runPattern]
    rw [this]
    apply ih
    cases e with
    | start hal p => exact StepOK_start hal p s hs
    | stop hal => exact StepOK_stop hal s hs
    | setFrequency hal f => exact StepOK_setFrequency hal f s hs
    | tick t => exact StepOK_tick t s hs
    | poll => exact StepOK_poll s hs

/-- C35: in every state reached from `Pattern_Controller_Init` by any sequence of
`Pattern_Start`, `Pattern_Stop`, `Pattern_SetFrequency`, `Pattern_TimerCallback` and
`Pattern_Controller_Update` calls (any arguments, any timer driver outcomes), an active pattern
P is one of 1..3 and the step counter is below the sequence length of P; hence, when pattern 1
is active, the output id step + 1 passed to `LED_ForceState` is a valid id. -/
theorem C35_step_bound (es : List PatternEvent) (s0 s : State)
    (hs : s = runPattern es (Pattern_Controller_Init s0))
    (ha : s.activePattern ≠ PATTERN_NONE) :
    (1 ≤ s.activePattern ∧ s.activePattern ≤ 3) ∧
    s.patternStep < sequenceLength s.activePattern ∧
    (s.activePattern = 1 → LED_IsValidNumber ((s.patternStep + 1) % 256) = true) := by
  have h : StepOK s := by
    rw [hs]
    exact StepOK_runPattern es _ (StepOK_of_idle _ rfl)
  have hlt := h.2 ha
  refine ⟨⟨?_, h.1⟩, hlt, ?_⟩
  · rw [PATTERN_NONE] at ha
    omega
  · intro h1
    rw [h1] at hlt
    have h3 : s.patternStep < 3 := hlt
    simp only [LED_IsValidNumber, LED_COUNT, decide_eq_true_eq]
    omega

/-- C35 after starting pattern 1 and four rounds of tick and poll at the default frequency. -/
theorem C35_step_bound_witness :
    (runPattern
      [PatternEvent.start HAL.ok 1, PatternEvent.tick 1, PatternEvent.poll, PatternEvent.tick 1,
        PatternEvent.poll, PatternEvent.tick 1, PatternEvent.poll, PatternEvent.tick 1,
        PatternEvent.poll]
      (Pattern_Controller_Init State.zero)).patternStep < 3 :=
  (C35_step_bound
    [PatternEvent.start HAL.ok 1, PatternEvent.tick 1, PatternEvent.poll, PatternEvent.tick 1,
      PatternEvent.poll, PatternEvent.tick 1, PatternEvent.poll, PatternEvent.tick 1,
      PatternEvent.poll]
    State.zero _ rfl (by decide)).2.1

/-! ## Line assembler: form of the buffer -/

theorem AsmLine_nulfree (s : State) (l : List Nat) (h : AsmLine s l) : ∀ c ∈ l, c ≠ 0 := by
  intro c hc
  have := (h.2.2.2 c hc).1
  simp only [isprint, decide_eq_true_eq] at this
  omega

/-- C36: in every state reached from `Command_Parser_Init` by any sequence of
`Command_Parser_ProcessChar` and `Command_Parser_ProcessCommands` calls, the buffer has 64
bytes, the cursor is at most 63, every byte at an index from the cursor on is zero, and every
byte below the cursor is printable and not a lower-case letter; so the C string in the buffer
has the cursor as length, contains no NUL, is its own upper-casing, and the buffer is that
string padded with NUL bytes. This holds in particular whenever a line is ready. -/
theorem C36_buffer_form (hal : HAL) (s0 : State) (es : List AsmEvent) (s : State)
    (hs : s = runEvents hal es (Command_Parser_Init s0)) :
    s.commandBuffer.length = COMMAND_BUFFER_SIZE ∧ s.bufferIndex ≤ COMMAND_BUFFER_SIZE - 1 ∧
    (∀ i, s.bufferIndex ≤ i → i < COMMAND_BUFFER_SIZE → charAt s.commandBuffer i = 0) ∧
    (∀ i, i < s.bufferIndex →
      isprint (charAt s.commandBuffer i) = true ∧
      ¬ (97 ≤ charAt s.commandBuffer i ∧ charAt s.commandBuffer i ≤ 122)) ∧
    strlen s.commandBuffer = s.bufferIndex ∧
    (∀ c ∈ cstr s.commandBuffer, c ≠ 0) ∧
    (cstr s.commandBuffer).map toupper = cstr s.commandBuffer ∧
    s.commandBuffer = padded (cstr s.commandBuffer) := by
  have hok : AsmOK s := by
    rw [hs]
    exact AsmOK_runEvents hal es _ (AsmOK_init s0)
  obtain ⟨l, hl⟩ := hok
  have hz := AsmLine_nulfree s l hl
  obtain ⟨hb, hi, h63, hch⟩ := hl
  have hc : cstr s.commandBuffer = l := by rw [hb]; exact cstr_padded l h63 hz
  refine ⟨?_, ?_, ?_, ?_, ?_, ?_, ?_, ?_⟩
  · rw [hb, padded_length l h63]; rfl
  · rw [hi]; simp only [COMMAND_BUFFER_SIZE]; omega
  · intro i hge _
    rw [hb, charAt_padded, List.getD_eq_default]
    omega
  · intro i hlt
    rw [hi] at hlt
    rw [hb, charAt_padded, List.getD_eq_getElem l 0 hlt]
    exact hch _ (List.getElem_mem hlt)
  · rw [strlen, hc, hi]
  · rw [hc]; exact hz
  · rw [hc]
    conv_rhs => rw [← List.map_id l]
    apply List.map_congr_left
    intro c hcm
    have := (hch c hcm).2
    simp only [toupper, id]
    rw [if_neg this]
  · rw [hc]; exact hb

/-- C36 after the bytes of `led1 on` and CR: the ready line is `LED1 ON` with cursor 7. -/
theorem C36_buffer_form_witness :
    strlen (runEvents HAL.ok ((str "led1 on\r").map AsmEvent.char)
      (Command_Parser_Init State.zero)).commandBuffer = 7 ∧
    cstr (runEvents HAL.ok ((str "led1 on\r").map AsmEvent.char)
      (Command_Parser_Init State.zero)).commandBuffer = str "LED1 ON" :=
  ⟨(C36_buffer_form HAL.ok State.zero ((str "led1 on\r").map AsmEvent.char) _ rfl).2.2.2.2.1.trans
      (by decide),
   by decide⟩

/-! ## System invariant: outputs of the running pattern -/

theorem Pattern_Controller_Update_noop (s : State)
    (h : ¬ (s.patternNeedsUpdate = true ∧ s.activePattern ≠ PATTERN_NONE)) :
    Pattern_Controller_Update s = s := by
  simp only [Pattern_Controller_Update]
  rw [if_pos]
  by_cases hn : s.patternNeedsUpdate = true
  · have ha : s.activePattern = PATTERN_NONE := by
      by_contra ha
      exact h ⟨hn, ha⟩
    simp [ha]
  · simp [hn]

theorem Pattern_Controller_Update_eq_round (s : State) (hn : s.patternNeedsUpdate = true)
    (ha : s.activePattern ≠ PATTERN_NONE) : Pattern_Controller_Update s = patternRound s := by
  have hT : Pattern_TimerCallback s.currentFrequency s = s := by
    simp only [Pattern_TimerCallback]
    split_ifs
    · cases s
      simp only at hn
      simp only [hn]
    · rfl
  rw [patternRound, hT]

theorem lastStep_after (p k : Nat) (hp : 1 ≤ p ∧ p ≤ 3) (hk : k < sequenceLength p) :
    ((k + 1) % sequenceLength p + sequenceLength p - 1) % sequenceLength p = k := by
  obtain ⟨h1, h3⟩ := hp
  have hc : p = 1 ∨ p = 2 ∨ p = 3 := by omega
  rcases hc with rfl | rfl | rfl
  · have hk3 : k < 3 := hk
    show ((k + 1) % 3 + 3 - 1) % 3 = k
    omega
  · have hk3 : k < 2 := hk
    show ((k + 1) % 2 + 2 - 1) % 2 = k
    omega
  · have hk3 : k < 6 := hk
    show ((k + 1) % 6 + 6 - 1) % 6 = k
    omega

theorem EngineOK_of_idle (s : State) (h : s.activePattern = PATTERN_NONE) : EngineOK s :=
  ⟨StepOK_of_idle s h, fun hne => absurd h hne⟩

theorem EngineOK_of_pending (s : State) (h : StepOK s) (hn : s.patternNeedsUpdate = true) :
    EngineOK s :=
  ⟨h, fun _ hf => by rw [hn] at hf; exact absurd hf (by decide)⟩

theorem EngineOK_poll (s : State) (h : EngineOK s) : EngineOK (Pattern_Controller_Update s) := by
  by_cases hc : s.patternNeedsUpdate = true ∧ s.activePattern ≠ PATTERN_NONE
  · obtain ⟨hn, ha⟩ := hc
    refine ⟨StepOK_poll s h.1, ?_⟩
    have hp : 1 ≤ s.activePattern ∧ s.activePattern ≤ 3 := by
      refine ⟨?_, h.1.1⟩
      rw [PATTERN_NONE] at ha
      omega
    have hk := h.1.2 ha
    rw [Pattern_Controller_Update_eq_round s hn ha,
      patternRound_eq s s.activePattern s.patternStep hp rfl rfl hk]
    intro _ _
    have e : lastStep { s with
        pb0 := decide (1 ∈ patternMask s.activePattern s.patternStep)
        pb7 := decide (2 ∈ patternMask s.activePattern s.patternStep)
        pb14 := decide (3 ∈ patternMask s.activePattern s.patternStep)
        patternStep := (s.patternStep + 1) % sequenceLength s.activePattern
        patternNeedsUpdate := false } = s.patternStep :=
      lastStep_after s.activePattern s.patternStep hp hk
    rw [e]
    exact ⟨rfl, rfl, rfl⟩
  · rw [Pattern_Controller_Update_noop s hc]
    exact h

theorem EngineOK_tick (t : Nat) (s : State) (h : EngineOK s) :
    EngineOK (Pattern_TimerCallback t s) := by
  simp only [Pattern_TimerCallback]
  split_ifs
  · exact EngineOK_of_pending _ h.1 rfl
  · exact h

theorem EngineOK_invariant (hal : HAL) : CommandInvariant hal EngineOK where
  send := fun _ _ h => h
  overflow := fun _ h => h
  init := fun _ h => h
  led := by
    intro n v s h
    by_cases ha : s.activePattern = PATTERN_NONE
    · apply EngineOK_of_idle
      simp only [LED_SetState, HAL_GPIO_WritePin]
      split_ifs <;> exact ha
    · have hp : Pattern_IsActive s = true := by simp [Pattern_IsActive, ha]
      rw [LED_SetState_blocked n v s hp]
      exact h
  start := by
    intro n s h
    by_cases hp : 1 ≤ n ∧ n ≤ 3
    · apply EngineOK_of_pending _ (StepOK_start hal n s h.1)
      rw [Pattern_Start_of_valid hal n s hp]
    · have hv : n ≤ PATTERN_NONE ∨ n > PATTERN_COUNT := by
        simp only [PATTERN_NONE, PATTERN_COUNT]; omega
      simp only [Pattern_Start, if_pos hv]
      exact h
  stop := by
    intro s h
    by_cases ha : s.activePattern = PATTERN_NONE
    · simp only [Pattern_Stop, if_pos ha]
      exact h
    · rw [Pattern_Stop_of_active hal s ha]
      exact EngineOK_of_idle _ rfl
  freq := by
    intro f s h
    simp only [Pattern_SetFrequency, Timer_Start, Timer_Stop]
    split_ifs <;> exact h

theorem EngineOK_command (hal : HAL) (L : List Nat) (s : State) (h : EngineOK s) :
    EngineOK (Command_Parser_ProcessCommands hal (s.withLine L)) :=
  (EngineOK_invariant hal).processCommands (s.withLine L) h

theorem EngineOK_runSystem (es : List SystemEvent) :
    ∀ s : State, EngineOK s → EngineOK (runSystem es s) := by
  induction es with
  | nil => intro s hs; exact hs
  | cons e es ih =>
    intro s hs
    have : runSystem (e :: es) s = runSystem es (e.apply s) := by
      simp [runSystem]
    rw [this]
    apply ih
    cases e with
    | command hal L => exact EngineOK_command hal L s hs
    | tick t => exact EngineOK_tick t s hs
    | poll => exact EngineOK_poll s hs

/-- C37: in every state reached from a state without active pattern (in particular the
initialised system) by any sequence of dispatched command lines, timer ticks and polls, if a
pattern P is active and no update is pending, then P is one of 1..3, the step counter is below
the sequence length L of P, and each output i in 1..3 is on exactly when i belongs to the table
mask of P at step (step - 1) mod L, and off otherwise. -/
theorem C37_outputs_show_last_step (es : List SystemEvent) (s0 s : State)
    (h0 : s0.activePattern = PATTERN_NONE) (hs : s = runSystem es s0)
    (ha : s.activePattern ≠ PATTERN_NONE) (hn : s.patternNeedsUpdate = false) :
    (1 ≤ s.activePattern ∧ s.activePattern ≤ 3) ∧
    s.patternStep < sequenceLength s.activePattern ∧
    ∀ i, 1 ≤ i ∧ i ≤ 3 →
      LED_GetState i s =
        if i ∈ patternMask s.activePattern
            ((s.patternStep + sequenceLength s.activePattern - 1) %
              sequenceLength s.activePattern)
        then LED_ON else LED_OFF := by
  have h : EngineOK s := by
    rw [hs]
    exact EngineOK_runSystem es s0 (EngineOK_of_idle s0 h0)
  obtain ⟨hok, hshow⟩ := h
  obtain ⟨e0, e7, e14⟩ := hshow ha hn
  refine ⟨⟨?_, hok.1⟩, hok.2 ha, ?_⟩
  · rw [PATTERN_NONE] at ha
    omega
  · intro i ⟨h1, h3⟩
    have hc : i = 1 ∨ i = 2 ∨ i = 3 := by omega
    rcases hc with rfl | rfl | rfl
    · rw [LED_GetState_one, e0]
      simp only [lastStep, decide_eq_true_eq]
    · rw [LED_GetState_two, e7]
      simp only [lastStep, decide_eq_true_eq]
    · rw [LED_GetState_three, e14]
      simp only [lastStep, decide_eq_true_eq]

/-- C37 after `PAT3`, two rounds of tick and poll, a rejected `LED1 ON` and `FREQ1`: pattern 3
shows its step 1, outputs 1 and 2. -/
theorem C37_outputs_show_last_step_witness :
    LED_GetState 2
      (runSystem
        [SystemEvent.command HAL.ok (str "PAT3"), SystemEvent.tick 1, SystemEvent.poll,
          SystemEvent.tick 1, SystemEvent.poll, SystemEvent.command HAL.ok (str "LED1 ON"),
          SystemEvent.command HAL.ok (str "FREQ1")]
        State.zero) = LED_ON :=
  ((C37_outputs_show_last_step
    [SystemEvent.command HAL.ok (str "PAT3"), SystemEvent.tick 1, SystemEvent.poll,
      SystemEvent.tick 1, SystemEvent.poll, SystemEvent.command HAL.ok (str "LED1 ON"),
      SystemEvent.command HAL.ok (str "FREQ1")]
    State.zero _ rfl rfl (by decide) (by decide)).2.2 2 (by decide)).trans (by decide)

/-! ## Host-side validator -/

theorem Parse_LED_Command_accepts (cmd : List Nat) (s : State)
    (h : (Parse_LED_Command cmd s).1 = true) :
    7 ≤ strlen cmd ∧ (49 ≤ charAt cmd 3 ∧ charAt cmd 3 ≤ 51) ∧ charAt cmd 4 = 32 ∧
      (cstr (cmd.drop 5) = [79, 78] ∨ cstr (cmd.drop 5) = [79, 70, 70]) := by
  unfold Parse_LED_Command at h
  simp only [strlen_LED, LED_COUNT] at h
  by_cases h1 : strlen cmd < 3 + 4
  · simp only [if_pos h1] at h
    exact absurd h (by decide)
  simp only [if_neg h1] at h
  by_cases h2 : charAt cmd 3 < 49 ∨ charAt cmd 3 > 48 + 3
  · simp only [if_pos h2] at h
    exact absurd h (by decide)
  simp only [if_neg h2] at h
  by_cases h3 : charAt cmd (3 + 1) ≠ 32
  · simp only [if_pos h3] at h
    exact absurd h (by decide)
  simp only [if_neg h3] at h
  by_cases h4 : strcmp_eq (cmd.drop (3 + 2)) CMD_ON = true ∨
      strcmp_eq (cmd.drop (3 + 2)) CMD_OFF = true
  · have ht : cstr (cmd.drop 5) = [79, 78] ∨ cstr (cmd.drop 5) = [79, 70, 70] := by
      rcases h4 with h | h
      · left; rw [(strcmp_eq_iff _ _).mp h, cstr_ON]
      · right; rw [(strcmp_eq_iff _ _).mp h, cstr_OFF]
    refine ⟨by omega, by omega, ?_, ht⟩
    simpa using h3
  · simp only [if_neg h4] at h
    exact absurd h (by decide)

theorem Parse_Chenillard_ON_Command_accepts (hal : HAL) (cmd : List Nat) (s : State)
    (h : (Parse_Chenillard_ON_Command hal cmd s).1 = true) :
    (49 ≤ charAt cmd 10 ∧ charAt cmd 10 ≤ 51) ∧ cstr (cmd.drop 11) = [32, 79, 78] := by
  unfold Parse_Chenillard_ON_Command at h
  simp only [strlen_CHENILLARD, PATTERN_COUNT] at h
  by_cases h2 : charAt cmd 10 < 49 ∨ charAt cmd 10 > 48 + 3
  · simp only [if_pos h2] at h
    exact absurd h (by decide)
  by_cases h3 : (!strcmp_eq (cmd.drop (10 + 1)) (str " " ++ CMD_ON)) = true
  · simp only [if_neg h2, if_pos h3] at h
    exact absurd h (by decide)
  refine ⟨by omega, ?_⟩
  have h5 : strcmp_eq (cmd.drop 11) (str " " ++ CMD_ON) = true := by simpa using h3
  rw [(strcmp_eq_iff _ _).mp h5, cstr_sp_ON]

theorem freqOfChar_isSome (c : Nat) (h : freqOfChar c ≠ none) : 49 ≤ c ∧ c ≤ 51 := by
  unfold freqOfChar at h
  split at h
  · decide
  · decide
  · decide
  · exact absurd rfl h

theorem Freq_reply_accepts (hal : HAL) (c : Nat) (m : List Nat) (s : State)
    (h : (match freqOfChar c with
      | none => (false, Send_Error_Message m s)
      | some (patternFreq, freqStr) =>
        if (Pattern_SetFrequency hal patternFreq s).1 = true then
          (true, Send_Success_Message
            (snprintf 40 (str "Frequence reglee a " ++ freqStr ++ str "\r\n"))
            (Pattern_SetFrequency hal patternFreq s).2)
        else
          (false, Send_Error_Message (str "Impossible de regler frequence")
            (Pattern_SetFrequency hal patternFreq s).2)).1 = true) :
    49 ≤ c ∧ c ≤ 51 := by
  apply freqOfChar_isSome
  intro hc
  rw [hc] at h
  exact Bool.false_ne_true h

theorem Parse_Chenillard_Frequency_Command_accepts (hal : HAL) (cmd : List Nat) (s : State)
    (h : (Parse_Chenillard_Frequency_Command hal cmd s).1 = true) :
    strlen cmd = 21 ∧
    (cstr cmd).take 20 =
      [67, 72, 69, 78, 73, 76, 76, 65, 82, 68, 32, 70, 82, 69, 81, 85, 69, 78, 67, 69] ∧
    (49 ≤ charAt cmd 20 ∧ charAt cmd 20 ≤ 51) := by
  unfold Parse_Chenillard_Frequency_Command at h
  simp only [strlen_CHENILLARD_FREQUENCE] at h
  by_cases h1 : strlen cmd ≠ 20 + 1 ∨
      (!strncmp_eq cmd (CMD_CHENILLARD ++ str " " ++ CMD_FREQ_PREFIX) 20) = true
  · simp only [if_pos h1] at h
    exact absurd h (by decide)
  simp only [if_neg h1] at h
  have h2 : strlen cmd = 21 := by
    by_contra hc
    exact h1 (Or.inl hc)
  have h3 : strncmp_eq cmd (CMD_CHENILLARD ++ str " " ++ CMD_FREQ_PREFIX) 20 = true := by
    by_contra hc
    exact h1 (Or.inr (by simpa using hc))
  refine ⟨h2, ?_, Freq_reply_accepts hal _ _ s h⟩
  simp only [strncmp_eq, cstr_CHENILLARD_FREQUENCE, beq_iff_eq] at h3
  rw [h3]
  rfl

theorem Parse_Shortcut_Command_accepts (hal : HAL) (cmd : List Nat) (s : State)
    (h : (Parse_Shortcut_Command hal cmd s).1 = true) :
    cstr cmd = [83, 84, 79, 80] ∨
    ((cstr cmd).take 3 = [80, 65, 84] ∧ strlen cmd = 4 ∧
      49 ≤ charAt cmd 3 ∧ charAt cmd 3 ≤ 51) ∨
    ((cstr cmd).take 4 = [70, 82, 69, 81] ∧ strlen cmd = 5 ∧
      49 ≤ charAt cmd 4 ∧ charAt cmd 4 ≤ 51) := by
  unfold Parse_Shortcut_Command at h
  simp only [strlen_PAT, strlen_FREQ, PATTERN_COUNT] at h
  by_cases h1 : strcmp_eq cmd CMD_STOP = true
  · left
    rw [(strcmp_eq_iff _ _).mp h1, cstr_STOP]
  simp only [if_neg h1] at h
  by_cases h2 : strncmp_eq cmd CMD_PAT 3 = true ∧ strlen cmd = 3 + 1
  · simp only [if_pos h2] at h
    by_cases h3 : charAt cmd 3 ≥ 49 ∧ charAt cmd 3 ≤ 48 + 3
    · right; left
      obtain ⟨a, b⟩ := h2
      simp only [strncmp_eq, cstr_PAT, beq_iff_eq] at a
      exact ⟨by rw [a]; rfl, b, h3.1, h3.2⟩
    · simp only [if_neg h3] at h
      exact absurd h (by decide)
  simp only [if_neg h2] at h
  by_cases h4 : strncmp_eq cmd CMD_FREQ 4 = true ∧ strlen cmd = 4 + 1
  · simp only [if_pos h4] at h
    right; right
    obtain ⟨a, b⟩ := h4
    simp only [strncmp_eq, cstr_FREQ, beq_iff_eq] at a
    have := Freq_reply_accepts hal _ _ s h
    exact ⟨by rw [a]; rfl, b, this.1, this.2⟩
  · simp only [if_neg h4] at h
    exact absurd h (by decide)

theorem line_shape_last (L : List Nat) (n : Nat) (h : L.length = n + 1) :
    L = L.take n ++ [L.getD n 0] := by
  have e := (List.take_append_drop n L).symm
  rw [drop_eq_getD_cons L n (by omega), List.drop_of_length_le (by omega)] at e
  exact e

theorem line_shape_mid (L : List Nat) (n : Nat) (h : n < L.length) :
    L = L.take n ++ L.getD n 0 :: L.drop (n + 1) := by
  have e := (List.take_append_drop n L).symm
  rw [drop_eq_getD_cons L n h] at e
  exact e

theorem Select_accepts (hal : HAL) (s : State) (L : List Nat)
    (h63 : L.length ≤ 63) (hz : ∀ c ∈ L, c ≠ 0)
    (h : (Command_Parser_Select hal (s.withLine L)).1 = true) : L ∈ executableLines := by
  by_cases h1 : L = [83, 84, 65, 84, 85, 83]
  · rw [h1]; decide
  by_cases h2 : L = [83, 84, 79, 80]
  · rw [h2]; decide
  by_cases h3 : L.take 3 = [76, 69, 68]
  · rw [Select_LED hal s L h63 hz h3] at h
    obtain ⟨a1, ⟨a2, a3⟩, a4, a5⟩ := Parse_LED_Command_accepts _ _ h
    rw [strlen_padded L h63 hz] at a1
    rw [charAt_padded] at a2 a3 a4
    rw [cstr_drop_padded L 5 h63 hz] at a5
    have hd : L.getD 3 0 = 49 ∨ L.getD 3 0 = 50 ∨ L.getD 3 0 = 51 := by omega
    rcases a5 with a5 | a5
    · have e := LED_line_shape L h3 a1 a4 _ a5
      rcases hd with hd | hd | hd <;> rw [hd] at e <;> rw [e] <;> decide
    · have e := LED_line_shape L h3 a1 a4 _ a5
      rcases hd with hd | hd | hd <;> rw [hd] at e <;> rw [e] <;> decide
  unfold Command_Parser_Select at h
  simp only [withLine_commandBuffer, strcmp_eq, strncmp_eq, cstr_padded _ h63 hz, cstr_LED,
    cstr_STATUS, cstr_STOP, strlen_LED, cstr_CHENILLARD, strlen_CHENILLARD, cstr_PAT, strlen_PAT,
    cstr_FREQ, strlen_FREQ, strlen, cstr_drop_padded _ _ h63 hz, List.drop_drop, charAt_drop,
    charAt_padded, cstr_sp_ON, cstr_sp_FREQUENCE, strlen_sp_FREQUENCE, beq_iff_eq,
    List.take_succ_cons, List.take_zero, List.take_nil, List.length_cons, List.length_nil,
    Nat.reduceAdd, h1, h2, h3, if_false] at h
  by_cases hc : L.take 10 = [67, 72, 69, 78, 73, 76, 76, 65, 82, 68]
  · simp only [hc, if_true] at h
    by_cases k1 : (L.drop 10).length ≥ 4 ∧ isdigit (L.getD 10 0) = true ∧
        L.drop 11 = [32, 79, 78]
    · obtain ⟨b1, _, b3⟩ := k1
      have hl : 10 < L.length := by
        simp only [List.length_drop] at b1; omega
      simp only [List.length_drop] at b1
      rw [if_pos ⟨by simpa using b1, by assumption, b3⟩] at h
      obtain ⟨⟨a2, a3⟩, _⟩ := Parse_Chenillard_ON_Command_accepts hal _ _ h
      rw [charAt_padded] at a2 a3
      have e := line_shape_mid L 10 hl
      rw [hc, b3] at e
      have hd : L.getD 10 0 = 49 ∨ L.getD 10 0 = 50 ∨ L.getD 10 0 = 51 := by omega
      rcases hd with hd | hd | hd <;> rw [hd] at e <;> rw [e] <;> decide
    · rw [if_neg (by simpa using k1)] at h
      by_cases k2 : (L.drop 10).take 10 = [32, 70, 82, 69, 81, 85, 69, 78, 67, 69]
      · rw [if_pos k2] at h
        obtain ⟨a1, a2, a3, a4⟩ := Parse_Chenillard_Frequency_Command_accepts hal _ _ h
        rw [strlen_padded L h63 hz] at a1
        rw [cstr_padded L h63 hz] at a2
        rw [charAt_padded] at a3 a4
        have e := line_shape_last L 20 a1
        rw [a2] at e
        have hd : L.getD 20 0 = 49 ∨ L.getD 20 0 = 50 ∨ L.getD 20 0 = 51 := by omega
        rcases hd with hd | hd | hd <;> rw [hd] at e <;> rw [e] <;> decide
      · rw [if_neg k2] at h
        exact absurd h Bool.false_ne_true
  · simp only [hc, if_false] at h
    by_cases k3 : L.take 3 = [80, 65, 84] ∨ L.take 4 = [70, 82, 69, 81]
    · rw [if_pos k3] at h
      rcases Parse_Shortcut_Command_accepts hal _ _ h with a | ⟨a1, a2, a3, a4⟩ | ⟨a1, a2, a3, a4⟩
      · rw [cstr_padded L h63 hz] at a
        exact absurd a h2
      · rw [cstr_padded L h63 hz] at a1
        rw [strlen_padded L h63 hz] at a2
        rw [charAt_padded] at a3 a4
        have e := line_shape_last L 3 a2
        rw [a1] at e
        have hd : L.getD 3 0 = 49 ∨ L.getD 3 0 = 50 ∨ L.getD 3 0 = 51 := by omega
        rcases hd with hd | hd | hd <;> rw [hd] at e <;> rw [e] <;> decide
      · rw [cstr_padded L h63 hz] at a1
        rw [strlen_padded L h63 hz] at a2
        rw [charAt_padded] at a3 a4
        have e := line_shape_last L 4 a2
        rw [a1] at e
        have hd : L.getD 4 0 = 49 ∨ L.getD 4 0 = 50 ∨ L.getD 4 0 = 51 := by omega
        rcases hd with hd | hd | hd <;> rw [hd] at e <;> rw [e] <;> decide
    · rw [if_neg k3] at h
      exact absurd h Bool.false_ne_true

theorem isErrLine_not_ok (r : List Nat) (h : isErrLine r = true) :
    isOkLine r = false ∧ r ≠ str "--- Statut ---\r\n" := by
  constructor
  · simp only [isErrLine, Bool.and_eq_true, beq_iff_eq] at h
    have h6 := h.1
    by_contra hc
    have hok : isOkLine r = true := by simpa using hc
    simp only [isOkLine, Bool.and_eq_true, beq_iff_eq] at hok
    have h5 := hok.1
    have e : (r.take 6).take 5 = r.take 5 := by
      rw [List.take_take]; rfl
    rw [h6, h5] at e
    exact absurd e (by decide)
  · intro hc
    rw [hc] at h
    exact absurd h (by decide)

theorem Executes_select (hal : HAL) (s : State) (L : List Nat)
    (h63 : L.length ≤ 63) (hz : ∀ c ∈ L, c ≠ 0) (h : Executes hal s L) :
    (Command_Parser_Select hal (s.withLine L)).1 = true := by
  obtain ⟨r, hr, hprop⟩ := h
  by_cases hne : L = []
  · rw [hne, ProcessCommands_empty] at hr
    have : (Command_Parser_Init s).tx = s.tx := rfl
    rw [this, List.drop_length] at hr
    exact absurd hr (List.not_mem_nil r)
  by_contra hsel
  have hgen : ¬ (isOkLine (str "[ERR] Commande inconnue ou format invalide\r\n") = true ∨
      str "[ERR] Commande inconnue ou format invalide\r\n" = str "--- Statut ---\r\n") := by
    decide
  have hprompt : ¬ (isOkLine (str "STM32> ") = true ∨
      str "STM32> " = str "--- Statut ---\r\n") := by
    decide
  rw [ProcessCommands_tx hal s L h63 hz hne, if_neg hsel] at hr
  have hns : strcmp_eq (s.withLine L).commandBuffer CMD_STATUS = false := by
    by_contra hc
    have hc2 : strcmp_eq (s.withLine L).commandBuffer CMD_STATUS = true := by simpa using hc
    apply hsel
    unfold Command_Parser_Select
    rw [if_pos hc2]
    exact Execute_STATUS_Command_fst _
  rcases Select_responds hal (s.withLine L) hns with hresp | hnone
  · obtain ⟨r0, htx, hkind⟩ := hresp
    have herr : isErrLine r0 = true := by
      rcases hkind with ⟨_, hb⟩ | he
      · exact absurd hb hsel
      · exact he
    have hs : (s.withLine L).tx = s.tx := rfl
    rw [htx, hs, List.append_assoc, List.append_assoc, List.drop_left] at hr
    simp only [List.cons_append, List.nil_append, List.mem_cons, List.mem_singleton,
      List.not_mem_nil, or_false] at hr
    rcases hr with rfl | rfl | rfl
    · obtain ⟨n1, n2⟩ := isErrLine_not_ok r herr
      rcases hprop with hp | hp
      · rw [n1] at hp; exact absurd hp (by decide)
      · exact n2 hp
    · exact hgen hprop
    · exact hprompt hprop
  · rw [hnone] at hr
    have hs : (s.withLine L).tx = s.tx := rfl
    simp only [hs, List.append_assoc, List.drop_left, List.cons_append, List.nil_append,
      List.mem_cons, List.mem_singleton, List.not_mem_nil, or_false] at hr
    rcases hr with rfl | rfl
    · exact hgen hprop
    · exact hprompt hprop

theorem cstr_eq_self (l : List Nat) (h : ∀ c ∈ l, c ≠ 0) : cstr l = l := by
  induction l with
  | nil => rfl
  | cons a l ih =>
    have ha : a ≠ 0 := h a (by simp)
    rw [cstr_cons a l ha, ih (fun c hc => h c (by simp [hc]))]

theorem Command_upperCopy_variant (L L' : List Nat) (hmap : L'.map toupper = L)
    (hlen : L.length ≤ 127) (hL : ∀ c ∈ L, c ≠ 0 ∧ c < 128) :
    Command_upperCopy L' = L ∧ strlen L' = L.length := by
  have hc : ∀ c ∈ L', c ≠ 0 ∧ c < 256 := by
    intro c hc
    have hm : toupper c ∈ L := by
      rw [← hmap]; exact List.mem_map_of_mem toupper hc
    obtain ⟨a, b⟩ := hL _ hm
    unfold toupper at a b
    split_ifs at a b <;> omega
  have hcs : cstr L' = L' := cstr_eq_self L' (fun c h => (hc c h).1)
  have hl : L'.length = L.length := by rw [← hmap, List.length_map]
  constructor
  · unfold Command_upperCopy
    rw [hcs, List.take_of_length_le (by omega), ← hmap]
    apply List.map_congr_left
    intro c hcm
    have := (hc c hcm).2
    show toupper (c % 256) = toupper c
    rw [Nat.mod_eq_of_lt this]
  · rw [strlen, hcs, hl]

theorem executableLines_valid :
    ∀ L ∈ executableLines,
      L.map toupper = L ∧ Command_Validate_formats L = true ∧ L ≠ [] ∧ L.length ≤ 127 ∧
        ∀ c ∈ L, c ≠ 0 ∧ c < 128 := by
  decide

/-- C39: for every ready line L (at most 63 characters, no NUL) that the firmware dispatcher
answers, in some state and for some timer driver outcomes, with an `[OK]` response or with the
status report, and for every command L' that differs from L only in letter case,
`Command_Validate` returns true. -/
theorem C39_validator_accepts (hal : HAL) (s : State) (L L' : List Nat)
    (h63 : L.length ≤ 63) (hz : ∀ c ∈ L, c ≠ 0) (hex : Executes hal s L)
    (hcase : L'.map toupper = L.map toupper) :
    Command_Validate (some L') = true := by
  have hmem := Select_accepts hal s L h63 hz (Executes_select hal s L h63 hz hex)
  obtain ⟨hup, hval, hne, hlen, hch⟩ := executableLines_valid L hmem
  rw [hup] at hcase
  obtain ⟨e1, e2⟩ := Command_upperCopy_variant L L' hcase hlen hch
  have hpos : ¬ strlen L' = 0 := by
    rw [e2]
    intro h0
    exact hne (List.length_eq_zero.mp h0)
  show (if strlen L' = 0 then false else Command_Validate_formats (Command_upperCopy L')) = true
  rw [if_neg hpos, e1, hval]

/-- C39 at the line `LED2 OFF`, executed from the idle state, and its variant `Led2 oFf`. -/
theorem C39_validator_accepts_witness : Command_Validate (some (str "Led2 oFf")) = true :=
  C39_validator_accepts HAL.ok State.zero (str "LED2 OFF") (str "Led2 oFf") (by decide)
    (by decide) ⟨str "[OK] LED 2 mise a OFF\r\n", by decide, Or.inl (by decide)⟩ (by decide)

end Firmware
